import Mathlib

/-!
# Vertical remapper (EAMxx `VerticalRemapper`)

A shallow embedding of `components/eamxx/src/share/grid/remap/vertical_remapper.cpp`.

Conventions of the embedding.

* `Real` is modelled by the rationals, so that arithmetic is exact and every
  definition can be evaluated.
* A `Field` is a value: identifier, allocation properties, the two entries of
  the extra-data table that the remapper uses (`"mask_data"`, `"mask_value"`),
  and the stored numbers.  Each registered pair owns its source and its target.
* The numbers of a field are kept as the list of its rows: a row is the run of
  the last (fastest) dimension, and the rows are listed in row-major order of
  the leading dimensions.  A `(COL,LEV)` field has one row per column; a
  `(COL,CMP,LEV)` field has row `icol * ncmp + icmp`.
* A field handle stored in the extra data is represented by the identifier of
  the field it points to.
* A C++ exception leaves the object as mutated so far; every operation returns
  the state reached together with the error, if any.
-/

namespace scream

/-! ## Field tags and layouts -/

/-- Modelled from the spec: the dimension tags of `share/field/field_tag.hpp`
(not among the sources), under their short names. -/
inductive FieldTag
  | Invalid | EL | COL | GP | TL | LEV | ILEV | CMP
  deriving DecidableEq, Repr

open FieldTag

/-- Modelled from the spec: the layout kinds returned by `get_layout_type`. -/
inductive LayoutType
  | Invalid | Scalar2D | Vector2D | Tensor2D | Scalar3D | Vector3D | Tensor3D
  deriving DecidableEq, Repr

/-- Modelled from the spec: `FieldLayout`, an ordered tag sequence with sizes. -/
structure FieldLayout where
  tags : List FieldTag
  dims : List Nat
  deriving DecidableEq, Repr

namespace FieldLayout

/-- The value of `FieldLayout::invalid()`. -/
def invalid : FieldLayout := ⟨[], []⟩

/-- The number of tags, `FieldLayout::rank`. -/
def rank (l : FieldLayout) : Nat := l.tags.length

/-- Membership of a tag, `FieldLayout::has_tag`. -/
def has_tag (l : FieldLayout) (t : FieldTag) : Bool := l.tags.contains t

/-- The extent of the (first) dimension carrying tag `t`, `FieldLayout::dim`. -/
def dim (l : FieldLayout) (t : FieldTag) : Nat := l.dims.getD (l.tags.indexOf t) 0

/-- The trailing tag of a layout, `layout.tags().back()`. -/
def back (l : FieldLayout) : FieldTag := l.tags.getLastD FieldTag.Invalid

/-- Modelled from the spec: `FieldLayout::strip_dim`, the layout with the
dimension tagged `t` removed. -/
def strip_dim (l : FieldLayout) (t : FieldTag) : FieldLayout :=
  ⟨l.tags.eraseIdx (l.tags.indexOf t), l.dims.eraseIdx (l.tags.indexOf t)⟩

end FieldLayout

/-- Modelled from the spec: `get_layout_type`, the kind of a tag sequence
(`kind = f(tags)`), for column-based and element-based layouts. -/
def get_layout_type (field_tags : List FieldTag) : LayoutType :=
  let n_element := field_tags.count EL
  let n_column := field_tags.count COL
  let ngp := field_tags.count GP
  let rest : Option (List FieldTag) :=
    if 0 < n_element ∧ ngp = 2 ∧ n_column = 0 then
      some (((field_tags.erase EL).erase GP).erase GP)
    else if n_element = 0 ∧ ngp = 0 ∧ 0 < n_column then
      some (field_tags.erase COL)
    else none
  match rest with
  | none => LayoutType.Invalid
  | some [] => LayoutType.Scalar2D
  | some [t] =>
      if t = CMP ∨ t = TL then LayoutType.Vector2D
      else if t = LEV ∨ t = ILEV then LayoutType.Scalar3D
      else LayoutType.Invalid
  | some [t0, t1] =>
      if (t1 = LEV ∨ t1 = ILEV) ∧ (t0 = CMP ∨ t0 = TL) then LayoutType.Vector3D
      else if t0 = TL ∧ t1 = CMP then LayoutType.Tensor2D
      else LayoutType.Invalid
  | some [t0, t1, t2] =>
      if t0 = TL ∧ t1 = CMP ∧ (t2 = LEV ∨ t2 = ILEV) then LayoutType.Tensor3D
      else LayoutType.Invalid
  | some _ => LayoutType.Invalid

/-- Modelled from the spec: `FieldLayout::is_vector_layout`, the layout is of
kind `Vector2D` or `Vector3D`. -/
def FieldLayout.is_vector_layout (l : FieldLayout) : Bool :=
  decide (get_layout_type l.tags = LayoutType.Vector2D ∨
    get_layout_type l.tags = LayoutType.Vector3D)

/-! ## Grids -/

/-- Modelled from the spec: the kinds of grid (`GridType`). -/
inductive GridType
  | Point | SE
  deriving DecidableEq, Repr

/-- Modelled from the spec: a grid, exposing its name, its number of columns,
its number of vertical levels, its kind and whether it is unique (no duplicate
horizontal points). -/
structure Grid where
  name : String
  num_cols : Nat
  num_vertical_levels : Nat
  type : GridType := GridType.Point
  is_unique : Bool := true
  deriving DecidableEq, Repr

namespace Grid

/-- The layout `(COL)`. -/
def get_2d_scalar_layout (g : Grid) : FieldLayout := ⟨[COL], [g.num_cols]⟩

/-- The layout `(COL,CMP)`. -/
def get_2d_vector_layout (g : Grid) (vector_tag : FieldTag) (vector_dim : Nat) : FieldLayout :=
  ⟨[COL, vector_tag], [g.num_cols, vector_dim]⟩

/-- The layout `(COL,LEV)` or `(COL,ILEV)`. -/
def get_3d_scalar_layout (g : Grid) (midpoints : Bool) : FieldLayout :=
  ⟨[COL, if midpoints then LEV else ILEV],
   [g.num_cols, if midpoints then g.num_vertical_levels else g.num_vertical_levels + 1]⟩

/-- The layout `(COL,CMP,LEV)` or `(COL,CMP,ILEV)`. -/
def get_3d_vector_layout (g : Grid) (midpoints : Bool) (vector_tag : FieldTag)
    (vector_dim : Nat) : FieldLayout :=
  ⟨[COL, vector_tag, if midpoints then LEV else ILEV],
   [g.num_cols, vector_dim,
    if midpoints then g.num_vertical_levels else g.num_vertical_levels + 1]⟩

/-- Modelled from the spec: `clone(name,shallow)`, a grid of the same horizontal
structure under a new name. -/
def clone (g : Grid) (clone_name : String) : Grid := { g with name := clone_name }

/-- Modelled from the spec: `reset_num_vertical_lev(n)`, the vertical level
count overridden. -/
def reset_num_vertical_lev (g : Grid) (n : Nat) : Grid := { g with num_vertical_levels := n }

end Grid

/-! ## Fields -/

/-- Physical units, by their string. -/
structure Units where
  str : String
  deriving DecidableEq, Repr

/-- The value of `Units::nondimensional()`. -/
def Units.nondimensional : Units := ⟨"1"⟩

/-- The pascal, `ekat::units::Pa`. -/
def Units.Pa : Units := ⟨"Pa"⟩

/-- A `FieldIdentifier`: name, layout, units and the name of the owning grid. -/
structure FieldIdentifier where
  name : String
  layout : FieldLayout
  units : Units
  grid_name : String
  deriving DecidableEq, Repr

/-- Modelled from the spec: the allocation properties the remapper consults: the
padding of the last dimension and the allocated extent of the last dimension. -/
structure FieldAllocProp where
  padding : Nat
  last_extent : Nat
  deriving DecidableEq, Repr

/-- Modelled from the spec: `is_compatible<RPack<N>>()`, the allocated last
extent is a whole number of packs of width `N`. -/
def FieldAllocProp.is_compatible (ap : FieldAllocProp) (N : Nat) : Bool :=
  decide (0 < N ∧ ap.last_extent % N = 0)

/-- A field: header (identifier, allocation properties, extra data) and data. -/
structure Field where
  fid : FieldIdentifier
  alloc : FieldAllocProp
  allocated : Bool
  mask_data : Option FieldIdentifier
  mask_value : Option ℚ
  data : List (List ℚ)
  deriving DecidableEq

namespace Field

/-- The name of the field. -/
def name (f : Field) : String := f.fid.name

/-- The rank of the field. -/
def rank (f : Field) : Nat := f.fid.layout.rank

/-- The layout of the field. -/
def layout (f : Field) : FieldLayout := f.fid.layout

/-- An exact element-wise copy of the numbers of `src`, `deep_copy(src)`. -/
def deep_copy (f src : Field) : Field := { f with data := src.data }

/-- Every stored number set to `v`, `deep_copy(v)`. -/
def deep_copy_val (f : Field) (v : ℚ) : Field :=
  { f with data := f.data.map (fun row => row.map (fun _ => v)) }

end Field

/-- The storage of a freshly allocated field of the given layout: zeros, one
row per index of the leading dimensions. -/
def alloc_data (l : FieldLayout) : List (List ℚ) :=
  List.replicate (l.dims.dropLast.prod) (List.replicate (l.dims.getLastD 0) 0)

/-- The allocation properties after `request_allocation(pack_size)`: the last
dimension is padded up to a whole number of packs. -/
def alloc_prop (l : FieldLayout) (pack_size : Nat) : FieldAllocProp :=
  let last := l.dims.getLastD 0
  let pad := if pack_size = 0 then 0 else (pack_size - last % pack_size) % pack_size
  ⟨pad, last + pad⟩

/-- A field built from an identifier, allocated for packs of width `pack_size`. -/
def new_field (fid : FieldIdentifier) (pack_size : Nat) : Field :=
  { fid := fid, alloc := alloc_prop fid.layout pack_size, allocated := true,
    mask_data := none, mask_value := none, data := alloc_data fid.layout }

/-- A field built from an identifier, not yet allocated. -/
def unallocated_field (fid : FieldIdentifier) : Field :=
  { fid := fid, alloc := ⟨0, 0⟩, allocated := false,
    mask_data := none, mask_value := none, data := [] }

/-! ## The remapper -/

/-- The failures of the remapper, by the requirement that raises them. -/
inductive RemapError
  | LayoutMismatch
  | UnsupportedPadding
  | DuplicateMaskAssignment
  | MissingVerticalProfile
  | ProfileLayoutMismatch
  | UnallocatedProfile
  | MappingAssetUnreadable
  | UnsupportedRank
  | BackwardRemapNotSupported
  | InvalidMode
  | UnsupportedLayout
  | UnsupportedGrid
  | NonUniqueGrid
  deriving DecidableEq, Repr

/-- The members of `VerticalRemapper` (with those of `AbstractRemapper` it uses). -/
structure VerticalRemapper where
  m_src_grid : Grid
  m_tgt_grid : Grid
  m_mask_val : ℚ
  m_bwd_allowed : Bool
  m_num_remap_levs : Nat
  m_remap_pres : Field
  m_src_mid : Field
  m_src_int : Field
  m_mid_set : Bool
  m_int_set : Bool
  m_num_fields : Nat
  m_src_fields : List Field
  m_tgt_fields : List Field
  m_src_masks : List Field
  m_tgt_masks : List Field
  deriving DecidableEq

/-- The outcome of an operation: the state reached and the error, if any. -/
abbrev Outcome := VerticalRemapper × Option RemapError

/-! ## Registration and binding -/

/-- The method `create_tgt_layout`: the layout on the target grid of the same kind
as `src_layout`, always on midpoints (`vec_dim` is `-1` in the source when the
layout is not a vector layout, in which case it is not used). -/
def create_tgt_layout (vr : VerticalRemapper) (src_layout : FieldLayout) :
    Except RemapError FieldLayout :=
  let lt := get_layout_type src_layout.tags
  let midpoints := true
  let vec_dim := if src_layout.is_vector_layout then src_layout.dim CMP else 0
  match lt with
  | LayoutType.Scalar2D => .ok vr.m_tgt_grid.get_2d_scalar_layout
  | LayoutType.Vector2D => .ok (vr.m_tgt_grid.get_2d_vector_layout CMP vec_dim)
  | LayoutType.Scalar3D => .ok (vr.m_tgt_grid.get_3d_scalar_layout midpoints)
  | LayoutType.Vector3D => .ok (vr.m_tgt_grid.get_3d_vector_layout midpoints CMP vec_dim)
  | _ => .error RemapError.UnsupportedLayout

/-- The method `register_vertical_source_field`: stores `src` as the profile of
the given mode (`"mid"` or `"int"`). -/
def register_vertical_source_field (vr : VerticalRemapper) (src : Field) (mode : String) :
    Outcome :=
  if ¬ (mode = "mid" ∨ mode = "int") then (vr, some RemapError.InvalidMode)
  else
    let src_fid := src.fid
    if mode = "mid" then
      let layout := src_fid.layout
      if ¬ ([LEV].contains layout.back) then (vr, some RemapError.ProfileLayoutMismatch)
      else if ¬ src.allocated then (vr, some RemapError.UnallocatedProfile)
      else ({ vr with m_src_mid := src, m_mid_set := true }, none)
    else
      let layout := src_fid.layout
      if ¬ ([ILEV].contains layout.back) then (vr, some RemapError.ProfileLayoutMismatch)
      else if ¬ src.allocated then (vr, some RemapError.UnallocatedProfile)
      else ({ vr with m_src_int := src, m_int_set := true }, none)

/-- The method `do_register_field`: appends an unallocated source and target. -/
def do_register_field (vr : VerticalRemapper) (src tgt : FieldIdentifier) : VerticalRemapper :=
  { vr with m_src_fields := vr.m_src_fields ++ [unallocated_field src],
            m_tgt_fields := vr.m_tgt_fields ++ [unallocated_field tgt] }

/-- The layout of the mask of a field: the source layout with every tag other
than `COL`, `LEV`, `ILEV` stripped (the loop over the tags in `do_bind_field`). -/
def mask_layout (src_layout : FieldLayout) : FieldLayout :=
  src_layout.tags.foldl
    (fun src_lay tag => if tag ≠ COL ∧ tag ≠ LEV ∧ tag ≠ ILEV then src_lay.strip_dim tag else src_lay)
    src_layout

/-- The name under which the mask of `src` is looked up and created,
`get_id_string()+"_mask"`; the identifier string `get_id_string` of
`FieldIdentifier` is not among the sources and is a parameter. -/
def mask_name (get_id_string : FieldIdentifier → String) (src : Field) : String :=
  get_id_string src.fid ++ "_mask"

/-- The search of `do_bind_field` for an existing mask pair: the target mask at
the first index whose source mask is named `lname` (the two lists of masks are
walked together). -/
def find_mask (lname : String) (src_masks tgt_masks : List Field) : Option Field :=
  ((src_masks.zip tgt_masks).find? (fun p => lname == p.1.name)).map (fun p => p.2)

/-- The second part of `do_bind_field` (from `m_src_fields[ifield] = src` on):
the pair is stored and the mask tracking is added to the target field. -/
def bind_mask_tracking (get_id_string : FieldIdentifier → String) (SCREAM_PACK_SIZE : Nat)
    (vr : VerticalRemapper) (ifield : Nat) (src tgt : Field) : Outcome :=
  let src_layout := src.fid.layout
  let vr1 := { vr with m_src_fields := vr.m_src_fields.set ifield src,
                       m_tgt_fields := vr.m_tgt_fields.set ifield tgt }
  if src_layout.has_tag LEV ∨ src_layout.has_tag ILEV then
    let nondim := Units.nondimensional
    let src_lay := mask_layout src_layout
    let lname := mask_name get_id_string src
    match find_mask lname vr.m_src_masks vr.m_tgt_masks with
    | some mask_tgt_fld =>
        let f_tgt := { tgt with mask_data := some mask_tgt_fld.fid }
        ({ vr1 with m_tgt_fields := vr.m_tgt_fields.set ifield f_tgt }, none)
    | none =>
        let mask_src_fid : FieldIdentifier := ⟨lname, src_lay, nondim, vr.m_src_grid.name⟩
        let mask_src_fld := new_field mask_src_fid SCREAM_PACK_SIZE
        match create_tgt_layout vr src_lay with
        | .error e => (vr1, some e)
        | .ok tgt_lay =>
            let mask_tgt_fid : FieldIdentifier := ⟨lname, tgt_lay, nondim, vr.m_tgt_grid.name⟩
            let mask_tgt_fld := new_field mask_tgt_fid SCREAM_PACK_SIZE
            if tgt.mask_data.isSome then (vr1, some RemapError.DuplicateMaskAssignment)
            else
              let f_tgt1 := { tgt with mask_data := some mask_tgt_fld.fid }
              let vr2 := { vr1 with m_tgt_fields := vr.m_tgt_fields.set ifield f_tgt1 }
              if tgt.mask_value.isSome then (vr2, some RemapError.DuplicateMaskAssignment)
              else
                let f_tgt2 := { f_tgt1 with mask_value := some vr.m_mask_val }
                ({ vr2 with m_tgt_fields := vr.m_tgt_fields.set ifield f_tgt2,
                            m_src_masks := vr.m_src_masks ++ [mask_src_fld],
                            m_tgt_masks := vr.m_tgt_masks ++ [mask_tgt_fld] }, none)
  else
    match src.mask_data with
    | some f_mask =>
        if tgt.mask_data.isSome then (vr1, some RemapError.DuplicateMaskAssignment)
        else
          let f_tgt1 := { tgt with mask_data := some f_mask }
          let vr2 := { vr1 with m_tgt_fields := vr.m_tgt_fields.set ifield f_tgt1 }
          if tgt.mask_value.isSome then (vr2, some RemapError.DuplicateMaskAssignment)
          else
            let f_tgt2 := { f_tgt1 with mask_value := some vr.m_mask_val }
            ({ vr2 with m_tgt_fields := vr.m_tgt_fields.set ifield f_tgt2 }, none)
    | none => (vr1, none)

/-- The method `do_bind_field`: the checks of rank, tags and padding, then
`bind_mask_tracking`. -/
def do_bind_field (get_id_string : FieldIdentifier → String) (SCREAM_PACK_SIZE : Nat)
    (vr : VerticalRemapper) (ifield : Nat) (src tgt : Field) : Outcome :=
  let src_layout := src.fid.layout
  let tgt_layout := tgt.fid.layout
  let has_ilev := src_layout.has_tag ILEV
  if src_layout.rank ≠ tgt_layout.rank then (vr, some RemapError.LayoutMismatch)
  else if has_ilev ∧ (src_layout.strip_dim ILEV).tags ≠ (tgt_layout.strip_dim LEV).tags then
    (vr, some RemapError.LayoutMismatch)
  else if ¬ has_ilev ∧ src_layout.tags ≠ tgt_layout.tags then
    (vr, some RemapError.LayoutMismatch)
  else if ¬ (1 < src_layout.rank ∨ src.alloc.padding = 0) then
    (vr, some RemapError.UnsupportedPadding)
  else if ¬ (1 < tgt_layout.rank ∨ tgt.alloc.padding = 0) then
    (vr, some RemapError.UnsupportedPadding)
  else bind_mask_tracking get_id_string SCREAM_PACK_SIZE vr ifield src tgt

/-- A sequence of calls of `do_bind_field`, each on the state left by the one
before it. -/
def bind_seq (get_id_string : FieldIdentifier → String) (SCREAM_PACK_SIZE : Nat) :
    VerticalRemapper → List (Nat × Field × Field) → VerticalRemapper
  | vr, [] => vr
  | vr, (ifield, src, tgt) :: rest =>
      bind_seq get_id_string SCREAM_PACK_SIZE
        (do_bind_field get_id_string SCREAM_PACK_SIZE vr ifield src tgt).1 rest

/-- A sequence of calls of `register_vertical_source_field`, each on the state
left by the one before it. -/
def register_seq : VerticalRemapper → List (Field × String) → VerticalRemapper
  | vr, [] => vr
  | vr, (src, mode) :: rest => register_seq (register_vertical_source_field vr src mode).1 rest

/-- The mask pairs are well formed: as many source masks as target masks, and no
two source masks of the same name. -/
def masks_wf (vr : VerticalRemapper) : Prop :=
  vr.m_src_masks.length = vr.m_tgt_masks.length ∧ (vr.m_src_masks.map Field.name).Nodup

/-- The mask reference carried by the `i`-th target field, if any. -/
def tgt_mask_data (vr : VerticalRemapper) (i : Nat) : Option FieldIdentifier :=
  (vr.m_tgt_fields[i]?).bind (fun f => f.mask_data)

/-- The fill value carried by the `i`-th target field, if any. -/
def tgt_mask_value (vr : VerticalRemapper) (i : Nat) : Option ℚ :=
  (vr.m_tgt_fields[i]?).bind (fun f => f.mask_value)

/-- The method `do_registration_ends`: both profiles must have been set. -/
def do_registration_ends (vr : VerticalRemapper) : Outcome :=
  if ¬ vr.m_mid_set then (vr, some RemapError.MissingVerticalProfile)
  else if ¬ vr.m_int_set then (vr, some RemapError.MissingVerticalProfile)
  else (vr, none)

/-! ## Vertical interpolation -/

/-- Modelled from the spec: the target coordinate `x` lies outside the range of
the source profile `p` (below every source level or above every source level). -/
def out_of_range (p : List ℚ) (x : ℚ) : Bool :=
  p.all (fun v => decide (x < v)) || p.all (fun v => decide (v < x))

/-- Modelled from the spec: the bracketing search, the first index `j` such that
the adjacent source levels `j` and `j+1` straddle the target coordinate `x`. -/
def bracket : List ℚ → ℚ → Option Nat
  | a :: b :: rest, x =>
      if (a ≤ x ∧ x ≤ b) ∨ (b ≤ x ∧ x ≤ a) then some 0
      else (bracket (b :: rest) x).map (fun j => j + 1)
  | _, _ => none

/-- Modelled from the spec: linear interpolation of the values `y` between the
source levels `j` and `j+1` of the profile `p`, at the coordinate `x`. -/
def lin_interp (p y : List ℚ) (j : Nat) (x : ℚ) : ℚ :=
  y.getD j 0 + (x - p.getD j 0) * (y.getD (j + 1) 0 - y.getD j 0) / (p.getD (j + 1) 0 - p.getD j 0)

/-- Modelled from the spec: the value written at one target level: the fill
value `mask_val` outside the source range, the linear interpolation between the
two bracketing levels inside it (the single source value when the profile has
one level only). -/
def interp_cell (p y : List ℚ) (x mask_val : ℚ) : ℚ :=
  if out_of_range p x then mask_val
  else match bracket p x with
    | some j => lin_interp p y j x
    | none => y.getD 0 mask_val

/-- Modelled from the spec: the interpolation of one column, level by level:
`y` on the first `src_num_levs` levels of the profile `p`, onto the first
`tgt_num_levs` target coordinates. -/
def interp_column (p x_tgt y : List ℚ) (src_num_levs tgt_num_levs : Nat) (mask_val : ℚ) : List ℚ :=
  (x_tgt.take tgt_num_levs).map
    (fun x => interp_cell (p.take src_num_levs) (y.take src_num_levs) x mask_val)

/-- Modelled from the spec: the lanes of a row in batches of `Packsize`
contiguous lanes, as a kernel of that batch width walks them: a batch holds a
lane and the `Packsize - 1` lanes after it, the last batch what is left. The
first argument bounds the number of batches; the number of lanes is always
enough. -/
def lane_batches (Packsize : Nat) : Nat → List ℚ → List (List ℚ)
  | 0, _ => []
  | _ + 1, [] => []
  | fuel + 1, x :: xs =>
      (x :: xs.take (Packsize - 1)) :: lane_batches Packsize fuel (xs.drop (Packsize - 1))

/-- Modelled from the spec: the interpolation of one column by the kernel of
batch width `Packsize`: the target coordinates are taken batch after batch, the
lanes of a batch are interpolated together, and the batches are written one
after the other. -/
def interp_column_packed (Packsize : Nat) (p x_tgt y : List ℚ) (src_num_levs tgt_num_levs : Nat)
    (mask_val : ℚ) : List ℚ :=
  ((lane_batches Packsize tgt_num_levs (x_tgt.take tgt_num_levs)).map (fun pack =>
    pack.map (fun x => interp_cell (p.take src_num_levs) (y.take src_num_levs) x mask_val))).flatten

/-- Modelled from the spec: `perform_vertical_interpolation<Real,Packsize,N>`
of `share/util/scream_vertical_interpolation.hpp` (not among the sources). Every
row of the source view is interpolated independently, on the profile of its own
column, in batches of `Packsize` lanes: row `r` of a rank-2 view belongs to
column `r`, row `r` of a rank-3 view with `extent1` components belongs to
column `r / extent1`. -/
def perform_vertical_interpolation (Packsize N : Nat) (src_lev : List (List ℚ))
    (remap_pres : List ℚ) (src_view : List (List ℚ)) (extent1 : Nat)
    (src_num_levs tgt_num_levs : Nat) (mask_val : ℚ) : List (List ℚ) :=
  src_view.mapIdx (fun r y =>
    interp_column_packed Packsize (src_lev.getD (if N = 3 then r / extent1 else r) [])
      remap_pres y src_num_levs tgt_num_levs mask_val)

/-- The kernels `perform_vertical_interpolation<Real,Packsize,N>`, one for every
pack width and rank, as `apply_vertical_interpolation` calls them: pack width,
rank, source profile, target coordinates, source view, extent of the components,
numbers of source and target levels, fill value. -/
abbrev VinterpKernel :=
  Nat → Nat → List (List ℚ) → List ℚ → List (List ℚ) → Nat → Nat → Nat → ℚ → List (List ℚ)

/-- The template `apply_vertical_interpolation<Packsize>(f_src,f_tgt,mask_interp)`,
with the kernels it calls as a parameter: the target field after the
interpolation, or the failure on an unsupported rank. -/
def apply_vertical_interpolation_with (kernel : VinterpKernel) (vr : VerticalRemapper)
    (Packsize : Nat) (f_src f_tgt : Field) (mask_interp : Bool) : Except RemapError Field :=
  let layout := f_src.fid.layout
  let rank := f_src.rank
  let src_tag := layout.back
  let src_num_levs := layout.dim src_tag
  let mask_val : ℚ := if mask_interp then 0 else vr.m_mask_val
  let src_lev_f := if src_tag = ILEV then vr.m_src_int else vr.m_src_mid
  let src_lev := src_lev_f.data
  let remap_pres_view := vr.m_remap_pres.data.headD []
  match rank with
  | 2 =>
      let tgt_view := kernel Packsize 2 src_lev remap_pres_view
        f_src.data 1 src_num_levs vr.m_num_remap_levs mask_val
      .ok { f_tgt with data := tgt_view }
  | 3 =>
      let tgt_view := kernel Packsize 3 src_lev remap_pres_view
        f_src.data (layout.dims.getD 1 0) src_num_levs vr.m_num_remap_levs mask_val
      .ok { f_tgt with data := tgt_view }
  | _ => .error RemapError.UnsupportedRank

/-- The template `apply_vertical_interpolation<Packsize>` with the kernels
`perform_vertical_interpolation`. -/
def apply_vertical_interpolation (vr : VerticalRemapper) (Packsize : Nat)
    (f_src f_tgt : Field) (mask_interp : Bool) : Except RemapError Field :=
  apply_vertical_interpolation_with perform_vertical_interpolation vr Packsize f_src f_tgt
    mask_interp

/-- The cascade of `do_remap_fwd` that picks the pack width: the first of
16, 8, 4, 2 with which all four allocations are compatible, else 1. -/
def dispatch_pack_size (can_pack : Bool) (src_ap tgt_ap src_pres_ap tgt_pres_ap : FieldAllocProp) :
    Nat :=
  if can_pack && src_ap.is_compatible 16 && tgt_ap.is_compatible 16 &&
      src_pres_ap.is_compatible 16 && tgt_pres_ap.is_compatible 16 then 16
  else if can_pack && src_ap.is_compatible 8 && tgt_ap.is_compatible 8 &&
      src_pres_ap.is_compatible 8 && tgt_pres_ap.is_compatible 8 then 8
  else if can_pack && src_ap.is_compatible 4 && tgt_ap.is_compatible 4 &&
      src_pres_ap.is_compatible 4 && tgt_pres_ap.is_compatible 4 then 4
  else if can_pack && src_ap.is_compatible 2 && tgt_ap.is_compatible 2 &&
      src_pres_ap.is_compatible 2 && tgt_pres_ap.is_compatible 2 then 2
  else 1

/-- The body of the first loop of `do_remap_fwd`, for one pair of fields, with
the kernels as a parameter: the target field after the pass. -/
def remap_field_step_with (kernel : VinterpKernel) (SCREAM_PACK_SIZE : Nat)
    (vr : VerticalRemapper) (f_src f_tgt : Field) : Except RemapError Field :=
  let can_pack := decide (1 < SCREAM_PACK_SIZE)
  let tgt_pres_ap := vr.m_remap_pres.alloc
  let layout := f_src.fid.layout
  let src_tag := layout.back
  let do_remap := [ILEV, LEV].contains src_tag
  if do_remap then
    let src_ap := f_src.alloc
    let tgt_ap := f_tgt.alloc
    let src_pres_ap := if src_tag = LEV then vr.m_src_mid.alloc else vr.m_src_int.alloc
    apply_vertical_interpolation_with kernel vr
      (dispatch_pack_size can_pack src_ap tgt_ap src_pres_ap tgt_pres_ap) f_src f_tgt false
  else
    .ok (f_tgt.deep_copy f_src)

/-- The body of the first loop of `do_remap_fwd` with the kernels
`perform_vertical_interpolation`. -/
def remap_field_step (SCREAM_PACK_SIZE : Nat) (vr : VerticalRemapper) (f_src f_tgt : Field) :
    Except RemapError Field :=
  remap_field_step_with perform_vertical_interpolation SCREAM_PACK_SIZE vr f_src f_tgt

/-- The body of the second loop of `do_remap_fwd`, for one mask pair, with the
kernels as a parameter: the source mask after the reset to one, and the target
mask after the pass. -/
def remap_mask_step_with (kernel : VinterpKernel) (SCREAM_PACK_SIZE : Nat)
    (vr : VerticalRemapper) (f_src f_tgt : Field) : Field × Except RemapError Field :=
  let can_pack := decide (1 < SCREAM_PACK_SIZE)
  let tgt_pres_ap := vr.m_remap_pres.alloc
  let layout := f_src.fid.layout
  let src_tag := layout.back
  let do_remap := [ILEV, LEV].contains src_tag
  if do_remap then
    let f_src1 := f_src.deep_copy_val 1
    let src_ap := f_src1.alloc
    let tgt_ap := f_tgt.alloc
    let src_pres_ap := if src_tag = LEV then vr.m_src_mid.alloc else vr.m_src_int.alloc
    (f_src1, apply_vertical_interpolation_with kernel vr
      (dispatch_pack_size can_pack src_ap tgt_ap src_pres_ap tgt_pres_ap) f_src1 f_tgt true)
  else
    (f_src, .ok (f_tgt.deep_copy f_src))

/-- The body of the second loop of `do_remap_fwd` with the kernels
`perform_vertical_interpolation`. -/
def remap_mask_step (SCREAM_PACK_SIZE : Nat) (vr : VerticalRemapper) (f_src f_tgt : Field) :
    Field × Except RemapError Field :=
  remap_mask_step_with perform_vertical_interpolation SCREAM_PACK_SIZE vr f_src f_tgt

/-- The first loop of `do_remap_fwd` over the first `n` pairs: the target fields
reached and the failure that stopped the loop, if any. -/
def remap_fields_loop (step : Field → Field → Except RemapError Field) :
    Nat → List Field → List Field → List Field × Option RemapError
  | 0, _, tgts => (tgts, none)
  | _ + 1, [], tgts => (tgts, none)
  | _ + 1, _ :: _, [] => ([], none)
  | n + 1, s :: ss, t :: ts =>
      match step s t with
      | .error e => (t :: ts, some e)
      | .ok t1 =>
          let r := remap_fields_loop step n ss ts
          (t1 :: r.1, r.2)

/-- The second loop of `do_remap_fwd` over the mask pairs: the source masks and
target masks reached and the failure that stopped the loop, if any. -/
def remap_masks_loop (step : Field → Field → Field × Except RemapError Field) :
    List Field → List Field → List Field × List Field × Option RemapError
  | srcs, [] => (srcs, [], none)
  | [], tgts => ([], tgts, none)
  | s :: ss, t :: ts =>
      match step s t with
      | (s1, .error e) => (s1 :: ss, t :: ts, some e)
      | (s1, .ok t1) =>
          let r := remap_masks_loop step ss ts
          (s1 :: r.1, t1 :: r.2.1, r.2.2)

/-- The forward remap `do_remap_fwd`, with the kernels as a parameter: every
bound pair, then every mask pair. -/
def do_remap_fwd_with (kernel : VinterpKernel) (SCREAM_PACK_SIZE : Nat) (vr : VerticalRemapper) :
    Outcome :=
  let r := remap_fields_loop (remap_field_step_with kernel SCREAM_PACK_SIZE vr)
    vr.m_num_fields vr.m_src_fields vr.m_tgt_fields
  match r.2 with
  | some e => ({ vr with m_tgt_fields := r.1 }, some e)
  | none =>
      let m := remap_masks_loop (remap_mask_step_with kernel SCREAM_PACK_SIZE vr)
        vr.m_src_masks vr.m_tgt_masks
      ({ vr with m_tgt_fields := r.1, m_src_masks := m.1, m_tgt_masks := m.2.1 }, m.2.2)

/-- The forward remap `do_remap_fwd` with the kernels
`perform_vertical_interpolation`. -/
def do_remap_fwd (SCREAM_PACK_SIZE : Nat) (vr : VerticalRemapper) : Outcome :=
  do_remap_fwd_with perform_vertical_interpolation SCREAM_PACK_SIZE vr

/-- The number stored in row `r`, position `k` of a field, if any. -/
def Field.cell (f : Field) (r k : Nat) : Option ℚ := (f.data[r]?).bind (fun row => row[k]?)

/-- The profile used for a field whose trailing tag is `tag`: the interface
profile for `ILEV`, the midpoint profile otherwise. -/
def source_profile (vr : VerticalRemapper) (tag : FieldTag) : Field :=
  if tag = ILEV then vr.m_src_int else vr.m_src_mid

/-- The column to which row `r` of the field belongs. -/
def row_column (f : Field) (r : Nat) : Nat :=
  if f.rank = 3 then r / f.fid.layout.dims.getD 1 0 else r

/-- The number of source levels of a field, the extent of its trailing dimension. -/
def Field.num_levs (f : Field) : Nat := f.fid.layout.dim f.fid.layout.back

/-- The number stored in row `r`, position `k` of the `i`-th field of a list. -/
def cell_at (fs : List Field) (i r k : Nat) : Option ℚ := (fs[i]?).bind (fun f => f.cell r k)

/-! ## A small remapper, used to exercise the theorems

One column, three midpoint levels at 100, 500, 900, and the target coordinate
table 50, 500, 950. -/

/-- An identifier string for the examples: name and grid. -/
def ex_id_string (fid : FieldIdentifier) : String := fid.name ++ "@" ++ fid.grid_name

/-- The midpoint profile of the example. -/
def ex_lev_prof : Field :=
  { fid := ⟨"p_mid", ⟨[COL, LEV], [1, 3]⟩, Units.Pa, "src"⟩, alloc := ⟨0, 3⟩, allocated := true,
    mask_data := none, mask_value := none, data := [[100, 500, 900]] }

/-- The interface profile of the example. -/
def ex_ilev_prof : Field :=
  { fid := ⟨"p_int", ⟨[COL, ILEV], [1, 4]⟩, Units.Pa, "src"⟩, alloc := ⟨0, 4⟩, allocated := true,
    mask_data := none, mask_value := none, data := [[100, 300, 700, 900]] }

/-- The target coordinate table of the example. -/
def ex_remap_pres : Field :=
  { fid := ⟨"p_remap", ⟨[LEV], [3]⟩, Units.Pa, "tgt"⟩, alloc := ⟨0, 3⟩, allocated := true,
    mask_data := none, mask_value := none, data := [[50, 500, 950]] }

/-- A source field on midpoints. -/
def ex_T_src : Field :=
  { fid := ⟨"T", ⟨[COL, LEV], [1, 3]⟩, ⟨"K"⟩, "src"⟩, alloc := ⟨0, 3⟩, allocated := true,
    mask_data := none, mask_value := none, data := [[10, 20, 30]] }

/-- The target of `ex_T_src`. -/
def ex_T_tgt : Field :=
  { fid := ⟨"T", ⟨[COL, LEV], [1, 3]⟩, ⟨"K"⟩, "tgt"⟩, alloc := ⟨0, 3⟩, allocated := true,
    mask_data := none, mask_value := none, data := [[0, 0, 0]] }

/-- A source field without a vertical dimension. -/
def ex_ps_src : Field :=
  { fid := ⟨"ps", ⟨[COL], [1]⟩, Units.Pa, "src"⟩, alloc := ⟨0, 1⟩, allocated := true,
    mask_data := none, mask_value := none, data := [[101325]] }

/-- The target of `ex_ps_src`. -/
def ex_ps_tgt : Field :=
  { fid := ⟨"ps", ⟨[COL], [1]⟩, Units.Pa, "tgt"⟩, alloc := ⟨0, 1⟩, allocated := true,
    mask_data := none, mask_value := none, data := [[0]] }

/-- The remapper of the example after construction and the registration of two
pairs, before any bind. -/
def ex_remapper0 : VerticalRemapper :=
  { m_src_grid := { name := "src", num_cols := 1, num_vertical_levels := 3 },
    m_tgt_grid := { name := "tgt", num_cols := 1, num_vertical_levels := 3 }, m_mask_val := 7777,
    m_bwd_allowed := false, m_num_remap_levs := 3, m_remap_pres := ex_remap_pres,
    m_src_mid := ex_lev_prof, m_src_int := ex_ilev_prof, m_mid_set := true, m_int_set := true,
    m_num_fields := 2,
    m_src_fields := [unallocated_field ex_T_src.fid, unallocated_field ex_ps_src.fid],
    m_tgt_fields := [unallocated_field ex_T_tgt.fid, unallocated_field ex_ps_tgt.fid],
    m_src_masks := [], m_tgt_masks := [] }

/-- The remapper of the example with both pairs bound. -/
def ex_remapper : VerticalRemapper :=
  (do_bind_field ex_id_string 1
    (do_bind_field ex_id_string 1 ex_remapper0 0 ex_T_src ex_T_tgt).1 1 ex_ps_src ex_ps_tgt).1

/-- The mask pair created by the bind of `ex_T_src`: its source mask. -/
def ex_T_mask_src : Field :=
  new_field ⟨"T@src_mask", ⟨[COL, LEV], [1, 3]⟩, Units.nondimensional, "src"⟩ 1

/-- The mask pair created by the bind of `ex_T_src`: its target mask. -/
def ex_T_mask_tgt : Field :=
  new_field ⟨"T@src_mask", ⟨[COL, LEV], [1, 3]⟩, Units.nondimensional, "tgt"⟩ 1

/-- The target of `ex_T_src` once bound: it carries the mask reference and the
fill value. -/
def ex_T_tgt_bound : Field :=
  { ex_T_tgt with mask_data := some ex_T_mask_tgt.fid, mask_value := some 7777 }

/-! ## Requirements of a bind, and further examples -/

/-- The layout requirement of a bind, in the words of the specification: equal
ranks, and either the source carries the interface tag and the source tags with
`ILEV` removed equal the target tags with `LEV` removed, or the source carries
no interface tag and the tag sequences are equal. -/
def spec_layout_ok (s t : FieldLayout) : Prop :=
  s.rank = t.rank ∧
    ((s.has_tag ILEV = true ∧ s.tags.erase ILEV = t.tags.erase LEV) ∨
     (s.has_tag ILEV = false ∧ s.tags = t.tags))

instance (s t : FieldLayout) : Decidable (spec_layout_ok s t) := by
  unfold spec_layout_ok; infer_instance

/-- The padding requirement of a bind, as the source checks it: a field of rank
at most one carries no padding. -/
def padding_ok (f : Field) : Prop := 1 < f.fid.layout.rank ∨ f.alloc.padding = 0

instance (f : Field) : Decidable (padding_ok f) := by
  unfold padding_ok; infer_instance

/-- A source field with a vector dimension and midpoint levels, of rank 3. -/
def ex_uv3_src : Field :=
  { fid := ⟨"uv", ⟨[COL, CMP, LEV], [1, 2, 3]⟩, ⟨"m/s"⟩, "src"⟩, alloc := ⟨0, 3⟩,
    allocated := true, mask_data := none, mask_value := none,
    data := [[1, 2, 3], [4, 5, 6]] }

/-- A source field with a vector dimension and no vertical dimension, stored
with two padding entries. -/
def ex_uv_src : Field :=
  { fid := ⟨"uv_sfc", ⟨[COL, CMP], [1, 2]⟩, ⟨"m/s"⟩, "src"⟩, alloc := ⟨2, 4⟩,
    allocated := true, mask_data := none, mask_value := none, data := [[1, 2]] }

/-- The target of `ex_uv_src`, stored with two padding entries. -/
def ex_uv_tgt : Field :=
  { fid := ⟨"uv_sfc", ⟨[COL, CMP], [1, 2]⟩, ⟨"m/s"⟩, "tgt"⟩, alloc := ⟨2, 4⟩,
    allocated := true, mask_data := none, mask_value := none, data := [[0, 0]] }

/-- The surface pressure source stored with one padding entry. -/
def ex_ps_src_padded : Field := { ex_ps_src with alloc := ⟨1, 2⟩ }

/-- A mask field of an upstream stage. -/
def ex_upstream_mask : FieldIdentifier :=
  ⟨"ps_mask", ⟨[COL], [1]⟩, Units.nondimensional, "src"⟩

/-- The surface pressure source carrying mask metadata of an upstream stage,
with the fill value 5. -/
def ex_ps_src_masked : Field :=
  { ex_ps_src with mask_data := some ex_upstream_mask, mask_value := some 5 }

/-- A remapper on which no profile has been registered. -/
def ex_unregistered : VerticalRemapper :=
  { ex_remapper0 with m_mid_set := false, m_int_set := false }

/-- The claim about padding as the specification states it: a pair that
passes the layout check and has a padded field without vertical dimension, on
either side, is refused with the padding error. -/
def spec_padding_claim : Prop :=
  ∀ (ids : FieldIdentifier → String) (P : Nat) (vr : VerticalRemapper) (ifield : Nat)
    (src tgt : Field), spec_layout_ok src.fid.layout tgt.fid.layout →
    ((src.fid.layout.has_tag LEV = false ∧ src.fid.layout.has_tag ILEV = false ∧
        src.alloc.padding ≠ 0) ∨
     (tgt.fid.layout.has_tag LEV = false ∧ tgt.fid.layout.has_tag ILEV = false ∧
        tgt.alloc.padding ≠ 0)) →
    (do_bind_field ids P vr ifield src tgt).2 = some RemapError.UnsupportedPadding

/-! ## Construction -/

/-- Modelled from the spec: the mapping asset, a dataset with a dimension `nlevs`
and a variable `p_levs` of pressure values indexed from 0; `readable` tells
whether the asset can be opened. -/
structure MapFile where
  readable : Bool
  nlevs : Nat
  p_levs : List ℚ
  deriving DecidableEq

/-- Modelled from the spec: the opening of the asset and the reading of the
length of the dimension `nlevs` (`scorpio::register_file`,
`scorpio::get_dimlen_c2f`, not among the sources): a failure to open, or a
dimension of length zero, is a fatal error. -/
def scorpio_get_dimlen (map_file : MapFile) : Except RemapError Nat :=
  if ¬ map_file.readable then .error RemapError.MappingAssetUnreadable
  else if map_file.nlevs = 0 then .error RemapError.MappingAssetUnreadable
  else .ok map_file.nlevs

/-- Modelled from the spec: `scorpio::grid_read_data_array` for the variable
`p_levs` (not among the sources): the values of the variable at the given
offsets, in the order of the offsets. -/
def scorpio_grid_read_data_array (map_file : MapFile) (dofs_offsets : List Nat) : List ℚ :=
  dofs_offsets.map (fun o => map_file.p_levs.getD o 0)

/-- The method `set_pressure_levels`: the coordinate table `p_remap`, of layout
`(LEV)` with `m_num_remap_levs` levels, allocated for packs of width `mPack_n`
and read from the variable `p_levs` at the offsets `0, 1, ...` (`std::iota`). -/
def set_pressure_levels (mPack_n : Nat) (vr : VerticalRemapper) (map_file : MapFile) : Outcome :=
  if ¬ map_file.readable then (vr, some RemapError.MappingAssetUnreadable)
  else
    let tags := [LEV]
    let dims := [vr.m_num_remap_levs]
    let layout : FieldLayout := ⟨tags, dims⟩
    let fid : FieldIdentifier := ⟨"p_remap", layout, Units.Pa, vr.m_tgt_grid.name⟩
    let remap_pres := new_field fid mPack_n
    let dofs_offsets := List.range vr.m_num_remap_levs
    let remap_pres_scal := scorpio_grid_read_data_array map_file dofs_offsets
    ({ vr with m_remap_pres := { remap_pres with data := [remap_pres_scal] } }, none)

/-- The constructor of `VerticalRemapper` with five arguments (the last one the
fill value), run on the default-initialised object `dflt` (the member
initialisers are in headers that are not among the sources). -/
def VerticalRemapper.VerticalRemapper5 (dflt : VerticalRemapper) (mPack_n : Nat)
    (src_grid : Grid) (map_file : MapFile) (lev_prof ilev_prof : Field) (mask_val : ℚ) :
    Outcome :=
  let vr0 := { dflt with m_mask_val := mask_val }
  if src_grid.type ≠ GridType.Point then (vr0, some RemapError.UnsupportedGrid)
  else if ¬ src_grid.is_unique then (vr0, some RemapError.NonUniqueGrid)
  else
    let vr1 := { vr0 with m_bwd_allowed := false }
    match scorpio_get_dimlen map_file with
    | .error e => (vr1, some e)
    | .ok n =>
        let vr2 := { vr1 with m_num_remap_levs := n }
        let tgt_grid := (src_grid.clone "Point Grid").reset_num_vertical_lev n
        let vr3 := { vr2 with m_src_grid := src_grid, m_tgt_grid := tgt_grid }
        let r1 := register_vertical_source_field vr3 lev_prof "mid"
        match r1.2 with
        | some e => (r1.1, some e)
        | none =>
            let r2 := register_vertical_source_field r1.1 ilev_prof "int"
            match r2.2 with
            | some e => (r2.1, some e)
            | none => set_pressure_levels mPack_n r2.1 map_file

/-- The constructor of `VerticalRemapper` with four arguments. Its body is the
expression statement `VerticalRemapper(src_grid,map_file,lev_prof,ilev_prof,
std::numeric_limits<Real>::max()/10.0);`, which builds a temporary remapper
and discards it: the object under construction stays as default-initialised,
and a failure of the temporary is the failure of the constructor. `Real_max`
is `std::numeric_limits<Real>::max()`. -/
def VerticalRemapper.VerticalRemapper4 (dflt : VerticalRemapper) (Real_max : ℚ) (mPack_n : Nat)
    (src_grid : Grid) (map_file : MapFile) (lev_prof ilev_prof : Field) : Outcome :=
  let temporary := VerticalRemapper.VerticalRemapper5 dflt mPack_n src_grid map_file lev_prof
    ilev_prof (Real_max / 10)
  (dflt, temporary.2)

/-- Modelled from the spec: the requirement of `AbstractRemapper::remap` for a
reverse transform: it fails unless backward remapping is allowed. -/
def remap_bwd_check (vr : VerticalRemapper) : Option RemapError :=
  if vr.m_bwd_allowed then none else some RemapError.BackwardRemapNotSupported

/-- The mapping asset of the example: three levels 50, 500, 950. -/
def ex_map_file : MapFile := { readable := true, nlevs := 3, p_levs := [50, 500, 950] }

/-- A mapping asset whose level dimension has length zero. -/
def ex_map_file_empty : MapFile := { readable := true, nlevs := 0, p_levs := [] }

/-- The source grid of the example. -/
def ex_src_grid : Grid := { name := "src", num_cols := 1, num_vertical_levels := 3 }

/-- A default-initialised remapper for the examples: nothing registered, no
profile set, backward remapping not yet disallowed. -/
def ex_default : VerticalRemapper :=
  { m_src_grid := { name := "", num_cols := 0, num_vertical_levels := 0 },
    m_tgt_grid := { name := "", num_cols := 0, num_vertical_levels := 0 }, m_mask_val := 0,
    m_bwd_allowed := true, m_num_remap_levs := 0,
    m_remap_pres := unallocated_field ⟨"", FieldLayout.invalid, Units.nondimensional, ""⟩,
    m_src_mid := unallocated_field ⟨"", FieldLayout.invalid, Units.nondimensional, ""⟩,
    m_src_int := unallocated_field ⟨"", FieldLayout.invalid, Units.nondimensional, ""⟩,
    m_mid_set := false, m_int_set := false, m_num_fields := 0,
    m_src_fields := [], m_tgt_fields := [], m_src_masks := [], m_tgt_masks := [] }

/-- The value of `std::numeric_limits<double>::max()`. -/
def ex_Real_max : ℚ := (2 ^ 53 - 1) * 2 ^ 971

/-- A source field of rank 4 whose trailing tag is `LEV`. -/
def ex_q4_src : Field :=
  { fid := ⟨"q4", ⟨[COL, TL, CMP, LEV], [1, 1, 1, 3]⟩, ⟨"kg/kg"⟩, "src"⟩, alloc := ⟨0, 3⟩,
    allocated := true, mask_data := none, mask_value := none, data := [[1, 2, 3]] }

/-- The target of `ex_q4_src`. -/
def ex_q4_tgt : Field :=
  { fid := ⟨"q4", ⟨[COL, TL, CMP, LEV], [1, 1, 1, 3]⟩, ⟨"kg/kg"⟩, "tgt"⟩, alloc := ⟨0, 3⟩,
    allocated := true, mask_data := none, mask_value := none, data := [[0, 0, 0]] }

/-- A field on midpoints that has no storage yet. -/
def ex_lev_prof_unallocated : Field := { ex_lev_prof with allocated := false }

/-- Another midpoint profile: 200, 600, 800. -/
def ex_lev_prof_b : Field := { ex_lev_prof with data := [[200, 600, 800]] }

/-- Modelled from the spec: a monotonic source profile, strictly increasing or
strictly decreasing with the level index. -/
def monotonic_profile (p : List ℚ) : Prop :=
  p.Pairwise (fun a b => a < b) ∨ p.Pairwise (fun a b => b < a)

instance (p : List ℚ) : Decidable (monotonic_profile p) := by
  unfold monotonic_profile; infer_instance

/-- The remapper of the example with a coordinate table equal to its midpoint
profile 100, 500, 900. -/
def ex_identity_remapper : VerticalRemapper :=
  { ex_remapper with m_remap_pres := { ex_remap_pres with data := [[100, 500, 900]] } }

/-! ## Array utilities (test case `array_utils`) -/

/-- The helper `add_one` of the test case `array_utils`: adds one to the entry
`n` of `v`, carrying into the entry `n-1` when the extent `d[n]` is reached;
returns the updated indices and whether there was room. -/
def add_one : List Nat → Nat → List Nat → List Nat × Bool
  | v, 0, d =>
      let v1 := v.set 0 (v.getD 0 0 + 1)
      if d.getD 0 0 ≤ v1.getD 0 0 then (v1.set 0 (d.getD 0 0), false)
      else (v1, true)
  | v, n + 1, d =>
      let v1 := v.set (n + 1) (v.getD (n + 1) 0 + 1)
      if d.getD (n + 1) 0 ≤ v1.getD (n + 1) 0 then
        let v2 := v1.set (n + 1) 0
        let r := add_one v2 n d
        if ¬ r.2 then (r.1.set (n + 1) (d.getD (n + 1) 0), false)
        else (r.1, true)
      else (v1, true)

/-- The indices of `unflatten_idx` from the last dimension to the first, for the
extents listed from the last to the first. -/
def unflatten_rev : List Nat → Nat → List Nat
  | [], _ => []
  | d :: ds, i => (i % d) :: unflatten_rev ds (i / d)

/-- Modelled from the spec: `unflatten_idx` of `share/util/scream_array_utils.hpp`
(not among the sources; only its test case `array_utils` is): the multi-index of
the flat index `idx` for the extents `dims`, the last dimension striding
fastest. -/
def unflatten_idx (dims : List Nat) (idx : Nat) : List Nat :=
  (unflatten_rev dims.reverse idx).reverse

/-- The indices kept by the loop of the test case `array_utils` after `idx`
iterations: `add_one` applied `idx` times, at the last entry, to the zero
indices. -/
def test_ind (dims : List Nat) : Nat → List Nat
  | 0 => List.replicate dims.length 0
  | idx + 1 => (add_one (test_ind dims idx) (dims.length - 1) dims).1

/-! ## Time stamps (test case `time_stamp`)

The class `util::TimeStamp` is not among the sources; only its test case is.
The definitions of this section follow that test case: six components, an
advance by a non-negative number of seconds with carries into minutes, hours,
days, months and years, leap years under the build option
`SCREAM_HAS_LEAP_YEAR` (the parameter `use_leap`), a difference in seconds and
the comparison of two time stamps. -/

/-- Modelled from the spec: a time stamp, date and time of day, with the number
of updates it went through. -/
structure TimeStamp where
  year : Nat
  month : Nat
  day : Nat
  hours : Nat
  minutes : Nat
  seconds : Nat
  num_steps : Nat := 0
  deriving DecidableEq, Repr

/-- Modelled from the spec: leap years, when the build has them: the years
divisible by 4, the centennial years not divisible by 400 excepted. -/
def is_leap_year (use_leap : Bool) (y : Nat) : Bool :=
  use_leap && ((y % 4 == 0 && y % 100 != 0) || y % 400 == 0)

/-- Modelled from the spec: the number of days of a month. -/
def days_in_month (use_leap : Bool) (y m : Nat) : Nat :=
  match m with
  | 1 => 31
  | 2 => if is_leap_year use_leap y then 29 else 28
  | 3 => 31
  | 4 => 30
  | 5 => 31
  | 6 => 30
  | 7 => 31
  | 8 => 31
  | 9 => 30
  | 10 => 31
  | 11 => 30
  | 12 => 31
  | _ => 0

namespace TimeStamp

/-- Modelled from the spec: `is_valid`, every component in its range. -/
def is_valid (use_leap : Bool) (ts : TimeStamp) : Prop :=
  1 ≤ ts.month ∧ ts.month ≤ 12 ∧ 1 ≤ ts.day ∧ ts.day ≤ days_in_month use_leap ts.year ts.month ∧
    ts.hours < 24 ∧ ts.minutes < 60 ∧ ts.seconds < 60

instance (use_leap : Bool) (ts : TimeStamp) : Decidable (is_valid use_leap ts) := by
  unfold is_valid; infer_instance

end TimeStamp

/-- Modelled from the spec: the carry of surplus days into months and years:
while the day exceeds the length of the month, that length is subtracted and the
month advanced, the year with it after December. The first argument bounds the
number of rounds; the day itself is always enough. -/
def roll_days (use_leap : Bool) : Nat → Nat → Nat → Nat → Nat × Nat × Nat
  | 0, y, m, d => (y, m, d)
  | fuel + 1, y, m, d =>
      if days_in_month use_leap y m < d then
        if 12 < m + 1 then roll_days use_leap fuel (y + 1) 1 (d - days_in_month use_leap y m)
        else roll_days use_leap fuel y (m + 1) (d - days_in_month use_leap y m)
      else (y, m, d)

namespace TimeStamp

/-- Modelled from the spec: `operator+=` (and `operator+`), the time stamp
advanced by `seconds`; it fails on an invalid time stamp and on a negative
number of seconds (time cannot be rewound). -/
def add (use_leap : Bool) (ts : TimeStamp) (seconds : Int) : Option TimeStamp :=
  if ¬ ts.is_valid use_leap then none
  else if seconds < 0 then none
  else
    let sec := ts.seconds + seconds.toNat
    let min := ts.minutes + sec / 60
    let hour := ts.hours + min / 60
    let day := ts.day + hour / 24
    let date := roll_days use_leap day ts.year ts.month day
    some { year := date.1, month := date.2.1, day := date.2.2, hours := hour % 24,
           minutes := min % 60, seconds := sec % 60, num_steps := ts.num_steps + 1 }

end TimeStamp

/-- Modelled from the spec: the number of leap years before the year `y`. -/
def leap_years_before (use_leap : Bool) (y : Nat) : Nat :=
  if use_leap then (y + 3) / 4 - (y + 99) / 100 + (y + 399) / 400 else 0

/-- Modelled from the spec: the number of days before the first day of the year
`y`. -/
def days_before_year (use_leap : Bool) (y : Nat) : Nat := 365 * y + leap_years_before use_leap y

/-- Modelled from the spec: the number of days of the year `y` before the first
day of its month `m`. -/
def days_before_month (use_leap : Bool) (y : Nat) : Nat → Nat
  | 0 => 0
  | m + 1 => days_before_month use_leap y m + days_in_month use_leap y m

namespace TimeStamp

/-- Modelled from the spec: the number of seconds from the start of the year 0
to the time stamp. -/
def seconds_from_epoch (use_leap : Bool) (ts : TimeStamp) : Nat :=
  (days_before_year use_leap ts.year + days_before_month use_leap ts.year ts.month +
    (ts.day - 1)) * 86400 + ts.hours * 3600 + ts.minutes * 60 + ts.seconds

/-- Modelled from the spec: `operator-`, the number of seconds from `ts2` to
`ts1`. -/
def sub (use_leap : Bool) (ts1 ts2 : TimeStamp) : Int :=
  (ts1.seconds_from_epoch use_leap : Int) - (ts2.seconds_from_epoch use_leap : Int)

/-- Modelled from the spec: `operator<`, the comparison of date and time,
component after component. -/
def lt (ts1 ts2 : TimeStamp) : Prop :=
  ts1.year < ts2.year ∨ (ts1.year = ts2.year ∧ (ts1.month < ts2.month ∨ (ts1.month = ts2.month ∧
    (ts1.day < ts2.day ∨ (ts1.day = ts2.day ∧ (ts1.hours < ts2.hours ∨ (ts1.hours = ts2.hours ∧
      (ts1.minutes < ts2.minutes ∨ (ts1.minutes = ts2.minutes ∧
        ts1.seconds < ts2.seconds)))))))))

/-- Modelled from the spec: `operator==`, equal date and time. -/
def same (ts1 ts2 : TimeStamp) : Prop :=
  ts1.year = ts2.year ∧ ts1.month = ts2.month ∧ ts1.day = ts2.day ∧ ts1.hours = ts2.hours ∧
    ts1.minutes = ts2.minutes ∧ ts1.seconds = ts2.seconds

/-- Modelled from the spec: `operator<=`. -/
def le (ts1 ts2 : TimeStamp) : Prop := ts1.lt ts2 ∨ ts1.same ts2

instance (ts1 ts2 : TimeStamp) : Decidable (ts1.lt ts2) := by unfold lt; infer_instance
instance (ts1 ts2 : TimeStamp) : Decidable (ts1.same ts2) := by unfold same; infer_instance
instance (ts1 ts2 : TimeStamp) : Decidable (ts1.le ts2) := by unfold le; infer_instance

end TimeStamp

/-- The time stamp of the test case, 2021-10-12 17:08:30. -/
def ex_ts1 : TimeStamp :=
  { year := 2021, month := 10, day := 12, hours := 17, minutes := 8, seconds := 30 }

/-! ## The width selected by the dispatch -/

/-- The width with which the first loop of `do_remap_fwd` runs the kernel on a
pair of fields whose source is vertically interpolated: the cascade of
`is_compatible` tests on the source field, the target field, the source profile
(`src_tag == LEV ? m_src_mid : m_src_int`) and the coordinate table. -/
def field_loop_width (SCREAM_PACK_SIZE : Nat) (vr : VerticalRemapper) (f_src f_tgt : Field) : Nat :=
  let can_pack := decide (1 < SCREAM_PACK_SIZE)
  let tgt_pres_ap := vr.m_remap_pres.alloc
  let src_tag := f_src.fid.layout.back
  let src_ap := f_src.alloc
  let tgt_ap := f_tgt.alloc
  let src_pres_ap := if src_tag = LEV then vr.m_src_mid.alloc else vr.m_src_int.alloc
  dispatch_pack_size can_pack src_ap tgt_ap src_pres_ap tgt_pres_ap

/-- The width with which the second loop of `do_remap_fwd` runs the kernel on a
mask pair whose source is vertically interpolated: the same cascade, on the
source mask after its reset to one. -/
def mask_loop_width (SCREAM_PACK_SIZE : Nat) (vr : VerticalRemapper) (f_src f_tgt : Field) : Nat :=
  let can_pack := decide (1 < SCREAM_PACK_SIZE)
  let tgt_pres_ap := vr.m_remap_pres.alloc
  let src_tag := f_src.fid.layout.back
  let f_src1 := f_src.deep_copy_val 1
  let src_ap := f_src1.alloc
  let tgt_ap := f_tgt.alloc
  let src_pres_ap := if src_tag = LEV then vr.m_src_mid.alloc else vr.m_src_int.alloc
  dispatch_pack_size can_pack src_ap tgt_ap src_pres_ap tgt_pres_ap

/-- The compatibility of a pair with a width, in the words of the
specification: the source field, the target field, the source profile matching
the trailing tag of the field and the target coordinate table are all
compatible with the width `w`. -/
def all_compatible (vr : VerticalRemapper) (f_src f_tgt : Field) (w : Nat) : Bool :=
  f_src.alloc.is_compatible w && f_tgt.alloc.is_compatible w &&
    (source_profile vr f_src.fid.layout.back).alloc.is_compatible w &&
    vr.m_remap_pres.alloc.is_compatible w

/-- A source field on midpoints with eight allocated levels. -/
def ex_T8_src : Field :=
  { fid := ⟨"T8", ⟨[COL, LEV], [1, 8]⟩, ⟨"K"⟩, "src"⟩, alloc := ⟨0, 8⟩, allocated := true,
    mask_data := none, mask_value := none, data := [[1, 2, 3, 4, 5, 6, 7, 8]] }

/-- The target of `ex_T8_src`, with four levels. -/
def ex_T8_tgt : Field :=
  { fid := ⟨"T8", ⟨[COL, LEV], [1, 4]⟩, ⟨"K"⟩, "tgt"⟩, alloc := ⟨0, 4⟩, allocated := true,
    mask_data := none, mask_value := none, data := [[0, 0, 0, 0]] }

/-- A remapper whose midpoint profile has eight allocated levels and whose
coordinate table has four. -/
def ex_remapper8 : VerticalRemapper :=
  { ex_remapper0 with
    m_num_remap_levs := 4,
    m_remap_pres := { ex_remap_pres with fid := ⟨"p_remap", ⟨[LEV], [4]⟩, Units.Pa, "tgt"⟩,
                                          alloc := ⟨0, 4⟩, data := [[50, 200, 500, 950]] },
    m_src_mid := { ex_lev_prof with fid := ⟨"p_mid", ⟨[COL, LEV], [1, 8]⟩, Units.Pa, "src"⟩,
                                    alloc := ⟨0, 8⟩,
                                    data := [[100, 200, 300, 400, 500, 600, 700, 800]] } }

/-- The remapper `ex_remapper8` with the pair `ex_T8_src`, `ex_T8_tgt` bound and
no mask. -/
def ex_remapper8_bound : VerticalRemapper :=
  { ex_remapper8 with m_num_fields := 1, m_src_fields := [ex_T8_src], m_tgt_fields := [ex_T8_tgt] }

/-- A family of kernels that tells the widths apart: the kernel of width
`Packsize` writes `Packsize` empty rows. -/
def ex_width_kernel : VinterpKernel :=
  fun Packsize _ _ _ _ _ _ _ _ => List.replicate Packsize []

/-! ## States that differ in the contents of the masks -/

/-- Two fields that differ at most in the numbers they hold: the same header
(identifier, allocation properties, extra data) and storage of the same shape. -/
def Field.same_storage (f g : Field) : Prop :=
  g.fid = f.fid ∧ g.alloc = f.alloc ∧ g.allocated = f.allocated ∧ g.mask_data = f.mask_data ∧
    g.mask_value = f.mask_value ∧ g.data.map List.length = f.data.map List.length

instance (f g : Field) : Decidable (f.same_storage g) := by
  unfold Field.same_storage; infer_instance

/-- Two lists of fields that differ at most in the numbers the fields hold. -/
def same_storage_list : List Field → List Field → Prop
  | [], [] => True
  | f :: fs, g :: gs => f.same_storage g ∧ same_storage_list fs gs
  | _, _ => False

instance same_storage_list_decidable :
    (fs gs : List Field) → Decidable (same_storage_list fs gs)
  | [], [] => isTrue trivial
  | f :: fs, g :: gs =>
      match (inferInstance : Decidable (f.same_storage g)), same_storage_list_decidable fs gs with
      | isTrue h1, isTrue h2 => isTrue ⟨h1, h2⟩
      | isFalse h1, _ => isFalse (fun h => h1 h.1)
      | _, isFalse h2 => isFalse (fun h => h2 h.2)
  | [], _ :: _ => isFalse (fun h => h)
  | _ :: _, [] => isFalse (fun h => h)

/-- The source mask of the example after an earlier pass left other numbers in
it. -/
def ex_T_mask_src_stale : Field := { ex_T_mask_src with data := [[0, 5, 2]] }

/-- The target mask of the example after an earlier pass left other numbers in
it. -/
def ex_T_mask_tgt_stale : Field := { ex_T_mask_tgt with data := [[9, 9, 9]] }

/-- The remapper of the example with the stale masks. -/
def ex_remapper_stale : VerticalRemapper :=
  { ex_remapper with m_src_masks := [ex_T_mask_src_stale], m_tgt_masks := [ex_T_mask_tgt_stale] }

/-! ## A remapper with three pairs, the second of an unsupported rank -/

/-- The remapper of the example after the registration of three pairs. -/
def ex_remapper3_0 : VerticalRemapper :=
  { ex_remapper0 with
    m_num_fields := 3,
    m_src_fields := [unallocated_field ex_T_src.fid, unallocated_field ex_q4_src.fid,
      unallocated_field ex_ps_src.fid],
    m_tgt_fields := [unallocated_field ex_T_tgt.fid, unallocated_field ex_q4_tgt.fid,
      unallocated_field ex_ps_tgt.fid] }

/-- The remapper with the three pairs bound: `T` on `(COL,LEV)`, `q4` of rank 4
and `ps` on `(COL)`. -/
def ex_remapper3 : VerticalRemapper :=
  bind_seq ex_id_string 1 ex_remapper3_0
    [(0, ex_T_src, ex_T_tgt), (1, ex_q4_src, ex_q4_tgt), (2, ex_ps_src, ex_ps_tgt)]

/-- The target of `ex_q4_src` once bound. -/
def ex_q4_tgt_bound : Field :=
  { ex_q4_tgt with
    mask_data := some ⟨"q4@src_mask", ⟨[COL, LEV], [1, 3]⟩, Units.nondimensional, "tgt"⟩,
    mask_value := some 7777 }

/-- The claim about a failed bind as it is stated: whenever `do_bind_field`
fails, the state of the remapper is the same as before the call. -/
def spec_bind_failure_claim : Prop :=
  ∀ (ids : FieldIdentifier → String) (P : Nat) (vr : VerticalRemapper) (ifield : Nat)
    (src tgt : Field) (e : RemapError),
    (do_bind_field ids P vr ifield src tgt).2 = some e →
    (do_bind_field ids P vr ifield src tgt).1 = vr

/-! ## SHOC: the number of levels of the boundary layer (`shoc_init`)

A shallow embedding of `Functions::shoc_init` of
`components/scream/src/physics/shoc/shoc_main_impl.hpp`. A pack (`Spack`,
`IntSmallPack`) is the list of its `Spack::n` lanes, the view `pref_mid` the
list of its packs; the pack size `Spack_n` and the constant `SC::pblmaxp` are
parameters. -/

/-- Modelled from the spec: `ekat::range<IntSmallPack>(start)`, the pack whose
lane `l` holds `start + l`. -/
def ekat_range (Spack_n : Nat) (start : Int) : List Int :=
  (List.range Spack_n).map (fun (l : Nat) => start + (l : Int))

/-- Modelled from the spec: the indices visited by
`Kokkos::TeamThreadRange(team, begin, end)`: `begin`, ..., `end - 1`. -/
def TeamThreadRange (begin_indx end_indx : Int) : List Int :=
  (List.range (end_indx - begin_indx).toNat).map (fun (i : Nat) => begin_indx + (i : Int))

/-- Modelled from the spec: the read `pref_mid(k)` of a view of packs, as a
total function: the pack of index `k`, and the empty pack when `k` is not an
index of the view (a read out of bounds). -/
def view_1d_at (view : List (List ℚ)) (k : Int) : List ℚ :=
  if k < 0 then [] else view.getD k.toNat []

/-- The pack indices over which `shoc_init` runs its reduction, each of which
is read from `pref_mid`: from `ntop_shoc/Spack::n` up to `nbot_shoc/Spack::n`
included. -/
def shoc_init_pack_indices (Spack_n : Nat) (nbot_shoc ntop_shoc : Int) : List Int :=
  let begin_pack_indx := ntop_shoc.tdiv (Spack_n : Int)
  let end_pack_indx := nbot_shoc.tdiv (Spack_n : Int) + 1
  TeamThreadRange begin_pack_indx end_pack_indx

/-- The body of the reduction of `shoc_init` for the pack index `k`: the number
of lanes of the pack whose level lies in `[ntop_shoc, nbot_shoc)` and whose
pressure is at least `pblmaxp` (`ekat::reduce_sum` of the pack of ones and
zeros). -/
def shoc_init_pack_sum (Spack_n : Nat) (pblmaxp : ℚ) (nbot_shoc ntop_shoc : Int)
    (pref_mid : List (List ℚ)) (k : Int) : Int :=
  let range := ekat_range Spack_n (k * (Spack_n : Int))
  let pack := view_1d_at pref_mid k
  ((List.range Spack_n).map (fun (l : Nat) =>
    let in_range := decide (range.getD l 0 ≥ ntop_shoc) && decide (range.getD l 0 < nbot_shoc)
    let condition := in_range && decide (pack.getD l 0 ≥ pblmaxp)
    if condition then (1 : Int) else 0)).sum

/-- The function `shoc_init`: the number of levels of the boundary layer. -/
def shoc_init (Spack_n : Nat) (pblmaxp : ℚ) (nbot_shoc ntop_shoc : Int)
    (pref_mid : List (List ℚ)) : Int :=
  let npbl_val := ((shoc_init_pack_indices Spack_n nbot_shoc ntop_shoc).map
    (shoc_init_pack_sum Spack_n pblmaxp nbot_shoc ntop_shoc pref_mid)).sum
  if npbl_val = 0 then 1 else npbl_val

/-- Modelled from the spec: `ekat::PackInfo<n>::num_packs(nlev)`, the number of
packs that hold `nlev` levels. -/
def num_packs (Spack_n nlev : Nat) : Nat := (nlev + Spack_n - 1) / Spack_n

/-- The pressure of the level `lev` in a view of packs of `Spack_n` lanes. -/
def level_at (Spack_n : Nat) (pref_mid : List (List ℚ)) (lev : Int) : ℚ :=
  (view_1d_at pref_mid (lev / (Spack_n : Int))).getD (lev % (Spack_n : Int)).toNat 0

/-- The number of levels `lev` with `ntop_shoc ≤ lev < nbot_shoc` whose pressure
`level lev` is at least `pblmaxp`. -/
def pbl_level_count (level : Int → ℚ) (pblmaxp : ℚ) (nbot_shoc ntop_shoc : Int) : Int :=
  (((TeamThreadRange ntop_shoc nbot_shoc).countP (fun lev => decide (level lev ≥ pblmaxp)) : Nat) :
    Int)

/-- The view of packs of `Spack_n` lanes that holds the profile `p`, the lanes
past the last level filled with zero. -/
def pack_view (Spack_n : Nat) (p : List ℚ) : List (List ℚ) :=
  (List.range (num_packs Spack_n p.length)).map (fun (k : Nat) =>
    (List.range Spack_n).map (fun (l : Nat) => p.getD (k * Spack_n + l) 0))

/-- A reference profile of four levels, in Pa. -/
def ex_pref_mid : List ℚ := [20000, 35000, 60000, 95000]

/-! ## PAM: the CRM state between the host and the coupler (`pam_state.h`)

A shallow embedding of `pam_state_copy_input_to_coupler` and
`pam_state_copy_output_to_gcm` of `components/eam/src/physics/crm/pam/pam_state.h`.
The coupler holds two data managers, one on the device and one on the host;
each maps a name to an array, and `get` returns a handle on the array of that
name, so that a write through the handle is a write to the named array. -/

/-- Modelled from the spec: a `real4d` array, by its value at each cell
`(k,j,i,iens)`. -/
abbrev real4d := Nat → Nat → Nat → Nat → ℚ

/-- Modelled from the spec: a data manager of the coupler: the sizes of its
named dimensions and its named 4-d arrays. -/
structure DataManager where
  dims : String → Nat
  arrays : String → real4d

namespace DataManager

/-- The size of a named dimension, `get_dimension_size`. -/
def get_dimension_size (dm : DataManager) (name : String) : Nat := dm.dims name

/-- The array of the given name, `get<real,4>(name)`. -/
def get (dm : DataManager) (name : String) : real4d := dm.arrays name

/-- The write `a(k,j,i,iens) = v` through the handle `a` of the array `name`. -/
def set (dm : DataManager) (name : String) (k j i iens : Nat) (v : ℚ) : DataManager :=
  { dm with arrays := fun n k1 j1 i1 e1 =>
      if n = name ∧ k1 = k ∧ j1 = j ∧ i1 = i ∧ e1 = iens then v else dm.arrays n k1 j1 i1 e1 }

/-- The copy `src.deep_copy_to(a)` into the array `name` of the data manager. -/
def deep_copy_to (dm : DataManager) (src : real4d) (name : String) : DataManager :=
  { dm with arrays := fun n => if n = name then src else dm.arrays n }

end DataManager

/-- Modelled from the spec: the coupler `pam::PamCoupler`, by its two data
managers. -/
structure PamCoupler where
  dm_device : DataManager
  dm_host : DataManager

/-- The cells visited by `parallel_for(SimpleBounds<4>(nz,ny,nx,nens), ...)`. -/
def SimpleBounds4 (nz ny nx nens : Nat) : List (Nat × Nat × Nat × Nat) :=
  (List.range nz).flatMap (fun k => (List.range ny).flatMap (fun j => (List.range nx).flatMap (fun i =>
    (List.range nens).map (fun iens => (k, j, i, iens)))))

/-- Modelled from the spec: `parallel_for` over four bounds: the body is run
once for every cell; the iterations are independent of each other. -/
def parallel_for4 (nz ny nx nens : Nat)
    (body : DataManager → Nat → Nat → Nat → Nat → DataManager) (dm : DataManager) : DataManager :=
  (SimpleBounds4 nz ny nx nens).foldl (fun d c => body d c.1 c.2.1 c.2.2.1 c.2.2.2) dm

/-- The body of the kernel of `pam_state_copy_input_to_coupler` at the cell
`(k,j,i,iens)`, with the handles as the function binds them (lines 113 to 156):
the host CRM data copied to the coupler. -/
def copy_input_cell (dm_host : DataManager) (dm_device : DataManager) (k j i iens : Nat) :
    DataManager :=
  let crm_rho_d := "density_dry"
  let crm_uvel := "uvel"
  let crm_vvel := "vvel"
  let crm_wvel := "wvel"
  let crm_temp := "temp"
  let crm_qv := "water_vapor"
  let crm_qc := "cloud_water"
  let crm_nc := "cloud_water_num"
  let crm_qr := "rain"
  let crm_nr := "rain_num"
  let crm_qi := "ice"
  let crm_ni := "ice_num"
  let crm_qm := "ice_rime"
  let crm_bm := "ice_rime_vol"
  let crm_t_prev := "qv_prev"
  let crm_q_prev := "t_prev"
  let crm_shoc_wthv_sec := "wthv_sec"
  let crm_shoc_tk := "tk"
  let crm_shoc_tkh := "tkh"
  let crm_shoc_cldfrac := "cldfrac"
  let crm_shoc_relvar := "relvar"
  let state_u_wind := dm_host.get "state_u_wind"
  let state_v_wind := dm_host.get "state_v_wind"
  let state_w_wind := dm_host.get "state_w_wind"
  let state_temperature := dm_host.get "state_temperature"
  let state_rho_dry := dm_host.get "state_rho_dry"
  let state_qv := dm_host.get "state_qv"
  let state_qc := dm_host.get "state_qc"
  let state_nc := dm_host.get "state_nc"
  let state_qr := dm_host.get "state_qr"
  let state_nr := dm_host.get "state_nr"
  let state_qi := dm_host.get "state_qi"
  let state_ni := dm_host.get "state_ni"
  let state_qm := dm_host.get "state_qm"
  let state_bm := dm_host.get "state_bm"
  let state_t_prev := dm_host.get "state_t_prev"
  let state_q_prev := dm_host.get "state_q_prev"
  let state_shoc_wthv_sec := dm_host.get "state_shoc_wthv_sec"
  let state_shoc_tk := dm_host.get "state_shoc_tk"
  let state_shoc_tkh := dm_host.get "state_shoc_tkh"
  let state_shoc_cldfrac := dm_host.get "state_shoc_cldfrac"
  let state_shoc_relvar := dm_host.get "state_shoc_relvar"
  let d1 := dm_device.set crm_rho_d k j i iens (state_rho_dry k j i iens)
  let rho_v := state_qv k j i iens * d1.get crm_rho_d k j i iens / (1 - state_qv k j i iens)
  let rho_c := state_qc k j i iens * (d1.get crm_rho_d k j i iens + rho_v)
  let rho_r := state_qr k j i iens * (d1.get crm_rho_d k j i iens + rho_v)
  let rho_i := state_qi k j i iens * (d1.get crm_rho_d k j i iens + rho_v)
  let d2 := d1.set crm_qv k j i iens rho_v
  let d3 := d2.set crm_qc k j i iens rho_c
  let d4 := d3.set crm_qr k j i iens rho_r
  let d5 := d4.set crm_qi k j i iens rho_i
  let d6 := d5.set crm_uvel k j i iens (state_u_wind k j i iens)
  let d7 := d6.set crm_vvel k j i iens (state_v_wind k j i iens)
  let d8 := d7.set crm_wvel k j i iens (state_w_wind k j i iens)
  let d9 := d8.set crm_temp k j i iens (state_temperature k j i iens)
  let d10 := d9.set crm_nc k j i iens (state_nc k j i iens)
  let d11 := d10.set crm_nr k j i iens (state_nr k j i iens)
  let d12 := d11.set crm_ni k j i iens (state_ni k j i iens)
  let d13 := d12.set crm_qm k j i iens (state_qm k j i iens)
  let d14 := d13.set crm_bm k j i iens (state_bm k j i iens)
  let d15 := d14.set crm_t_prev k j i iens (state_t_prev k j i iens)
  let d16 := d15.set crm_q_prev k j i iens (state_q_prev k j i iens)
  let d17 := d16.set crm_shoc_wthv_sec k j i iens (state_shoc_wthv_sec k j i iens)
  let d18 := d17.set crm_shoc_tk k j i iens (state_shoc_tk k j i iens)
  let d19 := d18.set crm_shoc_tkh k j i iens (state_shoc_tkh k j i iens)
  let d20 := d19.set crm_shoc_cldfrac k j i iens (state_shoc_cldfrac k j i iens)
  d20.set crm_shoc_relvar k j i iens (state_shoc_relvar k j i iens)

/-- The function `pam_state_copy_input_to_coupler`, as far as the 4-d arrays of
the CRM state go (lines 112 to 187): the kernel `copy_input_cell` run over the
cells of the CRM. The vertical grid that the function sets first (lines 101 to
110) is not held in these arrays. -/
def pam_state_copy_input_to_coupler (coupler : PamCoupler) : PamCoupler :=
  let dm_device := coupler.dm_device
  let dm_host := coupler.dm_host
  let nens := dm_device.get_dimension_size "nens"
  let nz := dm_device.get_dimension_size "z"
  let ny := dm_device.get_dimension_size "y"
  let nx := dm_device.get_dimension_size "x"
  { coupler with dm_device := parallel_for4 nz ny nx nens (copy_input_cell dm_host) dm_device }

/-- The function `pam_state_copy_output_to_gcm`: the arrays of the coupler copied
to the arrays of the host, with the handles as the function binds them (lines
202 to 244). The mixing ratios `qv`, `qc`, `qr`, `qi` that the function computes
in between are local arrays that are not copied anywhere. -/
def pam_state_copy_output_to_gcm (coupler : PamCoupler) : PamCoupler :=
  let dm_device := coupler.dm_device
  let dm_host := coupler.dm_host
  let crm_uvel := dm_device.get "uvel"
  let crm_vvel := dm_device.get "vvel"
  let crm_wvel := dm_device.get "wvel"
  let crm_temp := dm_device.get "temp"
  let crm_num_c := dm_device.get "cloud_water_num"
  let crm_num_r := dm_device.get "rain_num"
  let crm_num_i := dm_device.get "ice_num"
  let crm_qm := dm_device.get "ice_rime"
  let crm_bm := dm_device.get "ice_rime_vol"
  let crm_t_prev := dm_device.get "qv_prev"
  let crm_q_prev := dm_device.get "t_prev"
  let crm_shoc_wthv_sec := dm_device.get "wthv_sec"
  let crm_shoc_tk := dm_device.get "tk"
  let crm_shoc_tkh := dm_device.get "tkh"
  let crm_shoc_cldfrac := dm_device.get "cldfrac"
  let crm_shoc_relvar := dm_device.get "relvar"
  let host_state_u_wind := "state_u_wind"
  let host_state_v_wind := "state_v_wind"
  let host_state_w_wind := "state_w_wind"
  let host_state_temperature := "state_temperature"
  let host_state_nc := "state_nc"
  let host_state_nr := "state_nr"
  let host_state_ni := "state_ni"
  let host_state_qm := "state_qm"
  let host_state_bm := "state_bm"
  let host_state_t_prev := "state_t_prev"
  let host_state_q_prev := "state_q_prev"
  let host_state_shoc_wthv_sec := "state_shoc_wthv_sec"
  let host_state_shoc_tk := "state_shoc_tk"
  let host_state_shoc_tkh := "state_shoc_tkh"
  let host_state_shoc_cldfrac := "state_shoc_cldfrac"
  let host_state_shoc_relvar := "state_shoc_relvar"
  let h1 := dm_host.deep_copy_to crm_uvel host_state_u_wind
  let h2 := h1.deep_copy_to crm_vvel host_state_v_wind
  let h3 := h2.deep_copy_to crm_wvel host_state_w_wind
  let h4 := h3.deep_copy_to crm_temp host_state_temperature
  let h5 := h4.deep_copy_to crm_num_c host_state_nc
  let h6 := h5.deep_copy_to crm_num_r host_state_nr
  let h7 := h6.deep_copy_to crm_num_i host_state_ni
  let h8 := h7.deep_copy_to crm_qm host_state_qm
  let h9 := h8.deep_copy_to crm_bm host_state_bm
  let h10 := h9.deep_copy_to crm_t_prev host_state_t_prev
  let h11 := h10.deep_copy_to crm_q_prev host_state_q_prev
  let h12 := h11.deep_copy_to crm_shoc_wthv_sec host_state_shoc_wthv_sec
  let h13 := h12.deep_copy_to crm_shoc_tk host_state_shoc_tk
  let h14 := h13.deep_copy_to crm_shoc_tkh host_state_shoc_tkh
  let h15 := h14.deep_copy_to crm_shoc_cldfrac host_state_shoc_cldfrac
  let h16 := h15.deep_copy_to crm_shoc_relvar host_state_shoc_relvar
  { coupler with dm_host := h16 }

/-- A data manager for the examples: one cell, and the constant arrays given by
`value`. -/
def ex_data_manager (value : String → ℚ) : DataManager :=
  { dims := fun _ => 1, arrays := fun n _ _ _ _ => value n }

/-- A coupler for the examples: on the host the temperature of the previous
step is 300 and the water vapor of the previous step 1/100; the arrays of the
device hold zero. -/
def ex_coupler : PamCoupler :=
  { dm_device := ex_data_manager (fun _ => 0),
    dm_host := ex_data_manager (fun n =>
      if n = "state_t_prev" then 300 else if n = "state_q_prev" then 1 / 100 else 0) }

/-! ## The key of a mask pair -/

/-- The key of the mask of a field in the words of the specification: the base
name of the field together with its layout stripped to the horizontal and
vertical tags. -/
def spec_mask_key (f : Field) : String × FieldLayout := (f.fid.name, mask_layout f.fid.layout)

/-- The short name of a tag, for the identifier strings of the examples. -/
def ex_tag_name : FieldTag → String
  | FieldTag.Invalid => "INV"
  | EL => "EL"
  | COL => "COL"
  | GP => "GP"
  | TL => "TL"
  | LEV => "LEV"
  | ILEV => "ILEV"
  | CMP => "CMP"

/-- An identifier string for the examples that tells the layouts apart: name,
grid and the tags of the layout. -/
def ex_full_id_string (fid : FieldIdentifier) : String :=
  fid.name ++ "[" ++ fid.grid_name ++ "]<" ++
    fid.layout.tags.foldl (fun s t => s ++ ex_tag_name t ++ ",") "" ++ ">"

/-- A source field named `T` with two components on midpoints: the base name of
`ex_T_src`, and the same layout once stripped to `(COL,LEV)`. -/
def ex_Tv_src : Field :=
  { fid := ⟨"T", ⟨[COL, CMP, LEV], [1, 2, 3]⟩, ⟨"K"⟩, "src"⟩, alloc := ⟨0, 3⟩,
    allocated := true, mask_data := none, mask_value := none,
    data := [[10, 20, 30], [11, 21, 31]] }

/-- The target of `ex_Tv_src`. -/
def ex_Tv_tgt : Field :=
  { fid := ⟨"T", ⟨[COL, CMP, LEV], [1, 2, 3]⟩, ⟨"K"⟩, "tgt"⟩, alloc := ⟨0, 3⟩,
    allocated := true, mask_data := none, mask_value := none,
    data := [[0, 0, 0], [0, 0, 0]] }

/-- Another source field named `T` on the source grid, in other units and with
other numbers; `ex_id_string` gives it the identifier string of `ex_T_src`. -/
def ex_T_src_b : Field :=
  { fid := ⟨"T", ⟨[COL, LEV], [1, 3]⟩, ⟨"degC"⟩, "src"⟩, alloc := ⟨0, 3⟩, allocated := true,
    mask_data := none, mask_value := none, data := [[1, 2, 3]] }

/-- The target of `ex_T_src_b`. -/
def ex_T_tgt_b : Field :=
  { fid := ⟨"T", ⟨[COL, LEV], [1, 3]⟩, ⟨"degC"⟩, "tgt"⟩, alloc := ⟨0, 3⟩, allocated := true,
    mask_data := none, mask_value := none, data := [[0, 0, 0]] }

/-- The claim about the key of a mask pair as the specification states it: when
two fields with a vertical tag have the same base name and the same stripped
layout and are bound one after the other, both with success, the second bind
leaves the lists of source and target masks unchanged and its target carries the
mask reference that the target of the first bind received. -/
def spec_mask_key_claim : Prop :=
  ∀ (ids : FieldIdentifier → String) (P : Nat) (vr : VerticalRemapper)
    (i1 : Nat) (src1 tgt1 : Field) (i2 : Nat) (src2 tgt2 : Field),
    masks_wf vr →
    (src1.fid.layout.has_tag LEV = true ∨ src1.fid.layout.has_tag ILEV = true) →
    (src2.fid.layout.has_tag LEV = true ∨ src2.fid.layout.has_tag ILEV = true) →
    i1 < vr.m_tgt_fields.length → i2 < vr.m_tgt_fields.length →
    spec_mask_key src2 = spec_mask_key src1 →
    (do_bind_field ids P vr i1 src1 tgt1).2 = none →
    (do_bind_field ids P (do_bind_field ids P vr i1 src1 tgt1).1 i2 src2 tgt2).2 = none →
    (do_bind_field ids P (do_bind_field ids P vr i1 src1 tgt1).1 i2 src2 tgt2).1.m_src_masks =
      (do_bind_field ids P vr i1 src1 tgt1).1.m_src_masks ∧
    (do_bind_field ids P (do_bind_field ids P vr i1 src1 tgt1).1 i2 src2 tgt2).1.m_tgt_masks =
      (do_bind_field ids P vr i1 src1 tgt1).1.m_tgt_masks ∧
    tgt_mask_data (do_bind_field ids P (do_bind_field ids P vr i1 src1 tgt1).1 i2 src2 tgt2).1 i2 =
      tgt_mask_data (do_bind_field ids P vr i1 src1 tgt1).1 i1

/-- A second mapping asset of three levels: 60, 600, 960. -/
def ex_map_file_b : MapFile := { readable := true, nlevs := 3, p_levs := [60, 600, 960] }

/-! # Theorems -/

/-! ## The forward remap -/

theorem apply_vertical_interpolation_eq (vr : VerticalRemapper) (Packsize : Nat)
    (f_src f_tgt : Field) (mask_interp : Bool) :
    apply_vertical_interpolation vr Packsize f_src f_tgt mask_interp =
      (let layout := f_src.fid.layout
       let rank := f_src.rank
       let src_tag := layout.back
       let src_num_levs := layout.dim src_tag
       let mask_val : ℚ := if mask_interp then 0 else vr.m_mask_val
       let src_lev_f := if src_tag = ILEV then vr.m_src_int else vr.m_src_mid
       let src_lev := src_lev_f.data
       let remap_pres_view := vr.m_remap_pres.data.headD []
       match rank with
       | 2 =>
           let tgt_view := perform_vertical_interpolation Packsize 2 src_lev remap_pres_view
             f_src.data 1 src_num_levs vr.m_num_remap_levs mask_val
           .ok { f_tgt with data := tgt_view }
       | 3 =>
           let tgt_view := perform_vertical_interpolation Packsize 3 src_lev remap_pres_view
             f_src.data (layout.dims.getD 1 0) src_num_levs vr.m_num_remap_levs mask_val
           .ok { f_tgt with data := tgt_view }
       | _ => .error RemapError.UnsupportedRank) := rfl

theorem remap_field_step_eq (SCREAM_PACK_SIZE : Nat) (vr : VerticalRemapper) (f_src f_tgt : Field) :
    remap_field_step SCREAM_PACK_SIZE vr f_src f_tgt =
      (let can_pack := decide (1 < SCREAM_PACK_SIZE)
       let tgt_pres_ap := vr.m_remap_pres.alloc
       let layout := f_src.fid.layout
       let src_tag := layout.back
       let do_remap := [ILEV, LEV].contains src_tag
       if do_remap then
         let src_ap := f_src.alloc
         let tgt_ap := f_tgt.alloc
         let src_pres_ap := if src_tag = LEV then vr.m_src_mid.alloc else vr.m_src_int.alloc
         apply_vertical_interpolation vr
           (dispatch_pack_size can_pack src_ap tgt_ap src_pres_ap tgt_pres_ap) f_src f_tgt false
       else
         .ok (f_tgt.deep_copy f_src)) := rfl

theorem remap_mask_step_eq (SCREAM_PACK_SIZE : Nat) (vr : VerticalRemapper) (f_src f_tgt : Field) :
    remap_mask_step SCREAM_PACK_SIZE vr f_src f_tgt =
      (let can_pack := decide (1 < SCREAM_PACK_SIZE)
       let tgt_pres_ap := vr.m_remap_pres.alloc
       let layout := f_src.fid.layout
       let src_tag := layout.back
       let do_remap := [ILEV, LEV].contains src_tag
       if do_remap then
         let f_src1 := f_src.deep_copy_val 1
         let src_ap := f_src1.alloc
         let tgt_ap := f_tgt.alloc
         let src_pres_ap := if src_tag = LEV then vr.m_src_mid.alloc else vr.m_src_int.alloc
         (f_src1, apply_vertical_interpolation vr
           (dispatch_pack_size can_pack src_ap tgt_ap src_pres_ap tgt_pres_ap) f_src1 f_tgt true)
       else
         (f_src, .ok (f_tgt.deep_copy f_src))) := rfl

theorem do_remap_fwd_eq (SCREAM_PACK_SIZE : Nat) (vr : VerticalRemapper) :
    do_remap_fwd SCREAM_PACK_SIZE vr =
      (let r := remap_fields_loop (remap_field_step SCREAM_PACK_SIZE vr)
         vr.m_num_fields vr.m_src_fields vr.m_tgt_fields
       match r.2 with
       | some e => ({ vr with m_tgt_fields := r.1 }, some e)
       | none =>
           let m := remap_masks_loop (remap_mask_step SCREAM_PACK_SIZE vr)
             vr.m_src_masks vr.m_tgt_masks
           ({ vr with m_tgt_fields := r.1, m_src_masks := m.1, m_tgt_masks := m.2.1 },
             m.2.2)) := rfl

theorem out_of_range_take (p : List ℚ) (x : ℚ) (n : Nat) (h : out_of_range p x = true) :
    out_of_range (p.take n) x = true := by
  unfold out_of_range at *
  simp only [Bool.or_eq_true, List.all_eq_true, decide_eq_true_eq] at *
  rcases h with h | h
  · exact Or.inl (fun v hv => h v (List.mem_of_mem_take hv))
  · exact Or.inr (fun v hv => h v (List.mem_of_mem_take hv))

theorem interp_column_at (p xt y : List ℚ) (ns nt : Nat) (mv : ℚ) (k : Nat) (x : ℚ)
    (hk : k < nt) (hx : xt[k]? = some x) :
    (interp_column p xt y ns nt mv)[k]? = some (interp_cell (p.take ns) (y.take ns) x mv) := by
  unfold interp_column
  rw [List.getElem?_map, List.getElem?_take_of_lt hk, hx]
  rfl

theorem lane_batches_join (w : Nat) :
    ∀ (fuel : Nat) (xs : List ℚ), xs.length ≤ fuel → (lane_batches w fuel xs).flatten = xs
  | 0, xs, h => by
    have : xs = [] := List.length_eq_zero.mp (Nat.le_zero.mp h)
    subst this
    rfl
  | fuel + 1, [], _ => rfl
  | fuel + 1, x :: xs, h => by
    have hlen : (xs.drop (w - 1)).length ≤ fuel := by
      simp only [List.length_cons, List.length_drop] at h ⊢
      omega
    simp only [lane_batches, List.flatten_cons, lane_batches_join w fuel _ hlen, List.cons_append,
      List.take_append_drop]

theorem interp_column_packed_eq (w : Nat) (p xt y : List ℚ) (ns nt : Nat) (mv : ℚ) :
    interp_column_packed w p xt y ns nt mv = interp_column p xt y ns nt mv := by
  unfold interp_column_packed interp_column
  rw [← List.map_flatten, lane_batches_join w nt (xt.take nt) (List.length_take_le nt xt)]

theorem perform_vertical_interpolation_row (P N : Nat) (src_lev : List (List ℚ))
    (xt : List ℚ) (src_view : List (List ℚ)) (e1 ns nt : Nat) (mv : ℚ) (r : Nat) (y : List ℚ)
    (hy : src_view[r]? = some y) :
    (perform_vertical_interpolation P N src_lev xt src_view e1 ns nt mv)[r]? =
      some (interp_column (src_lev.getD (if N = 3 then r / e1 else r) []) xt y ns nt mv) := by
  unfold perform_vertical_interpolation
  rw [List.getElem?_mapIdx, hy]
  simp only [Option.map_some', interp_column_packed_eq]

theorem apply_vertical_interpolation_cell (vr : VerticalRemapper) (P : Nat) (f_src f_tgt t1 : Field)
    (mi : Bool) (h : apply_vertical_interpolation vr P f_src f_tgt mi = .ok t1)
    (r k : Nat) (y : List ℚ) (x : ℚ) (hy : f_src.data[r]? = some y)
    (hk : k < vr.m_num_remap_levs) (hx : (vr.m_remap_pres.data.headD [])[k]? = some x) :
    t1.cell r k = some (interp_cell
      (((source_profile vr f_src.fid.layout.back).data.getD (row_column f_src r) []).take
        f_src.num_levs) (y.take f_src.num_levs) x (if mi then 0 else vr.m_mask_val)) := by
  rw [apply_vertical_interpolation_eq] at h
  simp only at h
  split at h
  · rename_i hr
    injection h with h
    subst h
    simp only [Field.cell]
    rw [perform_vertical_interpolation_row _ _ _ _ _ _ _ _ _ r y hy]
    simp only [Option.some_bind]
    rw [interp_column_at _ _ _ _ _ _ k x hk hx]
    simp [source_profile, row_column, hr, Field.num_levs]
  · rename_i hr
    injection h with h
    subst h
    simp only [Field.cell]
    rw [perform_vertical_interpolation_row _ _ _ _ _ _ _ _ _ r y hy]
    simp only [Option.some_bind]
    rw [interp_column_at _ _ _ _ _ _ k x hk hx]
    simp [source_profile, row_column, hr, Field.num_levs]
  · cases h

theorem remap_fields_loop_at (step : Field → Field → Except RemapError Field) :
    ∀ (n : Nat) (srcs tgts : List Field),
      (remap_fields_loop step n srcs tgts).2 = none →
      ∀ (i : Nat) (s t : Field), i < n → srcs[i]? = some s → tgts[i]? = some t →
        ∃ t1, step s t = .ok t1 ∧ (remap_fields_loop step n srcs tgts).1[i]? = some t1 := by
  intro n
  induction n with
  | zero => intro srcs tgts _ i s t hi; omega
  | succ n ih =>
    intro srcs tgts hnone i s t hi hs ht
    cases srcs with
    | nil => simp at hs
    | cons s0 ss =>
      cases tgts with
      | nil => simp at ht
      | cons t0 ts =>
        simp only [remap_fields_loop] at hnone ⊢
        cases hstep : step s0 t0 with
        | error e => simp [hstep] at hnone
        | ok t1 =>
          simp only [hstep] at hnone ⊢
          cases i with
          | zero =>
            simp only [List.getElem?_cons_zero, Option.some.injEq] at hs ht
            subst hs; subst ht
            exact ⟨t1, hstep, by simp⟩
          | succ i =>
            simp only [List.getElem?_cons_succ] at hs ht ⊢
            exact ih ss ts hnone i s t (by omega) hs ht

theorem remap_masks_loop_at (step : Field → Field → Field × Except RemapError Field) :
    ∀ (srcs tgts : List Field),
      (remap_masks_loop step srcs tgts).2.2 = none →
      ∀ (i : Nat) (s t : Field), srcs[i]? = some s → tgts[i]? = some t →
        ∃ t1, (step s t).2 = .ok t1 ∧ (remap_masks_loop step srcs tgts).2.1[i]? = some t1 ∧
          (remap_masks_loop step srcs tgts).1[i]? = some (step s t).1 := by
  intro srcs
  induction srcs with
  | nil => intro tgts _ i s t hs; simp at hs
  | cons s0 ss ih =>
    intro tgts hnone i s t hs ht
    cases tgts with
    | nil => simp at ht
    | cons t0 ts =>
      simp only [remap_masks_loop] at hnone ⊢
      rcases hstep : step s0 t0 with ⟨s1, r⟩
      cases r with
      | error e => simp [hstep] at hnone
      | ok t1 =>
        simp only [hstep] at hnone ⊢
        cases i with
        | zero =>
          simp only [List.getElem?_cons_zero, Option.some.injEq] at hs ht
          subst hs; subst ht
          exact ⟨t1, by simp [hstep], by simp, by simp [hstep]⟩
        | succ i =>
          simp only [List.getElem?_cons_succ] at hs ht ⊢
          exact ih ts hnone i s t hs ht

theorem do_remap_fwd_ok (P : Nat) (vr : VerticalRemapper) (hrun : (do_remap_fwd P vr).2 = none) :
    (remap_fields_loop (remap_field_step P vr) vr.m_num_fields vr.m_src_fields
        vr.m_tgt_fields).2 = none ∧
    (remap_masks_loop (remap_mask_step P vr) vr.m_src_masks vr.m_tgt_masks).2.2 = none ∧
    (do_remap_fwd P vr).1.m_tgt_fields =
      (remap_fields_loop (remap_field_step P vr) vr.m_num_fields vr.m_src_fields
        vr.m_tgt_fields).1 ∧
    (do_remap_fwd P vr).1.m_tgt_masks =
      (remap_masks_loop (remap_mask_step P vr) vr.m_src_masks vr.m_tgt_masks).2.1 ∧
    (do_remap_fwd P vr).1.m_src_masks =
      (remap_masks_loop (remap_mask_step P vr) vr.m_src_masks vr.m_tgt_masks).1 ∧
    (do_remap_fwd P vr).1.m_src_fields = vr.m_src_fields := by
  rw [do_remap_fwd_eq] at hrun ⊢
  simp only at hrun ⊢
  split at hrun
  · simp at hrun
  · rename_i hnone
    exact ⟨hnone, hrun, rfl, rfl, rfl, rfl⟩

theorem remap_field_step_vertical (P : Nat) (vr : VerticalRemapper) (f_src f_tgt : Field)
    (htag : f_src.fid.layout.back = LEV ∨ f_src.fid.layout.back = ILEV) :
    ∃ w, remap_field_step P vr f_src f_tgt = apply_vertical_interpolation vr w f_src f_tgt false := by
  refine ⟨dispatch_pack_size (decide (1 < P)) f_src.alloc f_tgt.alloc
    (if f_src.fid.layout.back = LEV then vr.m_src_mid.alloc else vr.m_src_int.alloc)
    vr.m_remap_pres.alloc, ?_⟩
  rw [remap_field_step_eq]
  rcases htag with h | h <;> simp [h]

theorem remap_field_step_copy (P : Nat) (vr : VerticalRemapper) (f_src f_tgt : Field)
    (htag : f_src.fid.layout.back ≠ LEV ∧ f_src.fid.layout.back ≠ ILEV) :
    remap_field_step P vr f_src f_tgt = .ok (f_tgt.deep_copy f_src) := by
  rw [remap_field_step_eq]
  simp [htag.1, htag.2]

theorem remap_mask_step_vertical (P : Nat) (vr : VerticalRemapper) (f_src f_tgt : Field)
    (htag : f_src.fid.layout.back = LEV ∨ f_src.fid.layout.back = ILEV) :
    ∃ w, remap_mask_step P vr f_src f_tgt =
      (f_src.deep_copy_val 1, apply_vertical_interpolation vr w (f_src.deep_copy_val 1) f_tgt true) := by
  refine ⟨dispatch_pack_size (decide (1 < P)) (f_src.deep_copy_val 1).alloc f_tgt.alloc
    (if f_src.fid.layout.back = LEV then vr.m_src_mid.alloc else vr.m_src_int.alloc)
    vr.m_remap_pres.alloc, ?_⟩
  rw [remap_mask_step_eq]
  rcases htag with h | h <;> simp [h]

theorem exists_row_of_lt_length {α : Type} (l : List α) (r : Nat) (h : r < l.length) :
    ∃ y, l[r]? = some y := ⟨l[r], List.getElem?_eq_getElem h⟩


theorem bracket_lt : ∀ (p : List ℚ) (x : ℚ) (j : Nat), bracket p x = some j → j + 1 < p.length
  | [], _, _, h => by simp [bracket] at h
  | [_], _, _, h => by simp [bracket] at h
  | a :: b :: rest, x, j, h => by
    simp only [bracket] at h
    split at h
    · injection h with h; subst h; simp
    · cases hb : bracket (b :: rest) x with
      | none => simp [hb] at h
      | some j0 =>
        simp only [hb, Option.map_some', Option.some.injEq] at h
        have := bracket_lt (b :: rest) x j0 hb
        subst h
        simp only [List.length_cons] at this ⊢
        omega

theorem interp_cell_ones (p : List ℚ) (x mv : ℚ) (n : Nat) (hn : p.length ≤ n)
    (hin : out_of_range p x = false) :
    interp_cell p (List.replicate n 1) x mv = 1 := by
  unfold interp_cell
  simp only [hin, Bool.false_eq_true, if_false]
  cases hb : bracket p x with
  | none =>
    have hp : p ≠ [] := by
      rintro rfl
      simp [out_of_range] at hin
    have hlen : 0 < p.length := List.length_pos.mpr hp
    have : 0 < n := by omega
    simp [List.getD_eq_getElem?_getD, List.getElem?_replicate, this]
  | some j =>
    have hj := bracket_lt p x j hb
    have h1 : j < n := by omega
    have h2 : j + 1 < n := by omega
    simp [lin_interp, List.getD_eq_getElem?_getD, List.getElem?_replicate, h1, h2]


/-- Claim C1: after a successful forward remap, for a bound pair whose source
has a trailing midpoint or interface tag, and for a mask pair on the same
vertical tag (in particular the one the target refers to), every target level
`k` whose coordinate lies outside the range of the source profile of column `c`
holds the configured fill value `m_mask_val` in the target field (every row `r`
of column `c`) and `0` in the target mask (every row `rm` of column `c`). -/
theorem remap_fwd_out_of_range_fill (P : Nat) (vr : VerticalRemapper)
    (hrun : (do_remap_fwd P vr).2 = none)
    (i j : Nat) (f_src f_tgt m_src m_tgt : Field)
    (hi : i < vr.m_num_fields)
    (hs : vr.m_src_fields[i]? = some f_src) (ht : vr.m_tgt_fields[i]? = some f_tgt)
    (htag : f_src.fid.layout.back = LEV ∨ f_src.fid.layout.back = ILEV)
    (hms : vr.m_src_masks[j]? = some m_src) (hmt : vr.m_tgt_masks[j]? = some m_tgt)
    (hmtag : m_src.fid.layout.back = f_src.fid.layout.back)
    (c k r rm : Nat) (x : ℚ)
    (hr : r < f_src.data.length) (hrc : row_column f_src r = c)
    (hrm : rm < m_src.data.length) (hrmc : row_column m_src rm = c)
    (hk : k < vr.m_num_remap_levs) (hx : (vr.m_remap_pres.data.headD [])[k]? = some x)
    (hout : out_of_range ((source_profile vr f_src.fid.layout.back).data.getD c []) x = true) :
    cell_at (do_remap_fwd P vr).1.m_tgt_fields i r k = some vr.m_mask_val ∧
    cell_at (do_remap_fwd P vr).1.m_tgt_masks j rm k = some 0 := by
  obtain ⟨hf, hm, hft, hmt1, -, -⟩ := do_remap_fwd_ok P vr hrun
  constructor
  · obtain ⟨t1, hstep, hget⟩ :=
      remap_fields_loop_at _ _ _ _ hf i f_src f_tgt hi hs ht
    obtain ⟨w, hw⟩ := remap_field_step_vertical P vr f_src f_tgt htag
    rw [hw] at hstep
    obtain ⟨y, hy⟩ := exists_row_of_lt_length _ r hr
    have hcell := apply_vertical_interpolation_cell vr w f_src f_tgt t1 false hstep r k y x hy hk hx
    rw [hrc] at hcell
    simp only [cell_at, hft, hget, Option.some_bind, hcell, interp_cell,
      out_of_range_take _ _ _ hout]
    simp
  · have hmtag2 : m_src.fid.layout.back = LEV ∨ m_src.fid.layout.back = ILEV := by
      rw [hmtag]; exact htag
    obtain ⟨t1, hstep, hget, -⟩ := remap_masks_loop_at _ _ _ hm j m_src m_tgt hms hmt
    obtain ⟨w, hw⟩ := remap_mask_step_vertical P vr m_src m_tgt hmtag2
    rw [hw] at hstep
    simp only at hstep
    have hrm1 : rm < (m_src.deep_copy_val 1).data.length := by
      simpa [Field.deep_copy_val] using hrm
    obtain ⟨y, hy⟩ := exists_row_of_lt_length _ rm hrm1
    have hcell := apply_vertical_interpolation_cell vr w _ m_tgt t1 true hstep rm k y x hy hk hx
    have hfid : (m_src.deep_copy_val 1).fid = m_src.fid := rfl
    have hrc1 : row_column (m_src.deep_copy_val 1) rm = c := by
      rw [← hrmc]; rfl
    rw [hfid, hrc1, hmtag] at hcell
    simp only [cell_at, hmt1, hget, Option.some_bind, hcell, interp_cell,
      out_of_range_take _ _ _ hout]
    simp


/-- Witness of C1 on the example: the target coordinates 50 and 950 lie outside
the source profile 100, 500, 900. -/
theorem remap_fwd_out_of_range_fill_witness :
    (cell_at (do_remap_fwd 1 ex_remapper).1.m_tgt_fields 0 0 0 = some ex_remapper.m_mask_val ∧
      cell_at (do_remap_fwd 1 ex_remapper).1.m_tgt_masks 0 0 0 = some 0) ∧
    (cell_at (do_remap_fwd 1 ex_remapper).1.m_tgt_fields 0 0 2 = some ex_remapper.m_mask_val ∧
      cell_at (do_remap_fwd 1 ex_remapper).1.m_tgt_masks 0 0 2 = some 0) :=
  ⟨remap_fwd_out_of_range_fill 1 ex_remapper (by decide) 0 0 ex_T_src ex_T_tgt_bound
      ex_T_mask_src ex_T_mask_tgt (by decide) (by decide) (by decide) (by decide) (by decide)
      (by decide) (by decide) 0 0 0 0 50 (by decide) (by decide) (by decide) (by decide)
      (by decide) (by decide) (by decide),
   remap_fwd_out_of_range_fill 1 ex_remapper (by decide) 0 0 ex_T_src ex_T_tgt_bound
      ex_T_mask_src ex_T_mask_tgt (by decide) (by decide) (by decide) (by decide) (by decide)
      (by decide) (by decide) 0 2 0 0 950 (by decide) (by decide) (by decide) (by decide)
      (by decide) (by decide) (by decide)⟩

/-- Claim C2: after a successful forward remap, for every mask pair on a
vertical tag whose rows have the levels of the source profile, every target
level `k` whose coordinate lies inside the range of the source profile of
column `c` holds exactly `1` in the target mask. -/
theorem remap_fwd_in_range_mask_one (P : Nat) (vr : VerticalRemapper)
    (hrun : (do_remap_fwd P vr).2 = none)
    (j : Nat) (m_src m_tgt : Field)
    (hms : vr.m_src_masks[j]? = some m_src) (hmt : vr.m_tgt_masks[j]? = some m_tgt)
    (hmtag : m_src.fid.layout.back = LEV ∨ m_src.fid.layout.back = ILEV)
    (c k rm : Nat) (x : ℚ) (y p : List ℚ)
    (hy : m_src.data[rm]? = some y) (hrmc : row_column m_src rm = c)
    (hp : (source_profile vr m_src.fid.layout.back).data.getD c [] = p)
    (hlev : p.length ≤ m_src.num_levs) (hylen : p.length ≤ y.length)
    (hk : k < vr.m_num_remap_levs) (hx : (vr.m_remap_pres.data.headD [])[k]? = some x)
    (hin : out_of_range p x = false) :
    cell_at (do_remap_fwd P vr).1.m_tgt_masks j rm k = some 1 := by
  obtain ⟨-, hm, -, hmt1, -, -⟩ := do_remap_fwd_ok P vr hrun
  obtain ⟨t1, hstep, hget, -⟩ := remap_masks_loop_at _ _ _ hm j m_src m_tgt hms hmt
  obtain ⟨w, hw⟩ := remap_mask_step_vertical P vr m_src m_tgt hmtag
  rw [hw] at hstep
  simp only at hstep
  have hy1 : (m_src.deep_copy_val 1).data[rm]? = some (List.replicate y.length 1) := by
    simp only [Field.deep_copy_val, List.getElem?_map, hy, Option.map_some', Option.some.injEq]
    exact List.map_const' y 1
  have hcell := apply_vertical_interpolation_cell vr w _ m_tgt t1 true hstep rm k _ x hy1 hk hx
  have hfid : (m_src.deep_copy_val 1).fid = m_src.fid := rfl
  have hrc1 : row_column (m_src.deep_copy_val 1) rm = c := by
    rw [← hrmc]; rfl
  have hnl : (m_src.deep_copy_val 1).num_levs = m_src.num_levs := rfl
  rw [hfid, hrc1, hp, hnl, List.take_of_length_le hlev, List.take_replicate] at hcell
  rw [interp_cell_ones p x _ _ (by omega) hin] at hcell
  simp only [cell_at, hmt1, hget, Option.some_bind, hcell]

/-- Witness of C2 on the example: the target coordinate 500 lies inside the
source profile 100, 500, 900. -/
theorem remap_fwd_in_range_mask_one_witness :
    cell_at (do_remap_fwd 1 ex_remapper).1.m_tgt_masks 0 0 1 = some 1 :=
  remap_fwd_in_range_mask_one 1 ex_remapper (by decide) 0 ex_T_mask_src ex_T_mask_tgt
    (by decide) (by decide) (by decide) 0 1 0 500 [0, 0, 0] [100, 500, 900]
    (by decide) (by decide) (by decide) (by decide) (by decide) (by decide) (by decide)
    (by decide)

/-- Claim C3: after a successful forward remap, the target of a bound pair
whose source has no trailing midpoint or interface tag holds exactly the numbers
of the source (nothing else of the target changes), and the source is unchanged. -/
theorem remap_fwd_pass_through (P : Nat) (vr : VerticalRemapper)
    (hrun : (do_remap_fwd P vr).2 = none)
    (i : Nat) (f_src f_tgt : Field) (hi : i < vr.m_num_fields)
    (hs : vr.m_src_fields[i]? = some f_src) (ht : vr.m_tgt_fields[i]? = some f_tgt)
    (htag : f_src.fid.layout.back ≠ LEV ∧ f_src.fid.layout.back ≠ ILEV) :
    (do_remap_fwd P vr).1.m_tgt_fields[i]? = some { f_tgt with data := f_src.data } ∧
    (do_remap_fwd P vr).1.m_src_fields[i]? = some f_src := by
  obtain ⟨hf, -, hft, -, -, hsf⟩ := do_remap_fwd_ok P vr hrun
  obtain ⟨t1, hstep, hget⟩ := remap_fields_loop_at _ _ _ _ hf i f_src f_tgt hi hs ht
  rw [remap_field_step_copy P vr f_src f_tgt htag] at hstep
  injection hstep with hstep
  subst hstep
  rw [hft, hget, hsf, hs]
  exact ⟨rfl, rfl⟩

/-- Witness of C3 on the example: the surface pressure is copied. -/
theorem remap_fwd_pass_through_witness :
    (do_remap_fwd 1 ex_remapper).1.m_tgt_fields[1]? =
      some { ex_ps_tgt with data := ex_ps_src.data } ∧
    (do_remap_fwd 1 ex_remapper).1.m_src_fields[1]? = some ex_ps_src :=
  remap_fwd_pass_through 1 ex_remapper (by decide) 1 ex_ps_src ex_ps_tgt (by decide)
    (by decide) (by decide) (by decide)

/-! ## Binding -/

theorem strip_dim_tags (l : FieldLayout) (t : FieldTag) : (l.strip_dim t).tags = l.tags.erase t := by
  simp [FieldLayout.strip_dim]

theorem create_tgt_layout_error (vr : VerticalRemapper) (l : FieldLayout) (e : RemapError)
    (h : create_tgt_layout vr l = .error e) : e = RemapError.UnsupportedLayout := by
  unfold create_tgt_layout at h
  simp only at h
  split at h <;> first | (injection h with h; exact h.symm) | cases h

theorem bind_mask_tracking_error (ids : FieldIdentifier → String) (P : Nat) (vr : VerticalRemapper)
    (ifield : Nat) (src tgt : Field) (e : RemapError)
    (h : (bind_mask_tracking ids P vr ifield src tgt).2 = some e) :
    e = RemapError.UnsupportedLayout ∨ e = RemapError.DuplicateMaskAssignment := by
  unfold bind_mask_tracking at h
  simp only at h
  split at h
  · split at h
    · simp at h
    · split at h
      · rename_i e0 he0
        simp only [Option.some.injEq] at h
        subst h
        exact Or.inl (create_tgt_layout_error _ _ _ he0)
      · split at h
        · simp only [Option.some.injEq] at h
          exact Or.inr h.symm
        · split at h
          · simp only [Option.some.injEq] at h
            exact Or.inr h.symm
          · simp at h
  · split at h
    · split at h
      · simp only [Option.some.injEq] at h
        exact Or.inr h.symm
      · split at h
        · simp only [Option.some.injEq] at h
          exact Or.inr h.symm
        · simp at h
    · simp at h

theorem do_bind_field_eq (ids : FieldIdentifier → String) (P : Nat) (vr : VerticalRemapper)
    (ifield : Nat) (src tgt : Field) :
    do_bind_field ids P vr ifield src tgt =
      if ¬ spec_layout_ok src.fid.layout tgt.fid.layout then (vr, some RemapError.LayoutMismatch)
      else if ¬ (padding_ok src ∧ padding_ok tgt) then (vr, some RemapError.UnsupportedPadding)
      else bind_mask_tracking ids P vr ifield src tgt := by
  unfold do_bind_field
  simp only [strip_dim_tags]
  by_cases hl : spec_layout_ok src.fid.layout tgt.fid.layout
  · rw [if_neg (not_not.mpr hl)]
    obtain ⟨hr, hc⟩ := hl
    rw [if_neg (not_not.mpr hr)]
    have h2 : ¬ (src.fid.layout.has_tag ILEV = true ∧
        src.fid.layout.tags.erase ILEV ≠ tgt.fid.layout.tags.erase LEV) := by
      rintro ⟨hi, hne⟩
      rcases hc with ⟨_, he⟩ | ⟨hf, _⟩
      · exact hne he
      · rw [hi] at hf; cases hf
    have h3 : ¬ (¬ src.fid.layout.has_tag ILEV = true ∧
        src.fid.layout.tags ≠ tgt.fid.layout.tags) := by
      rintro ⟨hi, hne⟩
      rcases hc with ⟨ht, _⟩ | ⟨_, he⟩
      · exact hi ht
      · exact hne he
    rw [if_neg h2, if_neg h3]
    by_cases hp1 : padding_ok src
    · have hp1a : ¬ ¬ (1 < src.fid.layout.rank ∨ src.alloc.padding = 0) := not_not.mpr hp1
      rw [if_neg hp1a]
      by_cases hp2 : padding_ok tgt
      · have hp2a : ¬ ¬ (1 < tgt.fid.layout.rank ∨ tgt.alloc.padding = 0) := not_not.mpr hp2
        rw [if_neg hp2a, if_neg (not_not.mpr ⟨hp1, hp2⟩)]
      · have hp2a : ¬ (1 < tgt.fid.layout.rank ∨ tgt.alloc.padding = 0) := hp2
        rw [if_pos hp2a, if_pos (fun h => hp2 h.2)]
    · have hp1a : ¬ (1 < src.fid.layout.rank ∨ src.alloc.padding = 0) := hp1
      rw [if_pos hp1a, if_pos (fun h => hp1 h.1)]
  · rw [if_pos hl]
    by_cases hr : src.fid.layout.rank = tgt.fid.layout.rank
    · rw [if_neg (not_not.mpr hr)]
      by_cases hi : src.fid.layout.has_tag ILEV = true
      · have hne : src.fid.layout.tags.erase ILEV ≠ tgt.fid.layout.tags.erase LEV :=
          fun he => hl ⟨hr, Or.inl ⟨hi, he⟩⟩
        rw [if_pos ⟨hi, hne⟩]
      · have hne : src.fid.layout.tags ≠ tgt.fid.layout.tags :=
          fun he => hl ⟨hr, Or.inr ⟨by simpa using hi, he⟩⟩
        have h2 : ¬ (src.fid.layout.has_tag ILEV = true ∧
            src.fid.layout.tags.erase ILEV ≠ tgt.fid.layout.tags.erase LEV) := fun h => hi h.1
        rw [if_neg h2, if_pos ⟨hi, hne⟩]
    · rw [if_pos hr]

/-- Claim C4: a bind is refused with the layout mismatch exactly when the ranks
of source and target differ, or the ranks are equal and neither of the two
following holds: the source carries `ILEV` and the source tags with `ILEV`
removed equal the target tags with `LEV` removed; the source carries no `ILEV`
and the two tag sequences are equal. A bind refused this way leaves the remapper
as it was. -/
theorem bind_layout_check (ids : FieldIdentifier → String) (P : Nat) (vr : VerticalRemapper)
    (ifield : Nat) (src tgt : Field) :
    ((do_bind_field ids P vr ifield src tgt).2 = some RemapError.LayoutMismatch ↔
      ¬ (src.fid.layout.rank = tgt.fid.layout.rank ∧
        ((src.fid.layout.has_tag ILEV = true ∧
            src.fid.layout.tags.erase ILEV = tgt.fid.layout.tags.erase LEV) ∨
         (src.fid.layout.has_tag ILEV = false ∧
            src.fid.layout.tags = tgt.fid.layout.tags)))) ∧
    ((do_bind_field ids P vr ifield src tgt).2 = some RemapError.LayoutMismatch →
      (do_bind_field ids P vr ifield src tgt).1 = vr) := by
  rw [do_bind_field_eq]
  by_cases hl : spec_layout_ok src.fid.layout tgt.fid.layout
  · have hl2 := hl
    unfold spec_layout_ok at hl2
    simp only [hl, not_true_eq_false, if_false, hl2]
    by_cases hp : padding_ok src ∧ padding_ok tgt
    · simp only [hp, and_self, not_true_eq_false, if_false, iff_false]
      have : ¬ (bind_mask_tracking ids P vr ifield src tgt).2 = some RemapError.LayoutMismatch := by
        intro h
        rcases bind_mask_tracking_error _ _ _ _ _ _ _ h with h1 | h1 <;> cases h1
      exact ⟨this, fun h => absurd h this⟩
    · simp [hp]
  · have hl2 := hl
    unfold spec_layout_ok at hl2
    simp [hl, hl2]

/-- Witness of C4: a source of rank 3 and a target of rank 2 are refused with
the layout mismatch. -/
theorem bind_layout_check_witness :
    (do_bind_field ex_id_string 1 ex_remapper0 0 ex_uv3_src ex_T_tgt).2 =
        some RemapError.LayoutMismatch ∧
    (do_bind_field ex_id_string 1 ex_remapper0 0 ex_uv3_src ex_T_tgt).1 = ex_remapper0 :=
  ⟨(bind_layout_check ex_id_string 1 ex_remapper0 0 ex_uv3_src ex_T_tgt).1.mpr (by decide),
   (bind_layout_check ex_id_string 1 ex_remapper0 0 ex_uv3_src ex_T_tgt).2
    ((bind_layout_check ex_id_string 1 ex_remapper0 0 ex_uv3_src ex_T_tgt).1.mpr (by decide))⟩

theorem bind_mask_tracking_found (ids : FieldIdentifier → String) (P : Nat) (vr : VerticalRemapper)
    (ifield : Nat) (src tgt m : Field)
    (hv : src.fid.layout.has_tag LEV = true ∨ src.fid.layout.has_tag ILEV = true)
    (hf : find_mask (mask_name ids src) vr.m_src_masks vr.m_tgt_masks = some m) :
    bind_mask_tracking ids P vr ifield src tgt =
      ({ vr with m_src_fields := vr.m_src_fields.set ifield src,
                 m_tgt_fields := vr.m_tgt_fields.set ifield { tgt with mask_data := some m.fid } },
        none) := by
  unfold bind_mask_tracking
  simp only [hv, if_true, hf]

theorem bind_mask_tracking_fresh (ids : FieldIdentifier → String) (P : Nat) (vr : VerticalRemapper)
    (ifield : Nat) (src tgt : Field)
    (hv : src.fid.layout.has_tag LEV = true ∨ src.fid.layout.has_tag ILEV = true)
    (hf : find_mask (mask_name ids src) vr.m_src_masks vr.m_tgt_masks = none)
    (hok : (bind_mask_tracking ids P vr ifield src tgt).2 = none) :
    ∃ tgt_lay, create_tgt_layout vr (mask_layout src.fid.layout) = .ok tgt_lay ∧
      tgt.mask_data = none ∧ tgt.mask_value = none ∧
      bind_mask_tracking ids P vr ifield src tgt =
        ({ vr with
            m_src_fields := vr.m_src_fields.set ifield src,
            m_tgt_fields := vr.m_tgt_fields.set ifield
              { tgt with
                  mask_data := some ⟨mask_name ids src, tgt_lay, Units.nondimensional,
                    vr.m_tgt_grid.name⟩,
                  mask_value := some vr.m_mask_val },
            m_src_masks := vr.m_src_masks ++
              [new_field ⟨mask_name ids src, mask_layout src.fid.layout, Units.nondimensional,
                vr.m_src_grid.name⟩ P],
            m_tgt_masks := vr.m_tgt_masks ++
              [new_field ⟨mask_name ids src, tgt_lay, Units.nondimensional,
                vr.m_tgt_grid.name⟩ P] }, none) := by
  unfold bind_mask_tracking at hok ⊢
  simp only [hv, if_true, hf] at hok ⊢
  cases hc : create_tgt_layout vr (mask_layout src.fid.layout) with
  | error e => simp [hc] at hok
  | ok tgt_lay =>
    simp only [hc] at hok ⊢
    cases hd : tgt.mask_data with
    | some d => simp [hd] at hok
    | none =>
      simp only [hd, Option.isSome_none, Bool.false_eq_true, if_false] at hok ⊢
      cases hmv : tgt.mask_value with
      | some d => simp [hmv] at hok
      | none =>
        simp only [Option.isSome_none, Bool.false_eq_true, if_false]
        refine ⟨tgt_lay, ?_, ?_, ?_, ?_⟩ <;> first | rfl | trivial

theorem find_mask_append_of_some (k : String) (srcs tgts a b : List Field) (m : Field)
    (hlen : srcs.length = tgts.length) (h : find_mask k srcs tgts = some m) :
    find_mask k (srcs ++ a) (tgts ++ b) = some m := by
  unfold find_mask at h ⊢
  rw [List.zip_append hlen, List.find?_append]
  cases hf : List.find? (fun p => k == p.1.name) (srcs.zip tgts) with
  | none => simp [hf] at h
  | some p =>
    rw [hf] at h
    simpa using h

theorem find_mask_none_not_mem (k : String) :
    ∀ (srcs tgts : List Field), srcs.length = tgts.length → find_mask k srcs tgts = none →
      k ∉ srcs.map Field.name
  | [], _, _, _ => by simp
  | s :: ss, [], hlen, _ => by simp at hlen
  | s :: ss, t :: ts, hlen, h => by
    unfold find_mask at h
    simp only [List.zip_cons_cons, List.find?_cons] at h
    by_cases hk : (k == s.name) = true
    · simp [hk] at h
    · simp only [hk] at h
      have ih := find_mask_none_not_mem k ss ts (by simpa using hlen) (by unfold find_mask; exact h)
      simp only [List.map_cons, List.mem_cons, not_or]
      refine ⟨?_, ih⟩
      intro he
      exact hk (by simp [he])

theorem find_mask_append_fresh (k : String) (srcs tgts : List Field) (ms mt : Field)
    (hlen : srcs.length = tgts.length) (h : find_mask k srcs tgts = none) (hn : ms.name = k) :
    find_mask k (srcs ++ [ms]) (tgts ++ [mt]) = some mt := by
  unfold find_mask at h ⊢
  rw [List.zip_append hlen, List.find?_append]
  cases hf : List.find? (fun p => k == p.1.name) (srcs.zip tgts) with
  | some p => simp [hf] at h
  | none => simp [hn]

theorem do_bind_field_masks (ids : FieldIdentifier → String) (P : Nat) (vr : VerticalRemapper)
    (ifield : Nat) (src tgt : Field) :
    ((do_bind_field ids P vr ifield src tgt).1.m_src_masks = vr.m_src_masks ∧
      (do_bind_field ids P vr ifield src tgt).1.m_tgt_masks = vr.m_tgt_masks) ∨
    (∃ ms mt, find_mask (mask_name ids src) vr.m_src_masks vr.m_tgt_masks = none ∧
      ms.name = mask_name ids src ∧
      (do_bind_field ids P vr ifield src tgt).1.m_src_masks = vr.m_src_masks ++ [ms] ∧
      (do_bind_field ids P vr ifield src tgt).1.m_tgt_masks = vr.m_tgt_masks ++ [mt]) := by
  rw [do_bind_field_eq]
  split
  · exact Or.inl ⟨rfl, rfl⟩
  · split
    · exact Or.inl ⟨rfl, rfl⟩
    · unfold bind_mask_tracking
      simp only
      split
      · split
        · exact Or.inl ⟨rfl, rfl⟩
        · rename_i hnone
          split
          · exact Or.inl ⟨rfl, rfl⟩
          · split
            · exact Or.inl ⟨rfl, rfl⟩
            · split
              · exact Or.inl ⟨rfl, rfl⟩
              · exact Or.inr ⟨new_field ⟨mask_name ids src, mask_layout src.fid.layout,
                  Units.nondimensional, vr.m_src_grid.name⟩ P, _, hnone, rfl, rfl, rfl⟩
      · split
        · split
          · exact Or.inl ⟨rfl, rfl⟩
          · split
            · exact Or.inl ⟨rfl, rfl⟩
            · exact Or.inl ⟨rfl, rfl⟩
        · exact Or.inl ⟨rfl, rfl⟩

theorem do_bind_field_fields_length (ids : FieldIdentifier → String) (P : Nat)
    (vr : VerticalRemapper) (ifield : Nat) (src tgt : Field) :
    (do_bind_field ids P vr ifield src tgt).1.m_tgt_fields.length = vr.m_tgt_fields.length := by
  rw [do_bind_field_eq]
  split
  · rfl
  · split
    · rfl
    · unfold bind_mask_tracking
      simp only
      repeat' split
      all_goals simp

theorem do_bind_field_wf (ids : FieldIdentifier → String) (P : Nat) (vr : VerticalRemapper)
    (ifield : Nat) (src tgt : Field) (hwf : masks_wf vr) :
    masks_wf (do_bind_field ids P vr ifield src tgt).1 := by
  rcases do_bind_field_masks ids P vr ifield src tgt with ⟨h1, h2⟩ | ⟨ms, mt, hnone, hn, h1, h2⟩
  · unfold masks_wf at hwf ⊢
    rw [h1, h2]; exact hwf
  · unfold masks_wf at hwf ⊢
    rw [h1, h2]
    refine ⟨by simp [hwf.1], ?_⟩
    rw [List.map_append, List.nodup_append]
    refine ⟨hwf.2, by simp, ?_⟩
    intro a ha hb
    simp only [List.map_cons, List.map_nil, List.mem_singleton] at hb
    subst hb
    rw [hn] at ha
    exact find_mask_none_not_mem _ _ _ hwf.1 hnone ha

theorem do_bind_field_find_mask (ids : FieldIdentifier → String) (P : Nat)
    (vr : VerticalRemapper) (ifield : Nat) (src tgt : Field) (hwf : masks_wf vr)
    (k : String) (m : Field) (h : find_mask k vr.m_src_masks vr.m_tgt_masks = some m) :
    find_mask k (do_bind_field ids P vr ifield src tgt).1.m_src_masks
      (do_bind_field ids P vr ifield src tgt).1.m_tgt_masks = some m := by
  rcases do_bind_field_masks ids P vr ifield src tgt with ⟨h1, h2⟩ | ⟨ms, mt, -, -, h1, h2⟩
  · rw [h1, h2]; exact h
  · rw [h1, h2]; exact find_mask_append_of_some _ _ _ _ _ _ hwf.1 h

theorem bind_seq_wf (ids : FieldIdentifier → String) (P : Nat) :
    ∀ (calls : List (Nat × Field × Field)) (vr : VerticalRemapper), masks_wf vr →
      masks_wf (bind_seq ids P vr calls)
  | [], _, h => h
  | (i, s, t) :: rest, vr, h => by
    simp only [bind_seq]
    exact bind_seq_wf ids P rest _ (do_bind_field_wf ids P vr i s t h)

theorem bind_seq_find_mask (ids : FieldIdentifier → String) (P : Nat) (k : String) (m : Field) :
    ∀ (calls : List (Nat × Field × Field)) (vr : VerticalRemapper), masks_wf vr →
      find_mask k vr.m_src_masks vr.m_tgt_masks = some m →
      find_mask k (bind_seq ids P vr calls).m_src_masks (bind_seq ids P vr calls).m_tgt_masks =
        some m
  | [], _, _, h => h
  | (i, s, t) :: rest, vr, hwf, h => by
    simp only [bind_seq]
    exact bind_seq_find_mask ids P k m rest _ (do_bind_field_wf ids P vr i s t hwf)
      (do_bind_field_find_mask ids P vr i s t hwf k m h)

theorem bind_seq_fields_length (ids : FieldIdentifier → String) (P : Nat) :
    ∀ (calls : List (Nat × Field × Field)) (vr : VerticalRemapper),
      (bind_seq ids P vr calls).m_tgt_fields.length = vr.m_tgt_fields.length
  | [], _ => rfl
  | (i, s, t) :: rest, vr => by
    simp only [bind_seq]
    rw [bind_seq_fields_length ids P rest, do_bind_field_fields_length]

theorem do_bind_field_ok (ids : FieldIdentifier → String) (P : Nat) (vr : VerticalRemapper)
    (ifield : Nat) (src tgt : Field) (hok : (do_bind_field ids P vr ifield src tgt).2 = none) :
    do_bind_field ids P vr ifield src tgt = bind_mask_tracking ids P vr ifield src tgt ∧
      spec_layout_ok src.fid.layout tgt.fid.layout ∧ padding_ok src ∧ padding_ok tgt := by
  rw [do_bind_field_eq] at hok ⊢
  by_cases hl : spec_layout_ok src.fid.layout tgt.fid.layout
  · by_cases hp : padding_ok src ∧ padding_ok tgt
    · simp only [hl, hp, and_self, not_true_eq_false, if_false]
    · simp [hl, hp] at hok
  · simp [hl] at hok

theorem bind_vertical_reuse (ids : FieldIdentifier → String) (P : Nat) (vr : VerticalRemapper)
    (ifield : Nat) (src tgt m : Field)
    (hv : src.fid.layout.has_tag LEV = true ∨ src.fid.layout.has_tag ILEV = true)
    (hi : ifield < vr.m_tgt_fields.length)
    (hok : (do_bind_field ids P vr ifield src tgt).2 = none)
    (hf : find_mask (mask_name ids src) vr.m_src_masks vr.m_tgt_masks = some m) :
    (do_bind_field ids P vr ifield src tgt).1.m_src_masks = vr.m_src_masks ∧
    (do_bind_field ids P vr ifield src tgt).1.m_tgt_masks = vr.m_tgt_masks ∧
    tgt_mask_data (do_bind_field ids P vr ifield src tgt).1 ifield = some m.fid ∧
    tgt_mask_value (do_bind_field ids P vr ifield src tgt).1 ifield = tgt.mask_value := by
  rw [(do_bind_field_ok ids P vr ifield src tgt hok).1, bind_mask_tracking_found ids P vr ifield
    src tgt m hv hf]
  refine ⟨rfl, rfl, ?_, ?_⟩
  · simp [tgt_mask_data, List.getElem?_set_self hi]
  · simp [tgt_mask_value, List.getElem?_set_self hi]

theorem bind_vertical_fresh (ids : FieldIdentifier → String) (P : Nat) (vr : VerticalRemapper)
    (ifield : Nat) (src tgt : Field)
    (hv : src.fid.layout.has_tag LEV = true ∨ src.fid.layout.has_tag ILEV = true)
    (hwf : masks_wf vr) (hi : ifield < vr.m_tgt_fields.length)
    (hok : (do_bind_field ids P vr ifield src tgt).2 = none)
    (hf : find_mask (mask_name ids src) vr.m_src_masks vr.m_tgt_masks = none) :
    ∃ ms mt : Field,
      (do_bind_field ids P vr ifield src tgt).1.m_src_masks = vr.m_src_masks ++ [ms] ∧
      (do_bind_field ids P vr ifield src tgt).1.m_tgt_masks = vr.m_tgt_masks ++ [mt] ∧
      ms.fid.units = Units.nondimensional ∧ mt.fid.units = Units.nondimensional ∧
      ms.name = mask_name ids src ∧ mt.name = mask_name ids src ∧
      ms.fid.layout = mask_layout src.fid.layout ∧
      find_mask (mask_name ids src) (do_bind_field ids P vr ifield src tgt).1.m_src_masks
        (do_bind_field ids P vr ifield src tgt).1.m_tgt_masks = some mt ∧
      tgt_mask_data (do_bind_field ids P vr ifield src tgt).1 ifield = some mt.fid ∧
      tgt_mask_value (do_bind_field ids P vr ifield src tgt).1 ifield = some vr.m_mask_val := by
  have h0 := (do_bind_field_ok ids P vr ifield src tgt hok).1
  rw [h0] at hok ⊢
  obtain ⟨tgt_lay, -, -, -, heq⟩ := bind_mask_tracking_fresh ids P vr ifield src tgt hv hf hok
  rw [heq]
  refine ⟨_, _, rfl, rfl, rfl, rfl, rfl, rfl, rfl, ?_, ?_, ?_⟩
  · exact find_mask_append_fresh _ _ _ _ _ hwf.1 hf rfl
  · simp [tgt_mask_data, List.getElem?_set_self hi, new_field]
  · simp [tgt_mask_value, List.getElem?_set_self hi]

theorem bind_vertical_find (ids : FieldIdentifier → String) (P : Nat) (vr : VerticalRemapper)
    (ifield : Nat) (src tgt : Field)
    (hv : src.fid.layout.has_tag LEV = true ∨ src.fid.layout.has_tag ILEV = true)
    (hwf : masks_wf vr) (hi : ifield < vr.m_tgt_fields.length)
    (hok : (do_bind_field ids P vr ifield src tgt).2 = none) :
    ∃ m : Field,
      find_mask (mask_name ids src) (do_bind_field ids P vr ifield src tgt).1.m_src_masks
        (do_bind_field ids P vr ifield src tgt).1.m_tgt_masks = some m ∧
      tgt_mask_data (do_bind_field ids P vr ifield src tgt).1 ifield = some m.fid := by
  cases hf : find_mask (mask_name ids src) vr.m_src_masks vr.m_tgt_masks with
  | some m =>
    obtain ⟨h1, h2, h3, -⟩ := bind_vertical_reuse ids P vr ifield src tgt m hv hi hok hf
    exact ⟨m, by rw [h1, h2]; exact hf, h3⟩
  | none =>
    obtain ⟨ms, mt, -, -, -, -, -, -, -, h1, h2, -⟩ :=
      bind_vertical_fresh ids P vr ifield src tgt hv hwf hi hok hf
    exact ⟨mt, h1, h2⟩

/-- Claim C6, amended: the key of a mask pair is the mask name, the identifier
string of the source field followed by `"_mask"`. Starting from well-formed
mask pairs, let a field with a vertical tag be bound successfully, then any
sequence of binds be made, then a second field with a vertical tag and the same
mask name be bound successfully. The second bind leaves the lists of source and
target masks unchanged, its target carries the very mask reference the target
of the first bind received, and no two source masks have the same name. The two
fields are arbitrary, so either may come first. -/
theorem mask_pair_shared (ids : FieldIdentifier → String) (P : Nat) (vr : VerticalRemapper)
    (hwf : masks_wf vr)
    (i1 : Nat) (src1 tgt1 : Field) (calls : List (Nat × Field × Field))
    (i2 : Nat) (src2 tgt2 : Field)
    (hv1 : src1.fid.layout.has_tag LEV = true ∨ src1.fid.layout.has_tag ILEV = true)
    (hv2 : src2.fid.layout.has_tag LEV = true ∨ src2.fid.layout.has_tag ILEV = true)
    (hi1 : i1 < vr.m_tgt_fields.length) (hi2 : i2 < vr.m_tgt_fields.length)
    (hkey : mask_name ids src2 = mask_name ids src1)
    (hok1 : (do_bind_field ids P vr i1 src1 tgt1).2 = none)
    (hok2 : (do_bind_field ids P
      (bind_seq ids P (do_bind_field ids P vr i1 src1 tgt1).1 calls) i2 src2 tgt2).2 = none) :
    (do_bind_field ids P
        (bind_seq ids P (do_bind_field ids P vr i1 src1 tgt1).1 calls) i2 src2 tgt2).1.m_src_masks
      = (bind_seq ids P (do_bind_field ids P vr i1 src1 tgt1).1 calls).m_src_masks ∧
    (do_bind_field ids P
        (bind_seq ids P (do_bind_field ids P vr i1 src1 tgt1).1 calls) i2 src2 tgt2).1.m_tgt_masks
      = (bind_seq ids P (do_bind_field ids P vr i1 src1 tgt1).1 calls).m_tgt_masks ∧
    (∃ m : FieldIdentifier,
      tgt_mask_data (do_bind_field ids P vr i1 src1 tgt1).1 i1 = some m ∧
      tgt_mask_data (do_bind_field ids P
        (bind_seq ids P (do_bind_field ids P vr i1 src1 tgt1).1 calls) i2 src2 tgt2).1 i2
        = some m) ∧
    masks_wf (do_bind_field ids P
        (bind_seq ids P (do_bind_field ids P vr i1 src1 tgt1).1 calls) i2 src2 tgt2).1 := by
  have hwf1 := do_bind_field_wf ids P vr i1 src1 tgt1 hwf
  have hwf2 := bind_seq_wf ids P calls _ hwf1
  obtain ⟨m, hfind1, hdata1⟩ := bind_vertical_find ids P vr i1 src1 tgt1 hv1 hwf hi1 hok1
  have hfind2 := bind_seq_find_mask ids P _ m calls _ hwf1 hfind1
  rw [← hkey] at hfind2
  have hlen : i2 < (bind_seq ids P (do_bind_field ids P vr i1 src1 tgt1).1 calls).m_tgt_fields.length := by
    rw [bind_seq_fields_length, do_bind_field_fields_length]; exact hi2
  obtain ⟨h1, h2, h3, -⟩ := bind_vertical_reuse ids P _ i2 src2 tgt2 m hv2 hlen hok2 hfind2
  exact ⟨h1, h2, ⟨m.fid, hdata1, h3⟩, do_bind_field_wf ids P _ i2 src2 tgt2 hwf2⟩

/-- Counterexample to C5 as stated: the pair `ex_uv_src`, `ex_uv_tgt` of layout
`(COL,CMP)` passes the layout check, has no vertical dimension and is padded,
and its bind is not refused with the padding error. -/
theorem bind_padding_vector_counterexample : ¬ spec_padding_claim := by
  intro h
  have h1 := h ex_id_string 1 ex_remapper0 0 ex_uv_src ex_uv_tgt (by decide) (by decide)
  revert h1
  decide

/-- Claim C5, amended: for a pair that passes the layout check, the bind is
refused with the padding error exactly when the source or the target has rank
at most one and a non-zero padding; a bind refused this way leaves the remapper
as it was. -/
theorem bind_padding_check (ids : FieldIdentifier → String) (P : Nat) (vr : VerticalRemapper)
    (ifield : Nat) (src tgt : Field)
    (hl : spec_layout_ok src.fid.layout tgt.fid.layout) :
    ((do_bind_field ids P vr ifield src tgt).2 = some RemapError.UnsupportedPadding ↔
      (src.rank ≤ 1 ∧ src.alloc.padding ≠ 0) ∨ (tgt.rank ≤ 1 ∧ tgt.alloc.padding ≠ 0)) ∧
    ((do_bind_field ids P vr ifield src tgt).2 = some RemapError.UnsupportedPadding →
      (do_bind_field ids P vr ifield src tgt).1 = vr) := by
  rw [do_bind_field_eq]
  simp only [hl, not_true_eq_false, if_false]
  have hiff : ¬ (padding_ok src ∧ padding_ok tgt) ↔
      ((src.rank ≤ 1 ∧ src.alloc.padding ≠ 0) ∨ (tgt.rank ≤ 1 ∧ tgt.alloc.padding ≠ 0)) := by
    unfold padding_ok Field.rank
    constructor
    · intro h
      by_contra hc
      apply h
      simp only [not_or, not_and, not_le, ne_eq, not_not] at hc
      constructor
      · by_cases h1 : 1 < src.fid.layout.rank
        · exact Or.inl h1
        · exact Or.inr (hc.1 (by omega))
      · by_cases h1 : 1 < tgt.fid.layout.rank
        · exact Or.inl h1
        · exact Or.inr (hc.2 (by omega))
    · rintro (⟨h1, h2⟩ | ⟨h1, h2⟩) ⟨h3, h4⟩
      · rcases h3 with h3 | h3
        · omega
        · exact h2 h3
      · rcases h4 with h4 | h4
        · omega
        · exact h2 h4
  by_cases hp : padding_ok src ∧ padding_ok tgt
  · have hn : ¬ (bind_mask_tracking ids P vr ifield src tgt).2 =
        some RemapError.UnsupportedPadding := by
      intro h
      rcases bind_mask_tracking_error _ _ _ _ _ _ _ h with h1 | h1 <;> cases h1
    simp only [hp, and_self, not_true_eq_false, if_false]
    refine ⟨⟨fun h => absurd h hn, fun h => absurd hp (hiff.mpr h)⟩, fun h => absurd h hn⟩
  · simp only [hp, not_false_eq_true, if_true, true_iff]
    exact ⟨hiff.mp hp, fun _ => trivial⟩

/-- Witness of C5 amended: the surface pressure `(COL)` stored with padding is
refused. -/
theorem bind_padding_check_witness :
    (do_bind_field ex_id_string 1 ex_remapper0 1 ex_ps_src_padded ex_ps_tgt).2 =
        some RemapError.UnsupportedPadding ∧
    (do_bind_field ex_id_string 1 ex_remapper0 1 ex_ps_src_padded ex_ps_tgt).1 = ex_remapper0 :=
  ⟨(bind_padding_check ex_id_string 1 ex_remapper0 1 ex_ps_src_padded ex_ps_tgt
      (by decide)).1.mpr (by decide),
   (bind_padding_check ex_id_string 1 ex_remapper0 1 ex_ps_src_padded ex_ps_tgt
      (by decide)).2
    ((bind_padding_check ex_id_string 1 ex_remapper0 1 ex_ps_src_padded ex_ps_tgt
      (by decide)).1.mpr (by decide))⟩

/-- The amended claim on two distinct fields of the same identifier string
`"T@src"`: `ex_T_src` bound at index 0, then `ex_T_src_b`, in other units and
with other numbers, bound at index 1. -/
theorem mask_pair_shared_witness :
    (do_bind_field ex_id_string 1 (do_bind_field ex_id_string 1 ex_remapper0 0 ex_T_src
        ex_T_tgt).1 1 ex_T_src_b ex_T_tgt_b).1.m_src_masks =
      (do_bind_field ex_id_string 1 ex_remapper0 0 ex_T_src ex_T_tgt).1.m_src_masks ∧
    (do_bind_field ex_id_string 1 (do_bind_field ex_id_string 1 ex_remapper0 0 ex_T_src
        ex_T_tgt).1 1 ex_T_src_b ex_T_tgt_b).1.m_tgt_masks =
      (do_bind_field ex_id_string 1 ex_remapper0 0 ex_T_src ex_T_tgt).1.m_tgt_masks ∧
    (∃ m : FieldIdentifier,
      tgt_mask_data (do_bind_field ex_id_string 1 ex_remapper0 0 ex_T_src ex_T_tgt).1 0 = some m ∧
      tgt_mask_data (do_bind_field ex_id_string 1 (do_bind_field ex_id_string 1 ex_remapper0 0
        ex_T_src ex_T_tgt).1 1 ex_T_src_b ex_T_tgt_b).1 1 = some m) ∧
    masks_wf (do_bind_field ex_id_string 1 (do_bind_field ex_id_string 1 ex_remapper0 0 ex_T_src
        ex_T_tgt).1 1 ex_T_src_b ex_T_tgt_b).1 :=
  mask_pair_shared ex_id_string 1 ex_remapper0 ⟨rfl, List.nodup_nil⟩ 0 ex_T_src ex_T_tgt
    [] 1 ex_T_src_b ex_T_tgt_b (by decide) (by decide) (by decide)
    (by decide) (by decide) (by decide) (by decide)

/-- The claim C6 as stated fails: with an identifier string that tells the
layouts apart, `ex_T_src` on `(COL,LEV)` and `ex_Tv_src` on `(COL,CMP,LEV)` have
the same base name and the same stripped layout, and the bind of the second
creates a second mask pair. -/
theorem mask_key_counterexample : ¬ spec_mask_key_claim := by
  intro h
  have h1 := h ex_full_id_string 1 ex_remapper0 0 ex_T_src ex_T_tgt 1 ex_Tv_src ex_Tv_tgt
    ⟨rfl, List.nodup_nil⟩ (by decide) (by decide) (by decide) (by decide) (by decide)
    (by decide) (by decide)
  revert h1
  decide

/-- The two binds of the counterexample: the same key in the words of the
specification, two mask names, two mask pairs. -/
theorem mask_key_example :
    spec_mask_key ex_Tv_src = spec_mask_key ex_T_src ∧
    mask_name ex_full_id_string ex_T_src = "T[src]<COL,LEV,>_mask" ∧
    mask_name ex_full_id_string ex_Tv_src = "T[src]<COL,CMP,LEV,>_mask" ∧
    (do_bind_field ex_full_id_string 1 (do_bind_field ex_full_id_string 1 ex_remapper0 0 ex_T_src
        ex_T_tgt).1 1 ex_Tv_src ex_Tv_tgt).2 = none ∧
    (do_bind_field ex_full_id_string 1 ex_remapper0 0 ex_T_src ex_T_tgt).1.m_src_masks.length = 1 ∧
    (do_bind_field ex_full_id_string 1 (do_bind_field ex_full_id_string 1 ex_remapper0 0 ex_T_src
        ex_T_tgt).1 1 ex_Tv_src ex_Tv_tgt).1.m_src_masks.length = 2 := by
  decide

/-- The key of the specification and the key of the code agree exactly when the
identifier string is a function of the base name and the stripped layout: for
such an identifier string, two sources with the same key in the words of the
specification have the same mask name. -/
theorem mask_name_of_spec_mask_key (ids : FieldIdentifier → String) (src1 src2 : Field)
    (hids : ∀ f1 f2 : Field, spec_mask_key f1 = spec_mask_key f2 → ids f1.fid = ids f2.fid)
    (hkey : spec_mask_key src2 = spec_mask_key src1) :
    mask_name ids src2 = mask_name ids src1 := by
  unfold mask_name
  rw [hids src2 src1 hkey]

/-- Claim C7, the code at the failing input: the mask pair of `ex_T_src` exists
in `ex_remapper`; binding `ex_T_src` again succeeds and attaches the mask
reference, but leaves the target without any fill value, whereas the first bind,
which created the pair, attached the fill value of the remapper. -/
theorem bind_reuse_omits_mask_value :
    find_mask (mask_name ex_id_string ex_T_src) ex_remapper.m_src_masks ex_remapper.m_tgt_masks =
      some ex_T_mask_tgt ∧
    (do_bind_field ex_id_string 1 ex_remapper 1 ex_T_src ex_T_tgt).2 = none ∧
    tgt_mask_data (do_bind_field ex_id_string 1 ex_remapper 1 ex_T_src ex_T_tgt).1 1 =
      some ex_T_mask_tgt.fid ∧
    tgt_mask_value (do_bind_field ex_id_string 1 ex_remapper 1 ex_T_src ex_T_tgt).1 1 = none ∧
    tgt_mask_value (do_bind_field ex_id_string 1 ex_remapper0 0 ex_T_src ex_T_tgt).1 0 =
      some ex_remapper0.m_mask_val := by
  decide

/-- Claim C8, the code at the failing input: the source carries the fill value 5
of an upstream stage; after the bind the target carries the mask reference of the
source, but the fill value 7777 of the remapper. -/
theorem bind_inherited_mask_value_overwritten :
    (do_bind_field ex_id_string 1 ex_remapper0 1 ex_ps_src_masked ex_ps_tgt).2 = none ∧
    ex_ps_src_masked.mask_value = some 5 ∧
    tgt_mask_data (do_bind_field ex_id_string 1 ex_remapper0 1 ex_ps_src_masked ex_ps_tgt).1 1 =
      ex_ps_src_masked.mask_data ∧
    tgt_mask_value (do_bind_field ex_id_string 1 ex_remapper0 1 ex_ps_src_masked ex_ps_tgt).1 1 =
      some 7777 := by
  decide

/-- Claim C9, the code at the failing input: the target already carries a mask
reference and a fill value; when the mask pair of the source exists the bind
succeeds, whereas on the remapper without that pair the same bind is refused as
a duplicate assignment. -/
theorem bind_reuse_skips_duplicate_check :
    ex_T_tgt_bound.mask_data.isSome = true ∧ ex_T_tgt_bound.mask_value.isSome = true ∧
    (do_bind_field ex_id_string 1 ex_remapper 1 ex_T_src ex_T_tgt_bound).2 = none ∧
    (do_bind_field ex_id_string 1 ex_remapper0 1 ex_T_src ex_T_tgt_bound).2 =
      some RemapError.DuplicateMaskAssignment := by
  decide


/-! ## The layout of a mask -/

theorem mask_layout_fold_tags (pre : List FieldTag) :
    ∀ (ts : List FieldTag) (cur : FieldLayout),
      (∀ t ∈ pre, t = COL ∨ t = LEV ∨ t = ILEV) → cur.tags = pre ++ ts →
      (ts.foldl (fun src_lay tag =>
          if tag ≠ COL ∧ tag ≠ LEV ∧ tag ≠ ILEV then src_lay.strip_dim tag else src_lay) cur).tags
        = pre ++ ts.filter (fun t => decide (t = COL ∨ t = LEV ∨ t = ILEV)) := by
  intro ts
  induction ts generalizing pre with
  | nil => intro cur _ h; simpa using h
  | cons t ts ih =>
    intro cur hpre h
    simp only [List.foldl_cons]
    by_cases hk : t = COL ∨ t = LEV ∨ t = ILEV
    · have hn : ¬ (t ≠ COL ∧ t ≠ LEV ∧ t ≠ ILEV) := by
        rintro ⟨h1, h2, h3⟩
        rcases hk with h | h | h
        · exact h1 h
        · exact h2 h
        · exact h3 h
      rw [if_neg hn, List.filter_cons_of_pos (by simpa using hk)]
      have := ih (pre ++ [t]) cur
        (by
          intro x hx
          rcases List.mem_append.mp hx with hx | hx
          · exact hpre x hx
          · simp only [List.mem_singleton] at hx; subst hx; exact hk)
        (by simpa using h)
      simpa using this
    · have hy : t ≠ COL ∧ t ≠ LEV ∧ t ≠ ILEV := by
        refine ⟨fun h => hk (Or.inl h), fun h => hk (Or.inr (Or.inl h)),
          fun h => hk (Or.inr (Or.inr h))⟩
      rw [if_pos hy, List.filter_cons_of_neg (by simpa using hk)]
      have hnot : t ∉ pre := fun hm => hk (hpre t hm)
      apply ih pre (cur.strip_dim t) hpre
      rw [strip_dim_tags, h, List.erase_append_right _ hnot]
      simp

theorem mask_layout_tags (l : FieldLayout) :
    (mask_layout l).tags = l.tags.filter (fun t => decide (t = COL ∨ t = LEV ∨ t = ILEV)) := by
  have := mask_layout_fold_tags [] l.tags l (by simp) (by simp)
  simpa [mask_layout] using this

theorem getLastD_filter_of_keep (keep : FieldTag → Bool) :
    ∀ (ts : List FieldTag) (d : FieldTag), ts ≠ [] → keep (ts.getLastD d) = true →
      (ts.filter keep).getLastD d = ts.getLastD d := by
  intro ts
  induction ts with
  | nil => intro d h; exact absurd rfl h
  | cons a rest ih =>
    intro d _ hk
    cases rest with
    | nil =>
      simp only [List.getLastD_cons, List.getLastD_nil] at hk
      simp [List.filter, hk]
    | cons b rest2 =>
      have hl : (a :: b :: rest2).getLastD d = (b :: rest2).getLastD d := by
        simp [List.getLastD_cons]
      rw [hl] at hk ⊢
      have ih2 := ih d (by simp) hk
      by_cases ha : keep a = true
      · rw [List.filter_cons_of_pos ha]
        have hne : (b :: rest2).filter keep ≠ [] := by
          intro he
          have hmem : (b :: rest2).getLastD d ∈ (b :: rest2).filter keep := by
            rw [List.mem_filter]
            refine ⟨?_, hk⟩
            rw [List.getLastD_cons]
            exact List.getLastD_mem_cons _ _
          rw [he] at hmem
          cases hmem
        rw [← ih2]
        cases hf : (b :: rest2).filter keep with
        | nil => exact absurd hf hne
        | cons c cs => simp [List.getLastD_cons]
      · rw [List.filter_cons_of_neg ha]
        exact ih2

theorem mask_layout_back (l : FieldLayout) (h : l.back = LEV ∨ l.back = ILEV) :
    (mask_layout l).back = l.back := by
  unfold FieldLayout.back at h ⊢
  rw [mask_layout_tags]
  have hne : l.tags ≠ [] := by
    intro he
    rw [he] at h
    simp at h
  apply getLastD_filter_of_keep _ _ _ hne
  rcases h with h | h <;> rw [h] <;> rfl

/-- The source mask created by a bind lies on the vertical tag of the field: when
the trailing tag of the field is `LEV` or `ILEV`, it is the trailing tag of the
mask layout too. -/
theorem bind_fresh_mask_tag (ids : FieldIdentifier → String) (P : Nat) (vr : VerticalRemapper)
    (ifield : Nat) (src tgt : Field)
    (hb : src.fid.layout.back = LEV ∨ src.fid.layout.back = ILEV)
    (hv : src.fid.layout.has_tag LEV = true ∨ src.fid.layout.has_tag ILEV = true)
    (hwf : masks_wf vr) (hi : ifield < vr.m_tgt_fields.length)
    (hok : (do_bind_field ids P vr ifield src tgt).2 = none)
    (hf : find_mask (mask_name ids src) vr.m_src_masks vr.m_tgt_masks = none) :
    ∃ ms : Field,
      (do_bind_field ids P vr ifield src tgt).1.m_src_masks = vr.m_src_masks ++ [ms] ∧
      ms.fid.layout.back = src.fid.layout.back := by
  obtain ⟨ms, mt, h1, -, -, -, -, -, hl, -, -, -⟩ :=
    bind_vertical_fresh ids P vr ifield src tgt hv hwf hi hok hf
  exact ⟨ms, h1, by rw [hl]; exact mask_layout_back _ hb⟩

/-! ## Registration of the profiles -/

theorem register_error_indep (vr vr1 : VerticalRemapper) (src : Field) (mode : String) :
    (register_vertical_source_field vr src mode).2 =
      (register_vertical_source_field vr1 src mode).2 := by
  unfold register_vertical_source_field
  simp only
  repeat' split
  all_goals rfl

theorem register_mid_flag (vr : VerticalRemapper) (src : Field) (mode : String) :
    (register_vertical_source_field vr src mode).1.m_mid_set = true ↔
      vr.m_mid_set = true ∨
        (mode = "mid" ∧ (register_vertical_source_field vr src mode).2 = none) := by
  unfold register_vertical_source_field
  simp only
  by_cases hm : mode = "mid"
  · subst hm
    simp only [true_or, not_true_eq_false, if_false, if_true, true_and]
    split
    · simp
    · split <;> simp
  · by_cases hi : mode = "int"
    · subst hi
      simp only [or_true, not_true_eq_false, if_false, hm, false_and, or_false]
      split
      · rfl
      · split <;> rfl
    · simp [hm, hi]

theorem register_int_flag (vr : VerticalRemapper) (src : Field) (mode : String) :
    (register_vertical_source_field vr src mode).1.m_int_set = true ↔
      vr.m_int_set = true ∨
        (mode = "int" ∧ (register_vertical_source_field vr src mode).2 = none) := by
  unfold register_vertical_source_field
  simp only
  by_cases hm : mode = "mid"
  · subst hm
    have hne : ¬ ("mid" = "int") := by decide
    simp only [true_or, not_true_eq_false, if_false, if_true, hne, false_and, or_false]
    split
    · rfl
    · split <;> rfl
  · by_cases hi : mode = "int"
    · subst hi
      simp only [or_true, not_true_eq_false, if_false, hm, true_and]
      split
      · simp
      · split <;> simp
    · simp [hm, hi]

theorem register_seq_mid_flag (vr0 : VerticalRemapper) :
    ∀ (calls : List (Field × String)) (vr : VerticalRemapper),
      (register_seq vr calls).m_mid_set = true ↔
        vr.m_mid_set = true ∨
          ∃ c ∈ calls, c.2 = "mid" ∧ (register_vertical_source_field vr0 c.1 c.2).2 = none
  | [], vr => by simp [register_seq]
  | (s, m) :: rest, vr => by
    simp only [register_seq]
    rw [register_seq_mid_flag vr0 rest, register_mid_flag, register_error_indep vr vr0]
    simp only [List.mem_cons, exists_eq_or_imp]
    tauto

theorem register_seq_int_flag (vr0 : VerticalRemapper) :
    ∀ (calls : List (Field × String)) (vr : VerticalRemapper),
      (register_seq vr calls).m_int_set = true ↔
        vr.m_int_set = true ∨
          ∃ c ∈ calls, c.2 = "int" ∧ (register_vertical_source_field vr0 c.1 c.2).2 = none
  | [], vr => by simp [register_seq]
  | (s, m) :: rest, vr => by
    simp only [register_seq]
    rw [register_seq_int_flag vr0 rest, register_int_flag, register_error_indep vr vr0]
    simp only [List.mem_cons, exists_eq_or_imp]
    tauto

theorem do_registration_ends_iff (vr : VerticalRemapper) :
    ((do_registration_ends vr).2 = none ↔ vr.m_mid_set = true ∧ vr.m_int_set = true) ∧
    ((do_registration_ends vr).2 = none ∨
      (do_registration_ends vr).2 = some RemapError.MissingVerticalProfile) ∧
    (do_registration_ends vr).1 = vr := by
  unfold do_registration_ends
  cases hm : vr.m_mid_set <;> cases hi : vr.m_int_set <;> simp

/-- Claim C10: starting with no profile set, after any sequence of calls of
`register_vertical_source_field` the end of registration succeeds if and only
if some call of mode `"mid"` succeeded and some call of mode `"int"` succeeded;
when it does not succeed it fails with the missing-profile error. -/
theorem registration_ends_iff_profiles (vr0 : VerticalRemapper) (calls : List (Field × String))
    (hmid : vr0.m_mid_set = false) (hint : vr0.m_int_set = false) :
    ((do_registration_ends (register_seq vr0 calls)).2 = none ↔
      (∃ c ∈ calls, c.2 = "mid" ∧ (register_vertical_source_field vr0 c.1 c.2).2 = none) ∧
      (∃ c ∈ calls, c.2 = "int" ∧ (register_vertical_source_field vr0 c.1 c.2).2 = none)) ∧
    ((do_registration_ends (register_seq vr0 calls)).2 = none ∨
      (do_registration_ends (register_seq vr0 calls)).2 =
        some RemapError.MissingVerticalProfile) := by
  obtain ⟨h1, h2, -⟩ := do_registration_ends_iff (register_seq vr0 calls)
  refine ⟨?_, h2⟩
  rw [h1, register_seq_mid_flag vr0 calls vr0, register_seq_int_flag vr0 calls vr0, hmid, hint]
  simp

/-- Witness of C10: both profiles of the example registered on a remapper with
no profile set. -/
theorem registration_ends_iff_profiles_witness :
    ((do_registration_ends (register_seq ex_unregistered
        [(ex_lev_prof, "mid"), (ex_ilev_prof, "int")])).2 = none ↔
      (∃ c ∈ [(ex_lev_prof, "mid"), (ex_ilev_prof, "int")], c.2 = "mid" ∧
        (register_vertical_source_field ex_unregistered c.1 c.2).2 = none) ∧
      (∃ c ∈ [(ex_lev_prof, "mid"), (ex_ilev_prof, "int")], c.2 = "int" ∧
        (register_vertical_source_field ex_unregistered c.1 c.2).2 = none)) ∧
    ((do_registration_ends (register_seq ex_unregistered
        [(ex_lev_prof, "mid"), (ex_ilev_prof, "int")])).2 = none ∨
      (do_registration_ends (register_seq ex_unregistered
        [(ex_lev_prof, "mid"), (ex_ilev_prof, "int")])).2 =
        some RemapError.MissingVerticalProfile) :=
  registration_ends_iff_profiles ex_unregistered [(ex_lev_prof, "mid"), (ex_ilev_prof, "int")]
    rfl rfl

/-! ## Registration of one profile -/

/-- Claim C11: `register_vertical_source_field` succeeds exactly when the mode
is `"mid"` and the trailing tag of the field is `LEV`, or the mode is `"int"`
and the trailing tag is `ILEV`, and the field is allocated. With a valid mode, a
wrong trailing tag fails with the profile-layout mismatch, and a right trailing
tag on a field that is not allocated fails with the unallocated-profile error.
Whenever the call fails the remapper, both stored profiles included, is
unchanged. -/
theorem register_profile_outcome (vr : VerticalRemapper) (src : Field) (mode : String) :
    ((register_vertical_source_field vr src mode).2 = none ↔
      (mode = "mid" ∧ src.fid.layout.back = LEV ∧ src.allocated = true) ∨
      (mode = "int" ∧ src.fid.layout.back = ILEV ∧ src.allocated = true)) ∧
    ((mode = "mid" ∧ src.fid.layout.back ≠ LEV) ∨ (mode = "int" ∧ src.fid.layout.back ≠ ILEV) →
      (register_vertical_source_field vr src mode).2 = some RemapError.ProfileLayoutMismatch) ∧
    ((mode = "mid" ∧ src.fid.layout.back = LEV) ∨ (mode = "int" ∧ src.fid.layout.back = ILEV) →
      src.allocated = false →
      (register_vertical_source_field vr src mode).2 = some RemapError.UnallocatedProfile) ∧
    ((register_vertical_source_field vr src mode).2 ≠ none →
      (register_vertical_source_field vr src mode).1 = vr) := by
  have hne : ¬ ("mid" = "int") := by decide
  have hne2 : ¬ ("int" = "mid") := by decide
  unfold register_vertical_source_field
  by_cases hm : mode = "mid"
  · subst hm
    by_cases ht : src.fid.layout.back = LEV
    · cases ha : src.allocated <;> simp [ht, hne]
    · cases ha : src.allocated <;> simp [ht, hne]
  · by_cases hi : mode = "int"
    · subst hi
      by_cases ht : src.fid.layout.back = ILEV
      · cases ha : src.allocated <;> simp [ht, hne2]
      · cases ha : src.allocated <;> simp [ht, hne2]
    · simp [hm, hi]

/-- Witness of C11: the midpoint profile of the example is accepted for `"mid"`,
refused for `"int"`, and refused when it has no storage. -/
theorem register_profile_outcome_witness :
    (register_vertical_source_field ex_unregistered ex_lev_prof "mid").2 = none ∧
    (register_vertical_source_field ex_unregistered ex_lev_prof "int").2 =
      some RemapError.ProfileLayoutMismatch ∧
    (register_vertical_source_field ex_unregistered ex_lev_prof_unallocated "mid").2 =
      some RemapError.UnallocatedProfile ∧
    (register_vertical_source_field ex_unregistered ex_lev_prof_unallocated "mid").1 =
      ex_unregistered :=
  ⟨(register_profile_outcome ex_unregistered ex_lev_prof "mid").1.mpr (by decide),
   (register_profile_outcome ex_unregistered ex_lev_prof "int").2.1 (by decide),
   (register_profile_outcome ex_unregistered ex_lev_prof_unallocated "mid").2.2.1
     (by decide) (by decide),
   (register_profile_outcome ex_unregistered ex_lev_prof_unallocated "mid").2.2.2
     (by decide)⟩

/-- Claim C12: after a successful `register_vertical_source_field` the
remapper is the one before the call with the profile of that mode replaced by the
field and the flag of that mode set: whatever profile was stored for the mode
before is overwritten (the last registration wins), and the profile and the flag
of the other mode, like every other member, are unchanged. -/
theorem register_profile_effect (vr : VerticalRemapper) (src : Field) (mode : String)
    (hok : (register_vertical_source_field vr src mode).2 = none) :
    (mode = "mid" →
      (register_vertical_source_field vr src mode).1 =
        { vr with m_src_mid := src, m_mid_set := true }) ∧
    (mode = "int" →
      (register_vertical_source_field vr src mode).1 =
        { vr with m_src_int := src, m_int_set := true }) ∧
    (mode = "mid" ∨ mode = "int") := by
  have hne2 : ¬ ("int" = "mid") := by decide
  have hne : ¬ ("mid" = "int") := by decide
  unfold register_vertical_source_field at hok ⊢
  by_cases hm : mode = "mid"
  · subst hm
    by_cases ht : src.fid.layout.back = LEV
    · cases ha : src.allocated
      · simp [ht, ha] at hok
      · simp [ht, hne]
    · simp [ht] at hok
  · by_cases hi : mode = "int"
    · subst hi
      by_cases ht : src.fid.layout.back = ILEV
      · cases ha : src.allocated
        · simp [ht, ha, hne2] at hok
        · simp [ht, hne2]
      · simp [ht, hne2] at hok
    · simp [hm, hi] at hok

/-- Witness of C12: a second midpoint profile registered on the remapper of the
example replaces the first one. -/
theorem register_profile_effect_witness :
    ("mid" = "mid" →
      (register_vertical_source_field ex_remapper0 ex_lev_prof_b "mid").1 =
        { ex_remapper0 with m_src_mid := ex_lev_prof_b, m_mid_set := true }) ∧
    ("mid" = "int" →
      (register_vertical_source_field ex_remapper0 ex_lev_prof_b "mid").1 =
        { ex_remapper0 with m_src_int := ex_lev_prof_b, m_int_set := true }) ∧
    ("mid" = "mid" ∨ "mid" = "int") :=
  register_profile_effect ex_remapper0 ex_lev_prof_b "mid" (by decide)

theorem register_mid_ok (vr : VerticalRemapper) (src : Field)
    (hok : (register_vertical_source_field vr src "mid").2 = none) :
    (register_vertical_source_field vr src "mid").1 =
      { vr with m_src_mid := src, m_mid_set := true } := by
  unfold register_vertical_source_field at hok ⊢
  by_cases ht : src.fid.layout.back = LEV
  · cases ha : src.allocated
    · simp [ht, ha] at hok
    · simp [ht]
  · simp [ht] at hok

theorem register_int_ok (vr : VerticalRemapper) (src : Field)
    (hok : (register_vertical_source_field vr src "int").2 = none) :
    (register_vertical_source_field vr src "int").1 =
      { vr with m_src_int := src, m_int_set := true } := by
  have hne2 : ¬ ("int" = "mid") := by decide
  unfold register_vertical_source_field at hok ⊢
  by_cases ht : src.fid.layout.back = ILEV
  · cases ha : src.allocated
    · simp [ht, ha, hne2] at hok
    · simp [ht, hne2]
  · simp [ht, hne2] at hok

theorem set_pressure_levels_ok (P : Nat) (vr : VerticalRemapper) (f : MapFile)
    (h : (set_pressure_levels P vr f).2 = none) :
    (set_pressure_levels P vr f).1 =
      { vr with m_remap_pres :=
          { new_field ⟨"p_remap", ⟨[LEV], [vr.m_num_remap_levs]⟩, Units.Pa, vr.m_tgt_grid.name⟩ P
            with data := [scorpio_grid_read_data_array f (List.range vr.m_num_remap_levs)] } } := by
  unfold set_pressure_levels at h ⊢
  cases hr : f.readable
  · simp [hr] at h
  · simp

theorem scorpio_get_dimlen_ok (f : MapFile) (n : Nat) (h : scorpio_get_dimlen f = .ok n) :
    f.readable = true ∧ n = f.nlevs ∧ f.nlevs ≠ 0 := by
  unfold scorpio_get_dimlen at h
  cases hr : f.readable
  · simp [hr] at h
  · by_cases hn : f.nlevs = 0
    · simp [hr, hn] at h
    · simp only [hr, not_true_eq_false, if_false, hn] at h
      injection h with h
      exact ⟨rfl, h.symm, hn⟩

theorem scorpio_get_dimlen_error (f : MapFile) (e : RemapError)
    (h : scorpio_get_dimlen f = .error e) : e = RemapError.MappingAssetUnreadable := by
  unfold scorpio_get_dimlen at h
  split at h
  · injection h with h; exact h.symm
  · split at h
    · injection h with h; exact h.symm
    · cases h

/-- The state built by a successful five-argument constructor. -/
theorem VerticalRemapper5_ok (dflt : VerticalRemapper) (P : Nat) (g : Grid) (f : MapFile)
    (lev ilev : Field) (mv : ℚ)
    (h : (VerticalRemapper.VerticalRemapper5 dflt P g f lev ilev mv).2 = none) :
    g.type = GridType.Point ∧ g.is_unique = true ∧ f.readable = true ∧ f.nlevs ≠ 0 ∧
    (register_vertical_source_field dflt lev "mid").2 = none ∧
    (register_vertical_source_field dflt ilev "int").2 = none ∧
    (VerticalRemapper.VerticalRemapper5 dflt P g f lev ilev mv).1 =
      { dflt with
          m_mask_val := mv, m_bwd_allowed := false, m_num_remap_levs := f.nlevs,
          m_src_grid := g, m_tgt_grid := (g.clone "Point Grid").reset_num_vertical_lev f.nlevs,
          m_src_mid := lev, m_mid_set := true, m_src_int := ilev, m_int_set := true,
          m_remap_pres :=
            { new_field ⟨"p_remap", ⟨[LEV], [f.nlevs]⟩, Units.Pa, "Point Grid"⟩ P
              with data := [scorpio_grid_read_data_array f (List.range f.nlevs)] } } := by
  unfold VerticalRemapper.VerticalRemapper5 at h ⊢
  simp only at h ⊢
  by_cases hg : g.type = GridType.Point
  · simp only [hg, ne_eq, not_true_eq_false, if_false] at h ⊢
    cases hu : g.is_unique
    · simp [hu] at h
    · simp only [hu, not_true_eq_false, if_false] at h ⊢
      cases hd : scorpio_get_dimlen f with
      | error e => simp [hd] at h
      | ok n =>
        obtain ⟨hr, hn, hn0⟩ := scorpio_get_dimlen_ok f n hd
        subst hn
        simp only [hd] at h ⊢
        split at h
        · simp at h
        · rename_i h1
          split at h
          · simp at h
          · rename_i h2
            have e1 := register_mid_ok _ lev h1
            have h1' := h1
            rw [register_error_indep _ dflt] at h1'
            have h2' := h2
            rw [register_error_indep _ dflt] at h2'
            have e2 := register_int_ok _ ilev h2
            refine ⟨trivial, trivial, hr, hn0, h1', h2', ?_⟩
            rw [set_pressure_levels_ok _ _ _ h, e2, e1]
            rfl
  · simp [hg] at h

/-! ## Construction -/

/-- The five-argument constructor succeeds whenever the grid is a unique point
grid, the asset is readable with a positive level count, and both profiles are
accepted, whatever the default-initialised object it starts from. -/
theorem VerticalRemapper5_success (dflt d0 : VerticalRemapper) (P : Nat) (g : Grid) (f : MapFile)
    (lev ilev : Field) (mv : ℚ)
    (hg : g.type = GridType.Point) (hu : g.is_unique = true) (hr : f.readable = true)
    (hn : f.nlevs ≠ 0)
    (h1 : (register_vertical_source_field d0 lev "mid").2 = none)
    (h2 : (register_vertical_source_field d0 ilev "int").2 = none) :
    (VerticalRemapper.VerticalRemapper5 dflt P g f lev ilev mv).2 = none := by
  have hd : scorpio_get_dimlen f = .ok f.nlevs := by
    unfold scorpio_get_dimlen
    simp [hr, hn]
  unfold VerticalRemapper.VerticalRemapper5
  simp only [hg, hu, hd, ne_eq, not_true_eq_false, if_false]
  split
  · rename_i e he
    rw [register_error_indep _ d0, h1] at he
    cases he
  · split
    · rename_i e he
      rw [register_error_indep _ d0, h2] at he
      cases he
    · unfold set_pressure_levels
      simp [hr]

/-- After a successful five-argument constructor backward remapping is
disallowed and a reverse transform is refused. -/
theorem VerticalRemapper5_bwd (dflt : VerticalRemapper) (P : Nat) (g : Grid) (f : MapFile)
    (lev ilev : Field) (mv : ℚ)
    (h : (VerticalRemapper.VerticalRemapper5 dflt P g f lev ilev mv).2 = none) :
    (VerticalRemapper.VerticalRemapper5 dflt P g f lev ilev mv).1.m_bwd_allowed = false ∧
    remap_bwd_check (VerticalRemapper.VerticalRemapper5 dflt P g f lev ilev mv).1 =
      some RemapError.BackwardRemapNotSupported := by
  obtain ⟨-, -, -, -, -, -, he⟩ := VerticalRemapper5_ok dflt P g f lev ilev mv h
  rw [he]
  exact ⟨rfl, rfl⟩

/-- The four-argument constructor leaves the object as default-initialised. -/
theorem VerticalRemapper4_state (dflt : VerticalRemapper) (R : ℚ) (P : Nat) (g : Grid)
    (f : MapFile) (lev ilev : Field) :
    (VerticalRemapper.VerticalRemapper4 dflt R P g f lev ilev).1 = dflt ∧
    (VerticalRemapper.VerticalRemapper4 dflt R P g f lev ilev).2 =
      (VerticalRemapper.VerticalRemapper5 dflt P g f lev ilev (R / 10)).2 := ⟨rfl, rfl⟩

/-- Claim C13, the code at the failing input: the four-argument constructor
succeeds on the example and leaves `m_bwd_allowed` as default-initialised, so a
reverse transform is not refused by the backward check, whereas the remapper of
the five-argument constructor refuses it. -/
theorem VerticalRemapper4_backward_not_disallowed :
    (VerticalRemapper.VerticalRemapper4 ex_default ex_Real_max 1 ex_src_grid ex_map_file
      ex_lev_prof ex_ilev_prof).2 = none ∧
    (VerticalRemapper.VerticalRemapper4 ex_default ex_Real_max 1 ex_src_grid ex_map_file
      ex_lev_prof ex_ilev_prof).1.m_bwd_allowed = ex_default.m_bwd_allowed ∧
    remap_bwd_check (VerticalRemapper.VerticalRemapper4 ex_default ex_Real_max 1 ex_src_grid
      ex_map_file ex_lev_prof ex_ilev_prof).1 = none ∧
    remap_bwd_check (VerticalRemapper.VerticalRemapper5 ex_default 1 ex_src_grid ex_map_file
      ex_lev_prof ex_ilev_prof 7777).1 = some RemapError.BackwardRemapNotSupported := by
  decide

/-- Claim C14, the code at the failing input: whatever the default-initialised
object, the fill value and the number of lanes, there is a midpoint profile with
which both constructors succeed on the example, the four-argument constructor
leaves the fill value as default-initialised, and the two constructors do not
produce the same state. -/
theorem VerticalRemapper4_state_differs (dflt : VerticalRemapper) (R : ℚ) (P : Nat) :
    ∃ lev : Field,
      (VerticalRemapper.VerticalRemapper4 dflt R P ex_src_grid ex_map_file lev
        ex_ilev_prof).2 = none ∧
      (VerticalRemapper.VerticalRemapper5 dflt P ex_src_grid ex_map_file lev ex_ilev_prof
        (R / 10)).2 = none ∧
      (VerticalRemapper.VerticalRemapper4 dflt R P ex_src_grid ex_map_file lev
        ex_ilev_prof).1.m_mask_val = dflt.m_mask_val ∧
      (VerticalRemapper.VerticalRemapper4 dflt R P ex_src_grid ex_map_file lev ex_ilev_prof).1 ≠
        (VerticalRemapper.VerticalRemapper5 dflt P ex_src_grid ex_map_file lev ex_ilev_prof
          (R / 10)).1 := by
  have hs : ∀ lev : Field, (register_vertical_source_field ex_default lev "mid").2 = none →
      (VerticalRemapper.VerticalRemapper5 dflt P ex_src_grid ex_map_file lev ex_ilev_prof
        (R / 10)).2 = none := fun lev h =>
    VerticalRemapper5_success dflt ex_default P ex_src_grid ex_map_file lev ex_ilev_prof (R / 10)
      (by decide) (by decide) (by decide) (by decide) h (by decide)
  have hmid : ∀ lev : Field, (register_vertical_source_field ex_default lev "mid").2 = none →
      (VerticalRemapper.VerticalRemapper5 dflt P ex_src_grid ex_map_file lev ex_ilev_prof
        (R / 10)).1.m_src_mid = lev := by
    intro lev h
    obtain ⟨-, -, -, -, -, -, he⟩ :=
      VerticalRemapper5_ok dflt P ex_src_grid ex_map_file lev ex_ilev_prof (R / 10) (hs lev h)
    rw [he]
  by_cases hd : dflt.m_src_mid = ex_lev_prof
  · refine ⟨ex_lev_prof_b, hs _ (by decide), hs _ (by decide), rfl, ?_⟩
    intro he
    have h1 := hmid ex_lev_prof_b (by decide)
    rw [← he] at h1
    have h2 : dflt.m_src_mid = ex_lev_prof_b := h1
    rw [hd] at h2
    revert h2
    decide
  · refine ⟨ex_lev_prof, hs _ (by decide), hs _ (by decide), rfl, ?_⟩
    intro he
    have h1 := hmid ex_lev_prof (by decide)
    rw [← he] at h1
    exact hd h1

/-- The asset without levels: with a mapping asset whose level dimension has
length zero both constructors fail, with the mapping-asset error when the source
grid is a unique point grid; and a remapper that the five-argument constructor
produces has a positive level count and a coordinate table of positive length. -/
theorem ctor_zero_levels (dflt : VerticalRemapper) (R : ℚ) (P : Nat) (g : Grid) (f : MapFile)
    (lev ilev : Field) (mv : ℚ) :
    (f.nlevs = 0 →
      (VerticalRemapper.VerticalRemapper5 dflt P g f lev ilev mv).2 ≠ none ∧
      (VerticalRemapper.VerticalRemapper4 dflt R P g f lev ilev).2 ≠ none ∧
      (g.type = GridType.Point → g.is_unique = true →
        (VerticalRemapper.VerticalRemapper5 dflt P g f lev ilev mv).2 =
          some RemapError.MappingAssetUnreadable ∧
        (VerticalRemapper.VerticalRemapper4 dflt R P g f lev ilev).2 =
          some RemapError.MappingAssetUnreadable)) ∧
    ((VerticalRemapper.VerticalRemapper5 dflt P g f lev ilev mv).2 = none →
      (VerticalRemapper.VerticalRemapper5 dflt P g f lev ilev mv).1.m_num_remap_levs ≠ 0 ∧
      ((VerticalRemapper.VerticalRemapper5 dflt P g f lev ilev mv).1.m_remap_pres.data.headD
        []).length ≠ 0) := by
  constructor
  · intro h0
    have hne : ∀ mv1, (VerticalRemapper.VerticalRemapper5 dflt P g f lev ilev mv1).2 ≠ none := by
      intro mv1 h
      exact (VerticalRemapper5_ok dflt P g f lev ilev mv1 h).2.2.2.1 h0
    refine ⟨hne mv, hne (R / 10), ?_⟩
    intro hg hu
    have hd : scorpio_get_dimlen f = .error RemapError.MappingAssetUnreadable := by
      unfold scorpio_get_dimlen
      by_cases hr : f.readable = true <;> simp [hr, h0]
    have key : ∀ mv1, (VerticalRemapper.VerticalRemapper5 dflt P g f lev ilev mv1).2 =
        some RemapError.MappingAssetUnreadable := by
      intro mv1
      unfold VerticalRemapper.VerticalRemapper5
      simp [hg, hu, hd]
    exact ⟨key mv, key (R / 10)⟩
  · intro h
    obtain ⟨-, -, -, hn, -, -, he⟩ := VerticalRemapper5_ok dflt P g f lev ilev mv h
    rw [he]
    exact ⟨hn, by simpa [scorpio_grid_read_data_array] using hn⟩

/-- The coordinate table of the five-argument constructor: after its success the
level count and the length of the coordinate table equal the level count of the
asset, the `i`-th value of the table is the `i`-th value of the variable `p_levs`
for every index below the count, and the table is the variable itself when the
variable has the length of the dimension. -/
theorem ctor_coordinate_table (dflt : VerticalRemapper) (P : Nat) (g : Grid) (f : MapFile)
    (lev ilev : Field) (mv : ℚ)
    (h : (VerticalRemapper.VerticalRemapper5 dflt P g f lev ilev mv).2 = none) :
    (VerticalRemapper.VerticalRemapper5 dflt P g f lev ilev mv).1.m_num_remap_levs = f.nlevs ∧
    ((VerticalRemapper.VerticalRemapper5 dflt P g f lev ilev mv).1.m_remap_pres.data.headD
      []).length = f.nlevs ∧
    (∀ (i : Nat) (v : ℚ), i < f.nlevs → f.p_levs[i]? = some v →
      ((VerticalRemapper.VerticalRemapper5 dflt P g f lev ilev mv).1.m_remap_pres.data.headD
        [])[i]? = some v) ∧
    (f.p_levs.length = f.nlevs →
      (VerticalRemapper.VerticalRemapper5 dflt P g f lev ilev mv).1.m_remap_pres.data =
        [f.p_levs]) := by
  obtain ⟨-, -, -, -, -, -, he⟩ := VerticalRemapper5_ok dflt P g f lev ilev mv h
  rw [he]
  refine ⟨rfl, by simp [scorpio_grid_read_data_array], ?_, ?_⟩
  · intro i v hi hv
    simp [scorpio_grid_read_data_array, List.getElem?_map, List.getElem?_range hi, hv]
  · intro hlen
    simp only [scorpio_grid_read_data_array, List.cons.injEq, and_true]
    apply List.ext_getElem?
    intro i
    by_cases hi : i < f.nlevs
    · rw [List.getElem?_map, List.getElem?_range hi]
      have : i < f.p_levs.length := by omega
      simp [List.getElem?_eq_getElem this]
    · rw [List.getElem?_eq_none (by simpa using hi), List.getElem?_eq_none (by omega)]

/-- The asset without levels is refused by both constructors. -/
theorem ctor_zero_levels_witness :
    (VerticalRemapper.VerticalRemapper5 ex_default 1 ex_src_grid ex_map_file_empty ex_lev_prof
      ex_ilev_prof 7777).2 = some RemapError.MappingAssetUnreadable ∧
    (VerticalRemapper.VerticalRemapper4 ex_default ex_Real_max 1 ex_src_grid ex_map_file_empty
      ex_lev_prof ex_ilev_prof).2 = some RemapError.MappingAssetUnreadable :=
  ((ctor_zero_levels ex_default ex_Real_max 1 ex_src_grid ex_map_file_empty ex_lev_prof
    ex_ilev_prof 7777).1 (by decide)).2.2 (by decide) (by decide)

/-- The table that the five-argument constructor reads from the asset of the
example. -/
theorem ctor_coordinate_table_witness :
    (VerticalRemapper.VerticalRemapper5 ex_default 1 ex_src_grid ex_map_file ex_lev_prof
      ex_ilev_prof 7777).1.m_remap_pres.data = [[50, 500, 950]] :=
  (ctor_coordinate_table ex_default 1 ex_src_grid ex_map_file ex_lev_prof ex_ilev_prof 7777
    (by decide)).2.2.2 (by decide)

/-- Claim C16, the code at the failing input: whatever the default-initialised
object, the fill value and the number of lanes, the four-argument constructor
succeeds on the asset of three levels and leaves the coordinate table and the
level count as default-initialised; with the default of the examples it
produces a remapper whose coordinate table has length zero and whose level
count is zero, whereas the five-argument constructor loads the three levels.
The asset without levels is refused by both. -/
theorem VerticalRemapper4_empty_table (dflt : VerticalRemapper) (R : ℚ) (P : Nat) :
    ex_map_file.nlevs = 3 ∧
    (VerticalRemapper.VerticalRemapper4 dflt R P ex_src_grid ex_map_file ex_lev_prof
      ex_ilev_prof).2 = none ∧
    (VerticalRemapper.VerticalRemapper4 dflt R P ex_src_grid ex_map_file ex_lev_prof
      ex_ilev_prof).1.m_remap_pres = dflt.m_remap_pres ∧
    (VerticalRemapper.VerticalRemapper4 dflt R P ex_src_grid ex_map_file ex_lev_prof
      ex_ilev_prof).1.m_num_remap_levs = dflt.m_num_remap_levs ∧
    (VerticalRemapper.VerticalRemapper4 ex_default ex_Real_max 1 ex_src_grid ex_map_file
      ex_lev_prof ex_ilev_prof).2 = none ∧
    ((VerticalRemapper.VerticalRemapper4 ex_default ex_Real_max 1 ex_src_grid ex_map_file
      ex_lev_prof ex_ilev_prof).1.m_remap_pres.data.headD []).length = 0 ∧
    (VerticalRemapper.VerticalRemapper4 ex_default ex_Real_max 1 ex_src_grid ex_map_file
      ex_lev_prof ex_ilev_prof).1.m_remap_pres.data = [] ∧
    (VerticalRemapper.VerticalRemapper4 ex_default ex_Real_max 1 ex_src_grid ex_map_file
      ex_lev_prof ex_ilev_prof).1.m_num_remap_levs = 0 ∧
    ((VerticalRemapper.VerticalRemapper5 ex_default 1 ex_src_grid ex_map_file ex_lev_prof
      ex_ilev_prof 7777).1.m_remap_pres.data.headD []).length = 3 ∧
    (VerticalRemapper.VerticalRemapper4 ex_default ex_Real_max 1 ex_src_grid ex_map_file_empty
      ex_lev_prof ex_ilev_prof).2 = some RemapError.MappingAssetUnreadable ∧
    (VerticalRemapper.VerticalRemapper5 ex_default 1 ex_src_grid ex_map_file_empty ex_lev_prof
      ex_ilev_prof 7777).2 = some RemapError.MappingAssetUnreadable := by
  refine ⟨rfl, ?_, rfl, rfl, ?_⟩
  · exact VerticalRemapper5_success dflt ex_default P ex_src_grid ex_map_file ex_lev_prof
      ex_ilev_prof (R / 10) (by decide) (by decide) (by decide) (by decide) (by decide)
      (by decide)
  · decide

/-- Claim C17, the code at the failing input: whatever the default-initialised
object, the fill value and the number of lanes, there is a mapping asset of
three levels on which the four-argument constructor succeeds and leaves the
coordinate table as default-initialised, so that the table is not the variable
`p_levs` of the asset, whereas the table of the five-argument constructor is. -/
theorem VerticalRemapper4_table_not_loaded (dflt : VerticalRemapper) (R : ℚ) (P : Nat) :
    ∃ f : MapFile, f.nlevs = 3 ∧ f.p_levs.length = 3 ∧
      (VerticalRemapper.VerticalRemapper4 dflt R P ex_src_grid f ex_lev_prof ex_ilev_prof).2 =
        none ∧
      (VerticalRemapper.VerticalRemapper4 dflt R P ex_src_grid f ex_lev_prof
        ex_ilev_prof).1.m_remap_pres = dflt.m_remap_pres ∧
      (VerticalRemapper.VerticalRemapper4 dflt R P ex_src_grid f ex_lev_prof
        ex_ilev_prof).1.m_remap_pres.data ≠ [f.p_levs] ∧
      (VerticalRemapper.VerticalRemapper5 dflt P ex_src_grid f ex_lev_prof ex_ilev_prof
        (R / 10)).1.m_remap_pres.data = [f.p_levs] := by
  have hs : ∀ f : MapFile, f.readable = true → f.nlevs ≠ 0 →
      (VerticalRemapper.VerticalRemapper5 dflt P ex_src_grid f ex_lev_prof ex_ilev_prof
        (R / 10)).2 = none := fun f hr hn =>
    VerticalRemapper5_success dflt ex_default P ex_src_grid f ex_lev_prof ex_ilev_prof (R / 10)
      (by decide) (by decide) hr hn (by decide) (by decide)
  have htab : ∀ f : MapFile, f.readable = true → f.nlevs ≠ 0 →
      (VerticalRemapper.VerticalRemapper5 dflt P ex_src_grid f ex_lev_prof ex_ilev_prof
        (R / 10)).1.m_remap_pres.data = [scorpio_grid_read_data_array f (List.range f.nlevs)] := by
    intro f hr hn
    obtain ⟨-, -, -, -, -, -, he⟩ :=
      VerticalRemapper5_ok dflt P ex_src_grid f ex_lev_prof ex_ilev_prof (R / 10) (hs f hr hn)
    rw [he]
  by_cases hd : dflt.m_remap_pres.data = [ex_map_file.p_levs]
  · refine ⟨ex_map_file_b, rfl, rfl, hs _ (by decide) (by decide), rfl, ?_, ?_⟩
    · intro hc
      have h2 : [ex_map_file.p_levs] = [ex_map_file_b.p_levs] := hd.symm.trans hc
      revert h2
      decide
    · rw [htab _ (by decide) (by decide)]
      decide
  · refine ⟨ex_map_file, rfl, rfl, hs _ (by decide) (by decide), rfl, hd, ?_⟩
    rw [htab _ (by decide) (by decide)]
    decide

/-! ## The rank of an interpolated field -/

theorem apply_vertical_interpolation_rank (vr : VerticalRemapper) (w : Nat) (f_src f_tgt : Field)
    (mi : Bool) :
    (apply_vertical_interpolation vr w f_src f_tgt mi = .error RemapError.UnsupportedRank ↔
      ¬ (f_src.rank = 2 ∨ f_src.rank = 3)) ∧
    ((∃ t, apply_vertical_interpolation vr w f_src f_tgt mi = .ok t) ↔
      (f_src.rank = 2 ∨ f_src.rank = 3)) := by
  rw [apply_vertical_interpolation_eq]
  simp only
  split
  · rename_i h2
    simp [h2]
  · rename_i h3
    simp [h3]
  · rename_i h2 h3
    simp only [true_iff, not_or, reduceCtorEq, exists_false, false_iff]
    exact ⟨⟨h2, h3⟩, ⟨h2, h3⟩⟩

theorem remap_fields_loop_error (step : Field → Field → Except RemapError Field)
    (e : RemapError) :
    ∀ (n : Nat) (srcs tgts : List Field) (k : Nat) (s t : Field), k < n →
      srcs[k]? = some s → tgts[k]? = some t → step s t = .error e →
      (∀ (i : Nat) (s0 t0 : Field), i < k → srcs[i]? = some s0 → tgts[i]? = some t0 →
        ∃ t1, step s0 t0 = .ok t1) →
      (remap_fields_loop step n srcs tgts).2 = some e := by
  intro n
  induction n with
  | zero => intro srcs tgts k s t hk; omega
  | succ n ih =>
    intro srcs tgts k s t hk hs ht he hprev
    cases srcs with
    | nil => simp at hs
    | cons s0 ss =>
      cases tgts with
      | nil => simp at ht
      | cons t0 ts =>
        simp only [remap_fields_loop]
        cases k with
        | zero =>
          simp only [List.getElem?_cons_zero, Option.some.injEq] at hs ht
          subst hs; subst ht
          simp [he]
        | succ k =>
          obtain ⟨t1, h0⟩ := hprev 0 s0 t0 (by omega) (by simp) (by simp)
          simp only [h0]
          simp only [List.getElem?_cons_succ] at hs ht
          apply ih ss ts k s t (by omega) hs ht he
          intro i s1 t1' hi hs1 ht1
          exact hprev (i + 1) s1 t1' (by omega) (by simpa using hs1) (by simpa using ht1)

theorem do_bind_field_error (ids : FieldIdentifier → String) (P : Nat) (vr : VerticalRemapper)
    (ifield : Nat) (src tgt : Field) (e : RemapError)
    (h : (do_bind_field ids P vr ifield src tgt).2 = some e) :
    e = RemapError.LayoutMismatch ∨ e = RemapError.UnsupportedPadding ∨
      e = RemapError.UnsupportedLayout ∨ e = RemapError.DuplicateMaskAssignment := by
  rw [do_bind_field_eq] at h
  split at h
  · simp only [Option.some.injEq] at h
    exact Or.inl h.symm
  · split at h
    · simp only [Option.some.injEq] at h
      exact Or.inr (Or.inl h.symm)
    · rcases bind_mask_tracking_error _ _ _ _ _ _ _ h with h1 | h1
      · exact Or.inr (Or.inr (Or.inl h1))
      · exact Or.inr (Or.inr (Or.inr h1))

/-- Claim C15: for the bound pair at index `k` whose source has a trailing
midpoint or interface tag, the dispatch fails with the unsupported-rank error if
and only if the rank of the source is neither 2 nor 3, and succeeds otherwise;
when the rank is neither 2 nor 3 and the pairs before it pass, the forward remap
fails with that error; and a bind of such a source never fails with it, whatever
the remapper, the index and the target. -/
theorem unsupported_rank_at_remap (P : Nat) (vr : VerticalRemapper) (k : Nat)
    (f_src f_tgt : Field)
    (hk : k < vr.m_num_fields)
    (hs : vr.m_src_fields[k]? = some f_src) (ht : vr.m_tgt_fields[k]? = some f_tgt)
    (htag : f_src.fid.layout.back = LEV ∨ f_src.fid.layout.back = ILEV)
    (hprev : ∀ (i : Nat) (s t : Field), i < k → vr.m_src_fields[i]? = some s →
      vr.m_tgt_fields[i]? = some t → ∃ t1, remap_field_step P vr s t = .ok t1) :
    (remap_field_step P vr f_src f_tgt = .error RemapError.UnsupportedRank ↔
      ¬ (f_src.rank = 2 ∨ f_src.rank = 3)) ∧
    ((∃ t1, remap_field_step P vr f_src f_tgt = .ok t1) ↔
      (f_src.rank = 2 ∨ f_src.rank = 3)) ∧
    (¬ (f_src.rank = 2 ∨ f_src.rank = 3) →
      (do_remap_fwd P vr).2 = some RemapError.UnsupportedRank) ∧
    (∀ (ids : FieldIdentifier → String) (P1 : Nat) (vr1 : VerticalRemapper) (i : Nat)
      (tgt : Field), (do_bind_field ids P1 vr1 i f_src tgt).2 ≠ some RemapError.UnsupportedRank) := by
  obtain ⟨w, hw⟩ := remap_field_step_vertical P vr f_src f_tgt htag
  have hr := apply_vertical_interpolation_rank vr w f_src f_tgt false
  rw [← hw] at hr
  refine ⟨hr.1, hr.2, ?_, ?_⟩
  · intro hbad
    have he := hr.1.mpr hbad
    have hl := remap_fields_loop_error (remap_field_step P vr) RemapError.UnsupportedRank
      vr.m_num_fields vr.m_src_fields vr.m_tgt_fields k f_src f_tgt hk hs ht he hprev
    rw [do_remap_fwd_eq]
    simp only [hl]
  · intro ids P1 vr1 i tgt h
    rcases do_bind_field_error ids P1 vr1 i f_src tgt _ h with h1 | h1 | h1 | h1 <;> cases h1

/-- Witness of C15: a source of rank 4 on midpoints is accepted by the bind, and
the forward remap then fails with the unsupported-rank error. -/
theorem unsupported_rank_at_remap_witness :
    (do_bind_field ex_id_string 1 ex_remapper0 0 ex_q4_src ex_q4_tgt).2 = none ∧
    (do_remap_fwd 1 (do_bind_field ex_id_string 1 ex_remapper0 0 ex_q4_src ex_q4_tgt).1).2 =
      some RemapError.UnsupportedRank :=
  ⟨by decide,
   (unsupported_rank_at_remap 1 (do_bind_field ex_id_string 1 ex_remapper0 0 ex_q4_src
      ex_q4_tgt).1 0 ex_q4_src
      { ex_q4_tgt with
          mask_data := some ⟨"q4@src_mask", ⟨[COL, LEV], [1, 3]⟩, Units.nondimensional, "tgt"⟩,
          mask_value := some 7777 }
      (by decide) (by decide) (by decide) (by decide)
      (fun i _ _ hi => absurd hi (Nat.not_lt_zero i))).2.2.1 (by decide)⟩

/-! ## Interpolation at the levels of the profile -/

theorem bracket_some_spec : ∀ (p : List ℚ) (x : ℚ) (j : Nat), bracket p x = some j →
    (p.getD j 0 ≤ x ∧ x ≤ p.getD (j + 1) 0) ∨ (p.getD (j + 1) 0 ≤ x ∧ x ≤ p.getD j 0)
  | [], _, _, h => by simp [bracket] at h
  | [_], _, _, h => by simp [bracket] at h
  | a :: b :: rest, x, j, h => by
    simp only [bracket] at h
    split at h
    · rename_i hs
      injection h with h
      subst h
      simpa using hs
    · cases hb : bracket (b :: rest) x with
      | none => simp [hb] at h
      | some j0 =>
        simp only [hb, Option.map_some', Option.some.injEq] at h
        subst h
        have := bracket_some_spec (b :: rest) x j0 hb
        simpa using this

theorem bracket_none_spec : ∀ (p : List ℚ) (x : ℚ), bracket p x = none →
    ∀ j, j + 1 < p.length →
      ¬ ((p.getD j 0 ≤ x ∧ x ≤ p.getD (j + 1) 0) ∨ (p.getD (j + 1) 0 ≤ x ∧ x ≤ p.getD j 0))
  | [], _, _, j, hj => by simp at hj
  | [_], _, _, j, hj => by simp at hj
  | a :: b :: rest, x, h, j, hj => by
    simp only [bracket] at h
    split at h
    · cases h
    · rename_i hs
      cases j with
      | zero => simpa using hs
      | succ j =>
        have hn : bracket (b :: rest) x = none := by
          cases hb : bracket (b :: rest) x with
          | none => rfl
          | some j0 => simp [hb] at h
        have := bracket_none_spec (b :: rest) x hn j (by simpa using hj)
        simpa using this

theorem pairwise_lt_getD (p : List ℚ) (h : p.Pairwise (fun a b => a < b)) (i j : Nat)
    (hij : i < j) (hj : j < p.length) : p.getD i 0 < p.getD j 0 := by
  have hi : i < p.length := by omega
  have := List.pairwise_iff_getElem.mp h i j hi hj hij
  simpa [List.getD_eq_getElem?_getD, List.getElem?_eq_getElem hi, List.getElem?_eq_getElem hj]
    using this

theorem pairwise_gt_getD (p : List ℚ) (h : p.Pairwise (fun a b => b < a)) (i j : Nat)
    (hij : i < j) (hj : j < p.length) : p.getD j 0 < p.getD i 0 := by
  have hi : i < p.length := by omega
  have := List.pairwise_iff_getElem.mp h i j hi hj hij
  simpa [List.getD_eq_getElem?_getD, List.getElem?_eq_getElem hi, List.getElem?_eq_getElem hj]
    using this

/-- On a monotonic profile the level values are pairwise distinct, and a level
value lying between two adjacent levels is one of the two. -/
theorem monotonic_straddle (p : List ℚ) (hm : monotonic_profile p) (j k : Nat)
    (hj : j + 1 < p.length) (hk : k < p.length)
    (hs : (p.getD j 0 ≤ p.getD k 0 ∧ p.getD k 0 ≤ p.getD (j + 1) 0) ∨
      (p.getD (j + 1) 0 ≤ p.getD k 0 ∧ p.getD k 0 ≤ p.getD j 0)) :
    (k = j ∨ k = j + 1) ∧ p.getD (j + 1) 0 - p.getD j 0 ≠ 0 := by
  rcases hm with hm | hm
  · have hjj := pairwise_lt_getD p hm j (j + 1) (by omega) hj
    refine ⟨?_, ne_of_gt (by linarith)⟩
    by_contra hne
    simp only [not_or] at hne
    rcases Nat.lt_or_ge k j with hlt | hge
    · have := pairwise_lt_getD p hm k j hlt (by omega)
      rcases hs with ⟨h1, _⟩ | ⟨h1, _⟩ <;> linarith
    · have hgt : j + 1 < k := by omega
      have := pairwise_lt_getD p hm (j + 1) k hgt hk
      rcases hs with ⟨_, h2⟩ | ⟨_, h2⟩ <;> linarith
  · have hjj := pairwise_gt_getD p hm j (j + 1) (by omega) hj
    refine ⟨?_, ne_of_lt (by linarith)⟩
    by_contra hne
    simp only [not_or] at hne
    rcases Nat.lt_or_ge k j with hlt | hge
    · have := pairwise_gt_getD p hm k j hlt (by omega)
      rcases hs with ⟨h1, _⟩ | ⟨_, h2⟩ <;> linarith
    · have hgt : j + 1 < k := by omega
      have := pairwise_gt_getD p hm (j + 1) k hgt hk
      rcases hs with ⟨_, h2⟩ | ⟨h1, _⟩ <;> linarith

theorem out_of_range_of_mem (p : List ℚ) (x : ℚ) (h : x ∈ p) : out_of_range p x = false := by
  unfold out_of_range
  rw [Bool.or_eq_false_iff]
  constructor
  · apply Bool.eq_false_iff.mpr
    intro hall
    have := List.all_eq_true.mp hall x h
    simp at this
  · apply Bool.eq_false_iff.mpr
    intro hall
    have := List.all_eq_true.mp hall x h
    simp at this

theorem getD_mem_of_lt (p : List ℚ) (k : Nat) (hk : k < p.length) : p.getD k 0 ∈ p := by
  rw [List.getD_eq_getElem?_getD, List.getElem?_eq_getElem hk]
  exact List.getElem_mem hk

/-- At a target coordinate equal to the level `k` of a monotonic profile, the
interpolated value is the source value at level `k`. -/
theorem interp_cell_grid_aligned (p y : List ℚ) (mv : ℚ) (hm : monotonic_profile p) (k : Nat)
    (hk : k < p.length) :
    interp_cell p y (p.getD k 0) mv = y.getD k (if k = 0 ∧ p.length = 1 then mv else 0) := by
  unfold interp_cell
  rw [out_of_range_of_mem p _ (getD_mem_of_lt p k hk)]
  simp only [Bool.false_eq_true, if_false]
  cases hb : bracket p (p.getD k 0) with
  | none =>
    have hnone := bracket_none_spec p _ hb
    have h1 : p.length = 1 := by
      by_contra hne
      rcases Nat.eq_zero_or_pos k with h0 | hpos
      · subst h0
        exact hnone 0 (by omega) (Or.inl ⟨le_refl _, by
          rcases hm with hm | hm
          · exact le_of_lt (pairwise_lt_getD p hm 0 1 (by omega) (by omega))
          · exact absurd (Or.inr ⟨le_of_lt (pairwise_gt_getD p hm 0 1 (by omega) (by omega)),
              le_refl _⟩) (hnone 0 (by omega))⟩)
      · have hk1 : k - 1 + 1 = k := by omega
        apply hnone (k - 1) (by omega)
        rw [hk1]
        rcases hm with hm | hm
        · exact Or.inl ⟨le_of_lt (pairwise_lt_getD p hm (k - 1) k (by omega) hk), le_refl _⟩
        · exact Or.inr ⟨le_refl _, le_of_lt (pairwise_gt_getD p hm (k - 1) k (by omega) hk)⟩
    have hk0 : k = 0 := by omega
    subst hk0
    simp [h1]
  | some j =>
    have hj := bracket_lt p _ j hb
    have hs := bracket_some_spec p _ j hb
    obtain ⟨hkj, hne⟩ := monotonic_straddle p hm j k hj hk hs
    have hlen : ¬ (k = 0 ∧ p.length = 1) := by omega
    simp only [hlen, if_false]
    unfold lin_interp
    rcases hkj with rfl | rfl
    · simp
    · generalize p.getD (j + 1) 0 = b at hne ⊢
      generalize p.getD j 0 = a at hne ⊢
      generalize y.getD (j + 1) 0 = v
      generalize y.getD j 0 = u
      rw [mul_comm, mul_div_assoc, div_self hne]
      ring

/-- Claim C18: after a successful forward remap, for a bound pair whose source
has a trailing midpoint or interface tag and for a row of a column whose
(monotonic) source profile is the target coordinate table, the target holds at
every target level exactly the source value of that level. -/
theorem remap_fwd_identity (P : Nat) (vr : VerticalRemapper)
    (hrun : (do_remap_fwd P vr).2 = none)
    (i : Nat) (f_src f_tgt : Field) (hi : i < vr.m_num_fields)
    (hs : vr.m_src_fields[i]? = some f_src) (ht : vr.m_tgt_fields[i]? = some f_tgt)
    (htag : f_src.fid.layout.back = LEV ∨ f_src.fid.layout.back = ILEV)
    (r k : Nat) (y p : List ℚ) (v : ℚ)
    (hy : f_src.data[r]? = some y)
    (hp : (source_profile vr f_src.fid.layout.back).data.getD (row_column f_src r) [] = p)
    (htab : vr.m_remap_pres.data.headD [] = p)
    (hm : monotonic_profile p)
    (hlev : p.length ≤ f_src.num_levs) (hn : p.length ≤ vr.m_num_remap_levs)
    (hk : k < p.length) (hv : y[k]? = some v) :
    cell_at (do_remap_fwd P vr).1.m_tgt_fields i r k = some v := by
  obtain ⟨hf, -, hft, -, -, -⟩ := do_remap_fwd_ok P vr hrun
  obtain ⟨t1, hstep, hget⟩ := remap_fields_loop_at _ _ _ _ hf i f_src f_tgt hi hs ht
  obtain ⟨w, hw⟩ := remap_field_step_vertical P vr f_src f_tgt htag
  rw [hw] at hstep
  have hx : (vr.m_remap_pres.data.headD [])[k]? = some (p.getD k 0) := by
    rw [htab, List.getD_eq_getElem?_getD, List.getElem?_eq_getElem hk]
    rfl
  have hcell := apply_vertical_interpolation_cell vr w f_src f_tgt t1 false hstep r k y
    (p.getD k 0) hy (by omega) hx
  rw [hp, List.take_of_length_le hlev] at hcell
  rw [interp_cell_grid_aligned p _ _ hm k hk] at hcell
  have hyk : (List.take f_src.num_levs y).getD k
      (if k = 0 ∧ p.length = 1 then (if false = true then 0 else vr.m_mask_val) else 0) = v := by
    rw [List.getD_eq_getElem?_getD, List.getElem?_take_of_lt (by omega), hv]
    rfl
  rw [hyk] at hcell
  simp only [cell_at, hft, hget, Option.some_bind, hcell]

/-- Witness of C18: with the coordinate table 100, 500, 900 equal to the midpoint
profile, the second level of the target holds the second source value. -/
theorem remap_fwd_identity_witness :
    cell_at (do_remap_fwd 1 ex_identity_remapper).1.m_tgt_fields 0 0 1 = some 20 :=
  remap_fwd_identity 1 ex_identity_remapper (by decide) 0 ex_T_src ex_T_tgt_bound (by decide)
    (by decide) (by decide) (by decide) 0 1 [10, 20, 30] [100, 500, 900] 20 (by decide)
    (by decide) (by decide) (by decide) (by decide) (by decide) (by decide) (by decide)

/-! ## Array utilities -/

theorem unflatten_rev_length : ∀ (ds : List Nat) (i : Nat), (unflatten_rev ds i).length = ds.length
  | [], _ => rfl
  | d :: ds, i => by simp [unflatten_rev, unflatten_rev_length ds]

theorem unflatten_idx_length (dims : List Nat) (i : Nat) :
    (unflatten_idx dims i).length = dims.length := by
  simp [unflatten_idx, unflatten_rev_length]

theorem unflatten_idx_concat (ds : List Nat) (d i : Nat) :
    unflatten_idx (ds ++ [d]) i = unflatten_idx ds (i / d) ++ [i % d] := by
  simp [unflatten_idx, unflatten_rev]

theorem unflatten_rev_zero : ∀ (ds : List Nat), unflatten_rev ds 0 = List.replicate ds.length 0
  | [] => rfl
  | d :: ds => by simp [unflatten_rev, unflatten_rev_zero ds, List.replicate_succ]

theorem unflatten_idx_zero (dims : List Nat) :
    unflatten_idx dims 0 = List.replicate dims.length 0 := by
  simp [unflatten_idx, unflatten_rev_zero]

theorem unflatten_rev_lt : ∀ (ds : List Nat) (i k : Nat), (∀ d ∈ ds, 0 < d) → k < ds.length →
    (unflatten_rev ds i).getD k 0 < ds.getD k 0
  | [], _, _, _, hk => by simp at hk
  | d :: ds, i, k, hpos, hk => by
    cases k with
    | zero =>
      simp only [unflatten_rev, List.getD_cons_zero]
      exact Nat.mod_lt _ (hpos d (by simp))
    | succ k =>
      simp only [unflatten_rev, List.getD_cons_succ]
      exact unflatten_rev_lt ds (i / d) k (fun x hx => hpos x (by simp [hx])) (by simpa using hk)

theorem getD_reverse (l : List Nat) (k : Nat) (hk : k < l.length) :
    l.reverse.getD k 0 = l.getD (l.length - 1 - k) 0 := by
  simp only [List.getD_eq_getElem?_getD]
  rw [List.getElem?_reverse hk]

theorem unflatten_idx_lt (dims : List Nat) (i k : Nat) (hpos : ∀ d ∈ dims, 0 < d)
    (hk : k < dims.length) : (unflatten_idx dims i).getD k 0 < dims.getD k 0 := by
  unfold unflatten_idx
  rw [getD_reverse _ _ (by simpa [unflatten_rev_length] using hk), unflatten_rev_length,
    List.length_reverse]
  have h := unflatten_rev_lt dims.reverse i (dims.length - 1 - k)
    (fun d hd => hpos d (by simpa using hd)) (by simp; omega)
  rw [getD_reverse dims _ (by omega)] at h
  have e : dims.length - 1 - (dims.length - 1 - k) = k := by omega
  rw [e] at h
  exact h

theorem getD_set_self (v : List Nat) (n x : Nat) (h : n < v.length) :
    (v.set n x).getD n 0 = x := by
  rw [List.getD_eq_getElem?_getD, List.getElem?_set_self h]
  rfl

theorem add_one_eq_zero (v d : List Nat) (h : 0 < v.length) :
    add_one v 0 d =
      if d.getD 0 0 ≤ v.getD 0 0 + 1 then (v.set 0 (d.getD 0 0), false)
      else (v.set 0 (v.getD 0 0 + 1), true) := by
  simp only [add_one, getD_set_self v 0 _ h, List.set_set]

theorem add_one_eq_succ (v d : List Nat) (n : Nat) (h : n + 1 < v.length) :
    add_one v (n + 1) d =
      if d.getD (n + 1) 0 ≤ v.getD (n + 1) 0 + 1 then
        (if (add_one (v.set (n + 1) 0) n d).2 = true then
            ((add_one (v.set (n + 1) 0) n d).1, true)
          else ((add_one (v.set (n + 1) 0) n d).1.set (n + 1) (d.getD (n + 1) 0), false))
      else (v.set (n + 1) (v.getD (n + 1) 0 + 1), true) := by
  simp only [add_one, getD_set_self v (n + 1) _ h, List.set_set]
  split
  · split <;> simp_all
  · rfl

theorem add_one_length : ∀ (n : Nat) (v d : List Nat), (add_one v n d).1.length = v.length := by
  intro n
  induction n with
  | zero =>
    intro v d
    simp only [add_one]
    split <;> simp
  | succ n ih =>
    intro v d
    simp only [add_one]
    split
    · split <;> simp [ih]
    · simp

/-- The helper `add_one` at the entry `m` reads and writes the entries up to `m`
only. -/
theorem add_one_append : ∀ (m : Nat) (a b d1 d2 : List Nat), m < a.length → m < d1.length →
    add_one (a ++ b) m (d1 ++ d2) = ((add_one a m d1).1 ++ b, (add_one a m d1).2) := by
  intro m
  induction m with
  | zero =>
    intro a b d1 d2 ha hd
    rw [add_one_eq_zero _ _ (by simp; omega), add_one_eq_zero _ _ ha,
      List.getD_append _ _ _ _ ha, List.getD_append _ _ _ _ hd]
    split <;> simp [List.set_append_left _ _ ha]
  | succ n ih =>
    intro a b d1 d2 ha hd
    rw [add_one_eq_succ _ _ _ (by simp; omega), add_one_eq_succ _ _ _ ha,
      List.getD_append _ _ _ _ ha, List.getD_append _ _ _ _ hd,
      List.set_append_left _ _ ha, ih _ b d1 d2 (by simp; omega) (by omega)]
    split
    · split
      · rfl
      · have hlen : n + 1 < (add_one (a.set (n + 1) 0) n d1).1.length := by
          rw [add_one_length]; simpa using ha
        simp [List.set_append_left _ _ hlen]
    · simp [List.set_append_left _ _ ha]

theorem succ_div_mod_of_lt (i d : Nat) (hd : 0 < d) (h : i % d + 1 < d) :
    (i + 1) / d = i / d ∧ (i + 1) % d = i % d + 1 := by
  have e : i + 1 = d * (i / d) + (i % d + 1) := by
    have := Nat.div_add_mod i d
    omega
  rw [e, Nat.mul_add_div hd, Nat.mul_add_mod, Nat.div_eq_of_lt h, Nat.mod_eq_of_lt h]
  simp

theorem succ_div_mod_of_ge (i d : Nat) (hd : 0 < d) (h : d ≤ i % d + 1) :
    (i + 1) / d = i / d + 1 ∧ (i + 1) % d = 0 := by
  have hx : i % d + 1 = d := by
    have := Nat.mod_lt i hd
    omega
  have e : i + 1 = d * (i / d + 1) + 0 := by
    have := Nat.div_add_mod i d
    rw [Nat.mul_add, Nat.mul_one]
    omega
  rw [e, Nat.mul_add_div hd, Nat.mul_add_mod]
  simp

theorem getD_concat_length (l : List Nat) (x : Nat) : (l ++ [x]).getD l.length 0 = x := by
  rw [List.getD_eq_getElem?_getD, List.getElem?_concat_length]
  rfl

theorem set_concat_length (l : List Nat) (x y : Nat) : (l ++ [x]).set l.length y = l ++ [y] := by
  rw [List.set_append_right _ _ (le_refl _)]
  simp

/-- The successor of a flat index is the carry increment of its multi-index. -/
theorem add_one_unflatten_idx (dims : List Nat) :
    (∀ d ∈ dims, 0 < d) → ∀ i, i + 1 < dims.prod →
      add_one (unflatten_idx dims i) (dims.length - 1) dims = (unflatten_idx dims (i + 1), true) := by
  induction dims using List.reverseRecOn with
  | nil =>
    intro _ i hi
    simp at hi
  | append_singleton ds d ih =>
    intro hpos i hi
    have hd : 0 < d := hpos d (by simp)
    have hposds : ∀ x ∈ ds, 0 < x := fun x hx => hpos x (by simp [hx])
    rw [List.prod_append, List.prod_singleton] at hi
    have hlen : (ds ++ [d]).length - 1 = ds.length := by simp
    rw [hlen, unflatten_idx_concat, unflatten_idx_concat]
    have hvl : (unflatten_idx ds (i / d)).length = ds.length := unflatten_idx_length _ _
    cases hn : ds.length with
    | zero =>
      have hnil : ds = [] := List.length_eq_zero.mp hn
      subst hnil
      simp only [List.prod_nil, one_mul] at hi
      have hlt : i % d + 1 < d := by rw [Nat.mod_eq_of_lt (by omega)]; exact hi
      obtain ⟨e1, e2⟩ := succ_div_mod_of_lt i d hd hlt
      rw [add_one_eq_zero _ _ (by simp)]
      simp only [unflatten_idx, List.reverse_nil, unflatten_rev, List.nil_append,
        List.getD_cons_zero, List.set_cons_zero]
      rw [if_neg (by omega), e2]
    | succ m =>
      have hvlen : m + 1 < (unflatten_idx ds (i / d) ++ [i % d]).length := by
        simp [hvl, hn]
      rw [add_one_eq_succ _ _ _ hvlen]
      have hgv : (unflatten_idx ds (i / d) ++ [i % d]).getD (m + 1) 0 = i % d := by
        rw [← hn, ← hvl]; exact getD_concat_length _ _
      have hgd : (ds ++ [d]).getD (m + 1) 0 = d := by
        rw [← hn]; exact getD_concat_length _ _
      rw [hgv, hgd]
      by_cases hc : d ≤ i % d + 1
      · obtain ⟨e1, e2⟩ := succ_div_mod_of_ge i d hd hc
        rw [if_pos hc, e1, e2]
        have hset : (unflatten_idx ds (i / d) ++ [i % d]).set (m + 1) 0 =
            unflatten_idx ds (i / d) ++ [0] := by
          rw [← hn, ← hvl]; exact set_concat_length _ _ _
        rw [hset, add_one_append m _ [0] ds [d] (by rw [hvl, hn]; omega) (by omega)]
        have hq : i / d + 1 < ds.prod := by
          have hx : i % d + 1 = d := by
            have := Nat.mod_lt i hd
            omega
          have h1 : i + 1 = (i / d + 1) * d := by
            have := Nat.div_add_mod i d
            rw [Nat.add_mul, Nat.one_mul, Nat.mul_comm]
            omega
          rw [h1] at hi
          exact Nat.lt_of_mul_lt_mul_right hi
        have hih := ih hposds (i / d) hq
        have hm : ds.length - 1 = m := by omega
        rw [hm] at hih
        rw [hih]
        simp
      · obtain ⟨e1, e2⟩ := succ_div_mod_of_lt i d hd (by omega)
        rw [if_neg hc, e1, e2]
        have hset : (unflatten_idx ds (i / d) ++ [i % d]).set (m + 1) (i % d + 1) =
            unflatten_idx ds (i / d) ++ [i % d + 1] := by
          rw [← hn, ← hvl]; exact set_concat_length _ _ _
        rw [hset]

/-- The indices kept by the loop of the test case `array_utils` are those of
`unflatten_idx`, at every flat index below the total size. -/
theorem test_ind_eq_unflatten_idx (dims : List Nat) (hpos : ∀ d ∈ dims, 0 < d) :
    ∀ i, i < dims.prod → test_ind dims i = unflatten_idx dims i
  | 0, _ => by simp [test_ind, unflatten_idx_zero]
  | i + 1, h => by
    simp only [test_ind]
    rw [test_ind_eq_unflatten_idx dims hpos i (by omega), add_one_unflatten_idx dims hpos i h]

/-- Claim C19: for positive extents `dims`, `unflatten_idx dims 0` is all zeros;
for every flat index below the total size the multi-index has one component per
dimension, each below its extent; the multi-index of `i+1` is obtained from that
of `i` by `add_one` at the last component, with carry and with room; and so the
multi-index of every flat index below the total size is the one the loop of the
test case compares it with. -/
theorem unflatten_idx_row_major (dims : List Nat) (hpos : ∀ d ∈ dims, 0 < d) :
    unflatten_idx dims 0 = List.replicate dims.length 0 ∧
    (∀ i, i < dims.prod →
      (unflatten_idx dims i).length = dims.length ∧
      ∀ k, k < dims.length → (unflatten_idx dims i).getD k 0 < dims.getD k 0) ∧
    (∀ i, i + 1 < dims.prod →
      add_one (unflatten_idx dims i) (dims.length - 1) dims =
        (unflatten_idx dims (i + 1), true)) ∧
    (∀ i, i < dims.prod → unflatten_idx dims i = test_ind dims i) :=
  ⟨unflatten_idx_zero dims,
   fun i _ => ⟨unflatten_idx_length dims i, fun k hk => unflatten_idx_lt dims i k hpos hk⟩,
   add_one_unflatten_idx dims hpos,
   fun i hi => (test_ind_eq_unflatten_idx dims hpos i hi).symm⟩

/-- Witness of C19 for the extents 2, 3, 4: the step from the flat index 11 to 12
carries through the last two components. -/
theorem unflatten_idx_row_major_witness :
    unflatten_idx [2, 3, 4] 0 = [0, 0, 0] ∧
    add_one (unflatten_idx [2, 3, 4] 11) 2 [2, 3, 4] = (unflatten_idx [2, 3, 4] 12, true) ∧
    unflatten_idx [2, 3, 4] 12 = [1, 0, 0] :=
  ⟨(unflatten_idx_row_major [2, 3, 4] (by decide)).1,
   (unflatten_idx_row_major [2, 3, 4] (by decide)).2.2.1 11 (by decide),
   by decide⟩

/-! ## Time stamps -/

theorem is_leap_year_iff (L : Bool) (y : Nat) :
    is_leap_year L y = true ↔ L = true ∧ ((y % 4 = 0 ∧ y % 100 ≠ 0) ∨ y % 400 = 0) := by
  simp [is_leap_year]

theorem leap_years_before_succ (L : Bool) (y : Nat) :
    leap_years_before L (y + 1) =
      leap_years_before L y + (if is_leap_year L y then 1 else 0) := by
  cases L
  · simp [leap_years_before, is_leap_year]
  · by_cases h : is_leap_year true y = true
    · rw [if_pos h]
      rw [is_leap_year_iff] at h
      simp only [leap_years_before, if_true]
      omega
    · rw [if_neg h]
      rw [is_leap_year_iff] at h
      simp only [leap_years_before, if_true]
      simp only [true_and, not_or, not_and, ne_eq, not_not] at h
      omega

theorem days_before_year_succ (L : Bool) (y : Nat) :
    days_before_year L (y + 1) =
      days_before_year L y + 365 + (if is_leap_year L y then 1 else 0) := by
  simp only [days_before_year, leap_years_before_succ]
  omega

theorem days_before_month_13 (L : Bool) (y : Nat) :
    days_before_month L y 13 = 365 + (if is_leap_year L y then 1 else 0) := by
  simp only [days_before_month, days_in_month]
  split <;> rfl

theorem days_before_month_succ (L : Bool) (y m : Nat) :
    days_before_month L y (m + 1) = days_before_month L y m + days_in_month L y m := rfl

theorem days_in_month_bounds (L : Bool) (y m : Nat) (h1 : 1 ≤ m) (h12 : m ≤ 12) :
    28 ≤ days_in_month L y m ∧ days_in_month L y m ≤ 31 := by
  have : m = 1 ∨ m = 2 ∨ m = 3 ∨ m = 4 ∨ m = 5 ∨ m = 6 ∨ m = 7 ∨ m = 8 ∨ m = 9 ∨ m = 10 ∨
      m = 11 ∨ m = 12 := by omega
  rcases this with h | h | h | h | h | h | h | h | h | h | h | h <;> subst h <;>
    simp only [days_in_month] <;> first | omega | (split <;> omega)

/-- The carry of surplus days keeps the count of days from the start of the
year 0, leaves a valid month and, with enough rounds, a valid day. -/
theorem roll_days_spec (L : Bool) : ∀ (fuel y m d : Nat), 1 ≤ m → m ≤ 12 → 1 ≤ d → d ≤ fuel →
    days_before_year L (roll_days L fuel y m d).1 +
        days_before_month L (roll_days L fuel y m d).1 (roll_days L fuel y m d).2.1 +
        (roll_days L fuel y m d).2.2 =
      days_before_year L y + days_before_month L y m + d ∧
    1 ≤ (roll_days L fuel y m d).2.1 ∧ (roll_days L fuel y m d).2.1 ≤ 12 ∧
    1 ≤ (roll_days L fuel y m d).2.2 ∧
    (roll_days L fuel y m d).2.2 ≤
      days_in_month L (roll_days L fuel y m d).1 (roll_days L fuel y m d).2.1 := by
  intro fuel
  induction fuel with
  | zero => intro y m d _ _ h1 h2; omega
  | succ fuel ih =>
    intro y m d hm1 hm12 hd1 hdf
    obtain ⟨hlo, hhi⟩ := days_in_month_bounds L y m hm1 hm12
    simp only [roll_days]
    by_cases hgt : days_in_month L y m < d
    · rw [if_pos hgt]
      by_cases hdec : 12 < m + 1
      · rw [if_pos hdec]
        have hm : m = 12 := by omega
        subst hm
        obtain ⟨h1, h2, h3, h4, h5⟩ := ih (y + 1) 1 (d - days_in_month L y 12) (by omega)
          (by omega) (by omega) (by omega)
        refine ⟨?_, h2, h3, h4, h5⟩
        rw [h1, days_before_year_succ]
        have e13 := days_before_month_13 L y
        rw [days_before_month_succ] at e13
        have e1 : days_before_month L (y + 1) 1 = 0 := rfl
        rw [e1]
        omega
      · rw [if_neg hdec]
        obtain ⟨h1, h2, h3, h4, h5⟩ := ih y (m + 1) (d - days_in_month L y m) (by omega)
          (by omega) (by omega) (by omega)
        refine ⟨?_, h2, h3, h4, h5⟩
        rw [h1, days_before_month_succ]
        omega
    · rw [if_neg hgt]
      exact ⟨rfl, hm1, hm12, hd1, by simpa using hgt⟩

/-- The advance of a valid time stamp by `n` seconds succeeds, gives a valid
time stamp, and adds `n` to the count of seconds from the start of the year 0. -/
theorem TimeStamp.add_spec (L : Bool) (ts : TimeStamp) (n : Nat) (hv : ts.is_valid L) :
    ∃ ts1, TimeStamp.add L ts (n : Int) = some ts1 ∧ ts1.is_valid L ∧
      ts1.seconds_from_epoch L = ts.seconds_from_epoch L + n ∧
      ts1.num_steps = ts.num_steps + 1 := by
  have hn : ¬ ((n : Int) < 0) := by omega
  obtain ⟨hm1, hm12, hd1, hd2, hh, hmin, hs⟩ := hv
  have hv2 : ts.is_valid L := ⟨hm1, hm12, hd1, hd2, hh, hmin, hs⟩
  unfold TimeStamp.add
  simp only [hv2, not_true_eq_false, if_false, hn, Int.toNat_ofNat]
  refine ⟨_, rfl, ?_, ?_, rfl⟩
  · obtain ⟨-, h2, h3, h4, h5⟩ := roll_days_spec L
      (ts.day + (ts.hours + (ts.minutes + (ts.seconds + n) / 60) / 60) / 24) ts.year ts.month
      (ts.day + (ts.hours + (ts.minutes + (ts.seconds + n) / 60) / 60) / 24) hm1 hm12
      (by omega) (le_refl _)
    exact ⟨h2, h3, h4, h5, Nat.mod_lt _ (by omega), Nat.mod_lt _ (by omega),
      Nat.mod_lt _ (by omega)⟩
  · obtain ⟨h1, -, -, h4, -⟩ := roll_days_spec L
      (ts.day + (ts.hours + (ts.minutes + (ts.seconds + n) / 60) / 60) / 24) ts.year ts.month
      (ts.day + (ts.hours + (ts.minutes + (ts.seconds + n) / 60) / 60) / 24) hm1 hm12
      (by omega) (le_refl _)
    simp only [TimeStamp.seconds_from_epoch]
    generalize days_before_year L ts.year + days_before_month L ts.year ts.month = B at h1 ⊢
    generalize hr : roll_days L
      (ts.day + (ts.hours + (ts.minutes + (ts.seconds + n) / 60) / 60) / 24) ts.year ts.month
      (ts.day + (ts.hours + (ts.minutes + (ts.seconds + n) / 60) / 60) / 24) = r at h1 h4 ⊢
    generalize days_before_year L r.1 + days_before_month L r.1 r.2.1 = A at h1 ⊢
    omega

theorem days_before_year_mono (L : Bool) (y1 y2 : Nat) (h : y1 ≤ y2) :
    days_before_year L y1 ≤ days_before_year L y2 := by
  induction y2, h using Nat.le_induction with
  | base => exact le_refl _
  | succ y _ ih =>
    rw [days_before_year_succ]
    omega

theorem days_before_month_mono (L : Bool) (y m1 m2 : Nat) (h : m1 ≤ m2) :
    days_before_month L y m1 ≤ days_before_month L y m2 := by
  induction m2, h using Nat.le_induction with
  | base => exact le_refl _
  | succ m _ ih =>
    rw [days_before_month_succ]
    omega

theorem TimeStamp.seconds_lt_of_lt (L : Bool) (ts1 ts2 : TimeStamp) (h1 : ts1.is_valid L)
    (h2 : ts2.is_valid L) (hlt : ts1.lt ts2) :
    ts1.seconds_from_epoch L < ts2.seconds_from_epoch L := by
  obtain ⟨am1, am12, ad1, ad2, ah, amin, as⟩ := h1
  obtain ⟨bm1, bm12, bd1, bd2, bh, bmin, bs⟩ := h2
  have hyear : days_before_month L ts1.year ts1.month + ts1.day ≤
      days_before_month L ts1.year 13 := by
    have := days_before_month_mono L ts1.year (ts1.month + 1) 13 (by omega)
    rw [days_before_month_succ] at this
    omega
  simp only [TimeStamp.seconds_from_epoch]
  rcases hlt with hy | ⟨hy, hrest⟩
  · have h13 := days_before_month_13 L ts1.year
    have hs := days_before_year_succ L ts1.year
    have hmono := days_before_year_mono L (ts1.year + 1) ts2.year (by omega)
    generalize days_before_month L ts2.year ts2.month = b2 at *
    generalize days_before_month L ts1.year ts1.month = b1 at *
    generalize days_before_month L ts1.year 13 = c at *
    generalize days_before_year L ts2.year = a2 at *
    generalize days_before_year L ts1.year = a1 at *
    generalize days_before_year L (ts1.year + 1) = a3 at *
    by_cases hl : is_leap_year L ts1.year = true
    · simp only [hl, if_true] at h13 hs
      omega
    · simp only [hl, if_false] at h13 hs
      omega
  · rw [hy] at hyear ⊢
    rcases hrest with hm | ⟨hm, hrest⟩
    · have hmono := days_before_month_mono L ts2.year (ts1.month + 1) ts2.month (by omega)
      rw [days_before_month_succ] at hmono
      have hd : ts1.day ≤ days_in_month L ts2.year ts1.month := by rw [← hy]; exact ad2
      generalize days_before_month L ts2.year ts2.month = b2 at *
      generalize days_before_month L ts2.year ts1.month = b1 at *
      generalize days_in_month L ts2.year ts1.month = e at *
      omega
    · rw [hm]
      rcases hrest with hd | ⟨hd, hrest⟩
      · omega
      · rcases hrest with hh | ⟨hh, hrest⟩
        · omega
        · rcases hrest with hmi | ⟨hmi, hss⟩
          · omega
          · omega

theorem TimeStamp.lt_trichotomy (ts1 ts2 : TimeStamp) :
    ts1.lt ts2 ∨ ts1.same ts2 ∨ ts2.lt ts1 := by
  unfold TimeStamp.lt TimeStamp.same
  rcases Nat.lt_trichotomy ts1.year ts2.year with h | h | h
  · exact Or.inl (Or.inl h)
  · rcases Nat.lt_trichotomy ts1.month ts2.month with h1 | h1 | h1
    · exact Or.inl (Or.inr ⟨h, Or.inl h1⟩)
    · rcases Nat.lt_trichotomy ts1.day ts2.day with h2 | h2 | h2
      · exact Or.inl (Or.inr ⟨h, Or.inr ⟨h1, Or.inl h2⟩⟩)
      · rcases Nat.lt_trichotomy ts1.hours ts2.hours with h3 | h3 | h3
        · exact Or.inl (Or.inr ⟨h, Or.inr ⟨h1, Or.inr ⟨h2, Or.inl h3⟩⟩⟩)
        · rcases Nat.lt_trichotomy ts1.minutes ts2.minutes with h4 | h4 | h4
          · exact Or.inl (Or.inr ⟨h, Or.inr ⟨h1, Or.inr ⟨h2, Or.inr ⟨h3, Or.inl h4⟩⟩⟩⟩)
          · rcases Nat.lt_trichotomy ts1.seconds ts2.seconds with h5 | h5 | h5
            · exact Or.inl (Or.inr ⟨h, Or.inr ⟨h1, Or.inr ⟨h2, Or.inr ⟨h3, Or.inr ⟨h4, h5⟩⟩⟩⟩⟩)
            · exact Or.inr (Or.inl ⟨h, h1, h2, h3, h4, h5⟩)
            · exact Or.inr (Or.inr (Or.inr ⟨h.symm, Or.inr ⟨h1.symm, Or.inr ⟨h2.symm,
                Or.inr ⟨h3.symm, Or.inr ⟨h4.symm, h5⟩⟩⟩⟩⟩))
          · exact Or.inr (Or.inr (Or.inr ⟨h.symm, Or.inr ⟨h1.symm, Or.inr ⟨h2.symm,
              Or.inr ⟨h3.symm, Or.inl h4⟩⟩⟩⟩))
        · exact Or.inr (Or.inr (Or.inr ⟨h.symm, Or.inr ⟨h1.symm, Or.inr ⟨h2.symm, Or.inl h3⟩⟩⟩))
      · exact Or.inr (Or.inr (Or.inr ⟨h.symm, Or.inr ⟨h1.symm, Or.inl h2⟩⟩))
    · exact Or.inr (Or.inr (Or.inr ⟨h.symm, Or.inl h1⟩))
  · exact Or.inr (Or.inr (Or.inl h))

theorem TimeStamp.le_of_seconds_le (L : Bool) (ts1 ts2 : TimeStamp) (h1 : ts1.is_valid L)
    (h2 : ts2.is_valid L) (h : ts1.seconds_from_epoch L ≤ ts2.seconds_from_epoch L) :
    ts1.le ts2 := by
  rcases TimeStamp.lt_trichotomy ts1 ts2 with hlt | hs | hgt
  · exact Or.inl hlt
  · exact Or.inr hs
  · have := TimeStamp.seconds_lt_of_lt L ts2 ts1 h2 h1 hgt
    omega

/-- Claim C20: for every valid time stamp `ts` and every non-negative number of
seconds `n`, the sum `ts + n` exists and is a valid time stamp, the difference
`(ts + n) - ts` equals `n`, whatever carries into minutes, hours, days, months
and years the sum went through, and `ts <= ts + n`; with leap years and
without. -/
theorem TimeStamp.add_sub_cancel (L : Bool) (ts : TimeStamp) (n : Nat) (hv : ts.is_valid L) :
    ∃ ts1, TimeStamp.add L ts (n : Int) = some ts1 ∧ ts1.is_valid L ∧
      TimeStamp.sub L ts1 ts = (n : Int) ∧ ts.le ts1 := by
  obtain ⟨ts1, h1, h2, h3, -⟩ := TimeStamp.add_spec L ts n hv
  refine ⟨ts1, h1, h2, ?_, ?_⟩
  · unfold TimeStamp.sub
    rw [h3]
    push_cast
    ring
  · exact TimeStamp.le_of_seconds_le L ts ts1 hv h2 (by omega)

/-- The round trip at the time stamp of the test case, 2021-10-12 17:08:30, for
the five numbers of seconds of its section `difference`: an hour, a day, ten,
a hundred and a thousand days. -/
theorem TimeStamp.add_sub_cancel_witness :
    (∃ ts1, TimeStamp.add true ex_ts1 ((3600 : Nat) : Int) = some ts1 ∧ ts1.is_valid true ∧
      TimeStamp.sub true ts1 ex_ts1 = ((3600 : Nat) : Int) ∧ ex_ts1.le ts1) ∧
    (∃ ts1, TimeStamp.add true ex_ts1 ((86400 : Nat) : Int) = some ts1 ∧ ts1.is_valid true ∧
      TimeStamp.sub true ts1 ex_ts1 = ((86400 : Nat) : Int) ∧ ex_ts1.le ts1) ∧
    (∃ ts1, TimeStamp.add true ex_ts1 ((864000 : Nat) : Int) = some ts1 ∧ ts1.is_valid true ∧
      TimeStamp.sub true ts1 ex_ts1 = ((864000 : Nat) : Int) ∧ ex_ts1.le ts1) ∧
    (∃ ts1, TimeStamp.add true ex_ts1 ((8640000 : Nat) : Int) = some ts1 ∧ ts1.is_valid true ∧
      TimeStamp.sub true ts1 ex_ts1 = ((8640000 : Nat) : Int) ∧ ex_ts1.le ts1) ∧
    (∃ ts1, TimeStamp.add true ex_ts1 ((86400000 : Nat) : Int) = some ts1 ∧ ts1.is_valid true ∧
      TimeStamp.sub true ts1 ex_ts1 = ((86400000 : Nat) : Int) ∧ ex_ts1.le ts1) :=
  ⟨TimeStamp.add_sub_cancel true ex_ts1 3600 (by decide),
   TimeStamp.add_sub_cancel true ex_ts1 86400 (by decide),
   TimeStamp.add_sub_cancel true ex_ts1 864000 (by decide),
   TimeStamp.add_sub_cancel true ex_ts1 8640000 (by decide),
   TimeStamp.add_sub_cancel true ex_ts1 86400000 (by decide)⟩

/-- The values required by the test case `time_stamp`: the carries of the
section `updates`, the leap years, and the rewind that is refused. -/
theorem TimeStamp.test_case_values :
    TimeStamp.add true ex_ts1 1 = some ⟨2021, 10, 12, 17, 8, 31, 1⟩ ∧
    TimeStamp.add true ⟨2021, 10, 12, 17, 8, 31, 1⟩ 60 = some ⟨2021, 10, 12, 17, 9, 31, 2⟩ ∧
    TimeStamp.add true ⟨2021, 10, 12, 17, 9, 31, 2⟩ 3600 = some ⟨2021, 10, 12, 18, 9, 31, 3⟩ ∧
    TimeStamp.add true ⟨2021, 10, 12, 18, 9, 31, 3⟩ 86400 = some ⟨2021, 10, 13, 18, 9, 31, 4⟩ ∧
    TimeStamp.add true ⟨2021, 10, 13, 18, 9, 31, 4⟩ (86400 * 20) =
      some ⟨2021, 11, 2, 18, 9, 31, 5⟩ ∧
    TimeStamp.add true ⟨2021, 11, 2, 18, 9, 31, 5⟩ (86400 * 365) =
      some ⟨2022, 11, 2, 18, 9, 31, 6⟩ ∧
    TimeStamp.add true ⟨2021, 12, 31, 23, 59, 59, 0⟩ 1 = some ⟨2022, 1, 1, 0, 0, 0, 1⟩ ∧
    TimeStamp.add true ⟨2000, 2, 28, 23, 59, 59, 0⟩ 1 = some ⟨2000, 2, 29, 0, 0, 0, 1⟩ ∧
    TimeStamp.add false ⟨2000, 2, 28, 23, 59, 59, 0⟩ 1 = some ⟨2000, 3, 1, 0, 0, 0, 1⟩ ∧
    TimeStamp.add true ⟨2100, 2, 28, 23, 59, 59, 0⟩ 1 = some ⟨2100, 3, 1, 0, 0, 0, 1⟩ ∧
    TimeStamp.add true ex_ts1 (-10) = none := by
  decide

/-! ## The width of the dispatch, and the reset of the masks -/

theorem dispatch_pack_size_spec (ok : Nat → Bool) (a b c d : FieldAllocProp)
    (hok : ∀ w, ok w = (a.is_compatible w && b.is_compatible w && c.is_compatible w &&
      d.is_compatible w)) :
    (dispatch_pack_size true a b c d ∈ [16, 8, 4, 2] ∧
      ok (dispatch_pack_size true a b c d) = true ∧
      ∀ w ∈ [16, 8, 4, 2], dispatch_pack_size true a b c d < w → ok w = false) ∨
    (dispatch_pack_size true a b c d = 1 ∧ ∀ w ∈ [16, 8, 4, 2], ok w = false) := by
  have h16 := hok 16
  have h8 := hok 8
  have h4 := hok 4
  have h2 := hok 2
  unfold dispatch_pack_size
  simp only [Bool.true_and]
  rw [← h16, ← h8, ← h4, ← h2]
  by_cases c16 : ok 16 = true
  · simp [c16]
  · by_cases c8 : ok 8 = true
    · simp [c16, c8]
    · by_cases c4 : ok 4 = true
      · simp [c16, c8, c4]
      · by_cases c2 : ok 2 = true
        · simp [c16, c8, c4, c2]
        · simp [c16, c8, c4, c2]

theorem dispatch_pack_size_no_pack (a b c d : FieldAllocProp) :
    dispatch_pack_size false a b c d = 1 := by
  simp [dispatch_pack_size]

/-- Claim C22: with packing enabled and whatever the kernels are, a pair whose
source is vertically interpolated is run by the field loop of `do_remap_fwd`
with the kernel of width `field_loop_width`, which is the largest of 16, 8, 4, 2
with which the source field, the target field, the source profile matching the
trailing tag of the field and the coordinate table are all compatible, and 1
when there is no such width; the mask loop runs the kernel of the width selected
by the same rule. -/
theorem dispatch_widest_compatible (kernel : VinterpKernel) (P : Nat) (vr : VerticalRemapper)
    (f_src f_tgt : Field) (hP : 1 < P)
    (htag : f_src.fid.layout.back = LEV ∨ f_src.fid.layout.back = ILEV) :
    remap_field_step_with kernel P vr f_src f_tgt =
      apply_vertical_interpolation_with kernel vr (field_loop_width P vr f_src f_tgt)
        f_src f_tgt false ∧
    remap_mask_step_with kernel P vr f_src f_tgt =
      (f_src.deep_copy_val 1, apply_vertical_interpolation_with kernel vr
        (mask_loop_width P vr f_src f_tgt) (f_src.deep_copy_val 1) f_tgt true) ∧
    mask_loop_width P vr f_src f_tgt = field_loop_width P vr f_src f_tgt ∧
    ((field_loop_width P vr f_src f_tgt ∈ [16, 8, 4, 2] ∧
        all_compatible vr f_src f_tgt (field_loop_width P vr f_src f_tgt) = true ∧
        ∀ w ∈ [16, 8, 4, 2], field_loop_width P vr f_src f_tgt < w →
          all_compatible vr f_src f_tgt w = false) ∨
     (field_loop_width P vr f_src f_tgt = 1 ∧
        ∀ w ∈ [16, 8, 4, 2], all_compatible vr f_src f_tgt w = false)) := by
  have hdo : [ILEV, LEV].contains f_src.fid.layout.back = true := by
    rcases htag with h | h <;> simp [h]
  refine ⟨?_, ?_, rfl, ?_⟩
  · simp only [remap_field_step_with, field_loop_width, hdo, if_true]
  · simp only [remap_mask_step_with, mask_loop_width, hdo, if_true]
  · have hcp : decide (1 < P) = true := by simpa using hP
    simp only [field_loop_width, hcp]
    apply dispatch_pack_size_spec
    intro w
    unfold all_compatible source_profile
    rcases htag with h | h <;> simp [h]

/-- The dispatch on a pair with eight source levels and four target levels,
with packs of 16 and the kernels that tell the widths apart. -/
theorem dispatch_widest_compatible_witness :
    remap_field_step_with ex_width_kernel 16 ex_remapper8 ex_T8_src ex_T8_tgt =
      apply_vertical_interpolation_with ex_width_kernel ex_remapper8
        (field_loop_width 16 ex_remapper8 ex_T8_src ex_T8_tgt) ex_T8_src ex_T8_tgt false ∧
    remap_mask_step_with ex_width_kernel 16 ex_remapper8 ex_T8_src ex_T8_tgt =
      (ex_T8_src.deep_copy_val 1, apply_vertical_interpolation_with ex_width_kernel ex_remapper8
        (mask_loop_width 16 ex_remapper8 ex_T8_src ex_T8_tgt) (ex_T8_src.deep_copy_val 1)
        ex_T8_tgt true) ∧
    mask_loop_width 16 ex_remapper8 ex_T8_src ex_T8_tgt =
      field_loop_width 16 ex_remapper8 ex_T8_src ex_T8_tgt ∧
    ((field_loop_width 16 ex_remapper8 ex_T8_src ex_T8_tgt ∈ [16, 8, 4, 2] ∧
        all_compatible ex_remapper8 ex_T8_src ex_T8_tgt
          (field_loop_width 16 ex_remapper8 ex_T8_src ex_T8_tgt) = true ∧
        ∀ w ∈ [16, 8, 4, 2], field_loop_width 16 ex_remapper8 ex_T8_src ex_T8_tgt < w →
          all_compatible ex_remapper8 ex_T8_src ex_T8_tgt w = false) ∨
     (field_loop_width 16 ex_remapper8 ex_T8_src ex_T8_tgt = 1 ∧
        ∀ w ∈ [16, 8, 4, 2], all_compatible ex_remapper8 ex_T8_src ex_T8_tgt w = false)) :=
  dispatch_widest_compatible ex_width_kernel 16 ex_remapper8 ex_T8_src ex_T8_tgt (by decide)
    (Or.inl (by decide))

/-- The widths selected in the example: 4 with packs of 16 (the source has
eight levels, the target and the coordinate table four), 1 without packs, and
1 for a pair of three levels. -/
theorem field_loop_width_examples :
    field_loop_width 16 ex_remapper8 ex_T8_src ex_T8_tgt = 4 ∧
    field_loop_width 1 ex_remapper8 ex_T8_src ex_T8_tgt = 1 ∧
    field_loop_width 16 ex_remapper ex_T_src ex_T_tgt = 1 := by
  decide

/-- The kernel run by the forward remap on the example, read off the kernels
that tell the widths apart: the kernel of width 4 with packs of 16, the kernel
of width 1 without packs. -/
theorem do_remap_fwd_width_examples :
    (do_remap_fwd_with ex_width_kernel 16 ex_remapper8_bound).2 = none ∧
    (do_remap_fwd_with ex_width_kernel 16 ex_remapper8_bound).1.m_tgt_fields.map
      (fun f => f.data.length) = [4] ∧
    (do_remap_fwd_with ex_width_kernel 1 ex_remapper8_bound).1.m_tgt_fields.map
      (fun f => f.data.length) = [1] := by
  decide

theorem perform_vertical_interpolation_width (w1 w2 N : Nat) (src_lev : List (List ℚ))
    (remap_pres : List ℚ) (src_view : List (List ℚ)) (e1 ns nt : Nat) (mv : ℚ) :
    perform_vertical_interpolation w1 N src_lev remap_pres src_view e1 ns nt mv =
      perform_vertical_interpolation w2 N src_lev remap_pres src_view e1 ns nt mv := by
  unfold perform_vertical_interpolation
  simp only [interp_column_packed_eq]

theorem apply_vertical_interpolation_with_width (kernel : VinterpKernel)
    (hK : ∀ (w N : Nat) (a : List (List ℚ)) (b : List ℚ) (c : List (List ℚ)) (d e f : Nat) (g : ℚ),
      kernel w N a b c d e f g = kernel 1 N a b c d e f g)
    (vr : VerticalRemapper) (w1 w2 : Nat) (f_src f_tgt : Field) (mi : Bool) :
    apply_vertical_interpolation_with kernel vr w1 f_src f_tgt mi =
      apply_vertical_interpolation_with kernel vr w2 f_src f_tgt mi := by
  have h : ∀ (N : Nat) (a : List (List ℚ)) (b : List ℚ) (c : List (List ℚ)) (d e f : Nat) (g : ℚ),
      kernel w1 N a b c d e f g = kernel w2 N a b c d e f g :=
    fun N a b c d e f g => (hK w1 N a b c d e f g).trans (hK w2 N a b c d e f g).symm
  unfold apply_vertical_interpolation_with
  simp only [h]

theorem remap_field_step_with_width (kernel : VinterpKernel)
    (hK : ∀ (w N : Nat) (a : List (List ℚ)) (b : List ℚ) (c : List (List ℚ)) (d e f : Nat) (g : ℚ),
      kernel w N a b c d e f g = kernel 1 N a b c d e f g)
    (P : Nat) (vr : VerticalRemapper) (w : Nat) (f_src f_tgt : Field) :
    remap_field_step_with kernel P vr f_src f_tgt =
      if [ILEV, LEV].contains f_src.fid.layout.back then
        apply_vertical_interpolation_with kernel vr w f_src f_tgt false
      else .ok (f_tgt.deep_copy f_src) := by
  unfold remap_field_step_with
  simp only
  split
  · exact apply_vertical_interpolation_with_width kernel hK vr _ w f_src f_tgt false
  · rfl

theorem remap_mask_step_with_width (kernel : VinterpKernel)
    (hK : ∀ (w N : Nat) (a : List (List ℚ)) (b : List ℚ) (c : List (List ℚ)) (d e f : Nat) (g : ℚ),
      kernel w N a b c d e f g = kernel 1 N a b c d e f g)
    (P : Nat) (vr : VerticalRemapper) (w : Nat) (f_src f_tgt : Field) :
    remap_mask_step_with kernel P vr f_src f_tgt =
      if [ILEV, LEV].contains f_src.fid.layout.back then
        (f_src.deep_copy_val 1,
          apply_vertical_interpolation_with kernel vr w (f_src.deep_copy_val 1) f_tgt true)
      else (f_src, .ok (f_tgt.deep_copy f_src)) := by
  unfold remap_mask_step_with
  simp only
  split
  · rw [apply_vertical_interpolation_with_width kernel hK vr _ w (f_src.deep_copy_val 1) f_tgt true]
  · rfl

theorem do_remap_fwd_with_width (kernel : VinterpKernel)
    (hK : ∀ (w N : Nat) (a : List (List ℚ)) (b : List ℚ) (c : List (List ℚ)) (d e f : Nat) (g : ℚ),
      kernel w N a b c d e f g = kernel 1 N a b c d e f g)
    (P1 P2 : Nat) (vr : VerticalRemapper) :
    do_remap_fwd_with kernel P1 vr = do_remap_fwd_with kernel P2 vr := by
  have hf : remap_field_step_with kernel P1 vr = remap_field_step_with kernel P2 vr := by
    funext s t
    rw [remap_field_step_with_width kernel hK P1 vr 1, remap_field_step_with_width kernel hK P2 vr 1]
  have hm : remap_mask_step_with kernel P1 vr = remap_mask_step_with kernel P2 vr := by
    funext s t
    rw [remap_mask_step_with_width kernel hK P1 vr 1, remap_mask_step_with_width kernel hK P2 vr 1]
  unfold do_remap_fwd_with
  rw [hf, hm]

theorem perform_vertical_interpolation_width_one (w N : Nat) (a : List (List ℚ)) (b : List ℚ)
    (c : List (List ℚ)) (d e f : Nat) (g : ℚ) :
    perform_vertical_interpolation w N a b c d e f g =
      perform_vertical_interpolation 1 N a b c d e f g :=
  perform_vertical_interpolation_width w 1 N a b c d e f g

theorem apply_vertical_interpolation_width (vr : VerticalRemapper) (w1 w2 : Nat)
    (f_src f_tgt : Field) (mi : Bool) :
    apply_vertical_interpolation vr w1 f_src f_tgt mi =
      apply_vertical_interpolation vr w2 f_src f_tgt mi :=
  apply_vertical_interpolation_with_width perform_vertical_interpolation
    perform_vertical_interpolation_width_one vr w1 w2 f_src f_tgt mi

theorem remap_field_step_width (P : Nat) (vr : VerticalRemapper) (w : Nat) (f_src f_tgt : Field) :
    remap_field_step P vr f_src f_tgt =
      if [ILEV, LEV].contains f_src.fid.layout.back then
        apply_vertical_interpolation vr w f_src f_tgt false
      else .ok (f_tgt.deep_copy f_src) :=
  remap_field_step_with_width perform_vertical_interpolation
    perform_vertical_interpolation_width_one P vr w f_src f_tgt

theorem remap_mask_step_width (P : Nat) (vr : VerticalRemapper) (w : Nat) (f_src f_tgt : Field) :
    remap_mask_step P vr f_src f_tgt =
      if [ILEV, LEV].contains f_src.fid.layout.back then
        (f_src.deep_copy_val 1,
          apply_vertical_interpolation vr w (f_src.deep_copy_val 1) f_tgt true)
      else (f_src, .ok (f_tgt.deep_copy f_src)) :=
  remap_mask_step_with_width perform_vertical_interpolation
    perform_vertical_interpolation_width_one P vr w f_src f_tgt

/-- Claim C23: the kernel of batch width `w` takes the target levels of a
column batch after batch, and its result is that of the kernel of width 1, for
every source profile, coordinate table, source view and fill value; hence the
target field produced by `apply_vertical_interpolation` is the same for the
widths 16, 8, 4, 2 and 1, and the forward remap does not depend on the width
that the dispatch selects. The code adds no dependence of its own: with any
kernels that agree across the widths the forward remap is the same whatever the
widths selected. -/
theorem remap_width_independent (vr : VerticalRemapper) (f_src f_tgt : Field) (mi : Bool) :
    (∀ w ∈ [16, 8, 4, 2, 1], apply_vertical_interpolation vr w f_src f_tgt mi =
      apply_vertical_interpolation vr 1 f_src f_tgt mi) ∧
    (∀ (w N : Nat) (src_lev : List (List ℚ)) (remap_pres : List ℚ) (src_view : List (List ℚ))
      (extent1 src_num_levs tgt_num_levs : Nat) (mask_val : ℚ),
      perform_vertical_interpolation w N src_lev remap_pres src_view extent1 src_num_levs
        tgt_num_levs mask_val =
      perform_vertical_interpolation 1 N src_lev remap_pres src_view extent1 src_num_levs
        tgt_num_levs mask_val) ∧
    (∀ P w : Nat, remap_field_step P vr f_src f_tgt =
      if [ILEV, LEV].contains f_src.fid.layout.back then
        apply_vertical_interpolation vr w f_src f_tgt false
      else .ok (f_tgt.deep_copy f_src)) ∧
    (∀ P w : Nat, remap_mask_step P vr f_src f_tgt =
      if [ILEV, LEV].contains f_src.fid.layout.back then
        (f_src.deep_copy_val 1,
          apply_vertical_interpolation vr w (f_src.deep_copy_val 1) f_tgt true)
      else (f_src, .ok (f_tgt.deep_copy f_src))) ∧
    (∀ P1 P2 : Nat, do_remap_fwd P1 vr = do_remap_fwd P2 vr) ∧
    (∀ kernel : VinterpKernel,
      (∀ (w N : Nat) (a : List (List ℚ)) (b : List ℚ) (c : List (List ℚ)) (d e f : Nat) (g : ℚ),
        kernel w N a b c d e f g = kernel 1 N a b c d e f g) →
      ∀ P1 P2 : Nat, do_remap_fwd_with kernel P1 vr = do_remap_fwd_with kernel P2 vr) :=
  ⟨fun w _ => apply_vertical_interpolation_width vr w 1 f_src f_tgt mi,
   perform_vertical_interpolation_width_one,
   fun P w => remap_field_step_width P vr w f_src f_tgt,
   fun P w => remap_mask_step_width P vr w f_src f_tgt,
   fun P1 P2 => do_remap_fwd_with_width perform_vertical_interpolation
     perform_vertical_interpolation_width_one P1 P2 vr,
   fun kernel hK P1 P2 => do_remap_fwd_with_width kernel hK P1 P2 vr⟩

/-- The interpolation of the pair with eight source levels at the five widths,
and the forward remap of the example with packs of 16 and without packs. -/
theorem remap_width_independent_witness :
    (∀ w ∈ [16, 8, 4, 2, 1], apply_vertical_interpolation ex_remapper8 w ex_T8_src ex_T8_tgt false =
      apply_vertical_interpolation ex_remapper8 1 ex_T8_src ex_T8_tgt false) ∧
    do_remap_fwd 16 ex_remapper8_bound = do_remap_fwd 1 ex_remapper8_bound :=
  ⟨(remap_width_independent ex_remapper8 ex_T8_src ex_T8_tgt false).1,
   (remap_width_independent ex_remapper8_bound ex_T8_src ex_T8_tgt false).2.2.2.2.1 16 1⟩

/-- The batches in which the kernels of width 4, 2 and 1 take the four target
levels of the example, and a last batch that is not full. -/
theorem lane_batches_examples :
    lane_batches 4 4 [50, 200, 500, 950] = [[50, 200, 500, 950]] ∧
    lane_batches 2 4 [50, 200, 500, 950] = [[50, 200], [500, 950]] ∧
    lane_batches 1 4 [50, 200, 500, 950] = [[50], [200], [500], [950]] ∧
    lane_batches 16 4 [50, 200, 500, 950] = [[50, 200, 500, 950]] ∧
    lane_batches 2 3 [50, 500, 950] = [[50, 500], [950]] := by
  decide

theorem map_const_of_length_eq (v : ℚ) :
    ∀ (a b : List (List ℚ)), a.map List.length = b.map List.length →
      a.map (fun row => row.map (fun _ => v)) = b.map (fun row => row.map (fun _ => v))
  | [], [], _ => rfl
  | [], _ :: _, h => by simp at h
  | _ :: _, [], h => by simp at h
  | x :: xs, y :: ys, h => by
    simp only [List.map_cons, List.cons.injEq] at h ⊢
    refine ⟨?_, map_const_of_length_eq v xs ys h.2⟩
    have hx : ∀ (n : Nat) (l : List ℚ), l.length = n → l.map (fun _ => v) = List.replicate n v := by
      intro n l hl
      subst hl
      exact List.map_const' l v
    rw [hx x.length x rfl, hx x.length y h.1.symm]

theorem deep_copy_val_same_storage (s s1 : Field) (v : ℚ) (h : s.same_storage s1) :
    s1.deep_copy_val v = s.deep_copy_val v := by
  obtain ⟨h1, h2, h3, h4, h5, h6⟩ := h
  cases s
  cases s1
  simp only [Field.deep_copy_val] at *
  subst h1 h2 h3 h4 h5
  simp only [Field.mk.injEq, true_and]
  exact map_const_of_length_eq v _ _ h6

theorem apply_vertical_interpolation_same_storage (vr : VerticalRemapper) (w : Nat)
    (s t t1 : Field) (mi : Bool) (ht : t.same_storage t1) :
    apply_vertical_interpolation vr w s t1 mi = apply_vertical_interpolation vr w s t mi := by
  obtain ⟨h1, h2, h3, h4, h5, -⟩ := ht
  cases t
  cases t1
  simp only at h1 h2 h3 h4 h5
  subst h1 h2 h3 h4 h5
  simp only [apply_vertical_interpolation_eq]

theorem remap_mask_step_same_storage (P : Nat) (vr : VerticalRemapper) (s t s1 t1 : Field)
    (hs : s.same_storage s1) (ht : t.same_storage t1)
    (htag : s.fid.layout.back = LEV ∨ s.fid.layout.back = ILEV) :
    remap_mask_step P vr s1 t1 = remap_mask_step P vr s t := by
  have hfid : s1.fid = s.fid := hs.1
  have hdo : [ILEV, LEV].contains s.fid.layout.back = true := by
    rcases htag with h | h <;> simp [h]
  rw [remap_mask_step_width P vr 1 s1 t1, remap_mask_step_width P vr 1 s t, hfid]
  simp only [hdo, if_true]
  rw [deep_copy_val_same_storage s s1 1 hs, apply_vertical_interpolation_same_storage vr 1 _ t t1 _ ht]

theorem remap_mask_step_copy (P : Nat) (vr : VerticalRemapper) (s t : Field)
    (htag : ¬ (s.fid.layout.back = LEV ∨ s.fid.layout.back = ILEV)) :
    remap_mask_step P vr s t = (s, .ok (t.deep_copy s)) := by
  have hdo : [ILEV, LEV].contains s.fid.layout.back = false := by
    simp only [not_or] at htag
    simp [htag.1, htag.2]
  rw [remap_mask_step_width P vr 1 s t]
  simp only [hdo, Bool.false_eq_true, if_false]

theorem remap_masks_loop_same_storage (P : Nat) (vr : VerticalRemapper) :
    ∀ (srcs tgts srcs1 tgts1 : List Field),
      same_storage_list srcs srcs1 → same_storage_list tgts tgts1 →
      (remap_masks_loop (remap_mask_step P vr) srcs1 tgts1).2.2 =
        (remap_masks_loop (remap_mask_step P vr) srcs tgts).2.2 ∧
      ∀ (j : Nat) (m : Field), srcs[j]? = some m →
        (m.fid.layout.back = LEV ∨ m.fid.layout.back = ILEV) →
        (remap_masks_loop (remap_mask_step P vr) srcs tgts).2.2 = none →
        (remap_masks_loop (remap_mask_step P vr) srcs1 tgts1).2.1[j]? =
          (remap_masks_loop (remap_mask_step P vr) srcs tgts).2.1[j]? := by
  intro srcs
  induction srcs with
  | nil =>
    intro tgts srcs1 tgts1 hs ht
    cases srcs1 with
    | cons _ _ => exact absurd hs (by simp [same_storage_list])
    | nil =>
      cases tgts <;> cases tgts1 <;> simp [same_storage_list] at ht <;>
        simp [remap_masks_loop]
  | cons s ss ih =>
    intro tgts srcs1 tgts1 hs ht
    cases srcs1 with
    | nil => exact absurd hs (by simp [same_storage_list])
    | cons s1 ss1 =>
      cases tgts with
      | nil =>
        cases tgts1 with
        | cons _ _ => exact absurd ht (by simp [same_storage_list])
        | nil =>
          refine ⟨by simp [remap_masks_loop], ?_⟩
          intro j m _ _ _
          simp [remap_masks_loop]
      | cons t ts =>
        cases tgts1 with
        | nil => exact absurd ht (by simp [same_storage_list])
        | cons t1 ts1 =>
          simp only [same_storage_list] at hs ht
          obtain ⟨ih1, ih2⟩ := ih ts ss1 ts1 hs.2 ht.2
          by_cases htag : s.fid.layout.back = LEV ∨ s.fid.layout.back = ILEV
          · have hstep := remap_mask_step_same_storage P vr s t s1 t1 hs.1 ht.1 htag
            simp only [remap_masks_loop, hstep]
            rcases hst : remap_mask_step P vr s t with ⟨sa, r⟩
            cases r with
            | error e =>
              refine ⟨by simp, ?_⟩
              intro j m _ _ hnone
              simp at hnone
            | ok ta =>
              refine ⟨by simpa using ih1, ?_⟩
              intro j m hj hm hnone
              cases j with
              | zero => simp
              | succ j =>
                simp only [List.getElem?_cons_succ] at hj ⊢
                exact ih2 j m hj hm (by simpa using hnone)
          · have htag1 : ¬ (s1.fid.layout.back = LEV ∨ s1.fid.layout.back = ILEV) := by
              rw [hs.1.1]; exact htag
            simp only [remap_masks_loop, remap_mask_step_copy P vr s t htag,
              remap_mask_step_copy P vr s1 t1 htag1]
            refine ⟨by simpa using ih1, ?_⟩
            intro j m hj hm hnone
            cases j with
            | zero =>
              simp only [List.getElem?_cons_zero, Option.some.injEq] at hj
              subst hj
              exact absurd hm htag
            | succ j =>
              simp only [List.getElem?_cons_succ] at hj ⊢
              exact ih2 j m hj hm (by simpa using hnone)

theorem remap_mask_step_reset (P : Nat) (vr : VerticalRemapper) (s t : Field)
    (htag : s.fid.layout.back = LEV ∨ s.fid.layout.back = ILEV) :
    (remap_mask_step P vr s t).1 = s.deep_copy_val 1 := by
  have hdo : [ILEV, LEV].contains s.fid.layout.back = true := by
    rcases htag with h | h <;> simp [h]
  rw [remap_mask_step_width P vr 1 s t]
  simp only [hdo, if_true]

/-- Claim C24: two states that agree on grids, profiles, coordinate table and
bound fields and differ only in the numbers held by their source masks and
target masks: when the forward remap succeeds on one it succeeds on the other,
and every target mask whose source mask is vertically remapped is the same in
both after the pass; the source mask has been reset to one. -/
theorem remap_fwd_mask_reset (P : Nat) (vr : VerticalRemapper) (src_masks tgt_masks : List Field)
    (hs : same_storage_list vr.m_src_masks src_masks)
    (ht : same_storage_list vr.m_tgt_masks tgt_masks)
    (hrun : (do_remap_fwd P vr).2 = none) :
    (do_remap_fwd P { vr with m_src_masks := src_masks, m_tgt_masks := tgt_masks }).2 = none ∧
    ∀ (j : Nat) (m : Field), vr.m_src_masks[j]? = some m →
      (m.fid.layout.back = LEV ∨ m.fid.layout.back = ILEV) →
      (do_remap_fwd P { vr with m_src_masks := src_masks, m_tgt_masks := tgt_masks }).1.m_tgt_masks[j]?
        = (do_remap_fwd P vr).1.m_tgt_masks[j]? ∧
      (j < vr.m_tgt_masks.length →
        (do_remap_fwd P vr).1.m_src_masks[j]? = some (m.deep_copy_val 1)) := by
  obtain ⟨hf, hm, -, h4, h5, -⟩ := do_remap_fwd_ok P vr hrun
  obtain ⟨l1, l2⟩ := remap_masks_loop_same_storage P vr vr.m_src_masks vr.m_tgt_masks
    src_masks tgt_masks hs ht
  have hstepf : remap_field_step P { vr with m_src_masks := src_masks, m_tgt_masks := tgt_masks } =
      remap_field_step P vr := rfl
  have hstepm : remap_mask_step P { vr with m_src_masks := src_masks, m_tgt_masks := tgt_masks } =
      remap_mask_step P vr := rfl
  have hrun1 : (do_remap_fwd P { vr with m_src_masks := src_masks, m_tgt_masks := tgt_masks }).2 =
      none := by
    rw [do_remap_fwd_eq]
    simp only [hstepf, hstepm, hf]
    rw [l1]
    exact hm
  refine ⟨hrun1, ?_⟩
  intro j m hj hv
  obtain ⟨-, -, -, k4, -, -⟩ := do_remap_fwd_ok P _ hrun1
  refine ⟨?_, ?_⟩
  · rw [k4, h4]
    simp only [hstepm]
    exact l2 j m hj hv hm
  · intro hlt
    obtain ⟨t, htj⟩ := exists_row_of_lt_length vr.m_tgt_masks j hlt
    obtain ⟨t1, -, -, h3⟩ := remap_masks_loop_at (remap_mask_step P vr) vr.m_src_masks
      vr.m_tgt_masks hm j m t hj htj
    rw [h5, h3, remap_mask_step_reset P vr m t hv]

/-- The example remapper and the same remapper with stale numbers in its
masks. -/
theorem remap_fwd_mask_reset_witness :
    (do_remap_fwd 1 ex_remapper_stale).2 = none ∧
    ∀ (j : Nat) (m : Field), ex_remapper.m_src_masks[j]? = some m →
      (m.fid.layout.back = LEV ∨ m.fid.layout.back = ILEV) →
      (do_remap_fwd 1 ex_remapper_stale).1.m_tgt_masks[j]?
        = (do_remap_fwd 1 ex_remapper).1.m_tgt_masks[j]? ∧
      (j < ex_remapper.m_tgt_masks.length →
        (do_remap_fwd 1 ex_remapper).1.m_src_masks[j]? = some (m.deep_copy_val 1)) :=
  remap_fwd_mask_reset 1 ex_remapper [ex_T_mask_src_stale] [ex_T_mask_tgt_stale]
    (by decide) (by decide) (by decide)

/-- The two states of the example differ in the numbers of their masks. -/
theorem ex_remapper_stale_differs :
    ex_remapper_stale.m_src_masks.map (fun f => f.data) = [[[0, 5, 2]]] ∧
    ex_remapper.m_src_masks.map (fun f => f.data) = [[[0, 0, 0]]] ∧
    ex_remapper_stale.m_tgt_masks.map (fun f => f.data) = [[[9, 9, 9]]] ∧
    ex_remapper.m_tgt_masks.map (fun f => f.data) = [[[0, 0, 0]]] := by
  decide

/-! ## A forward remap that fails -/

theorem remap_fields_loop_partial (step : Field → Field → Except RemapError Field)
    (e : RemapError) :
    ∀ (n : Nat) (srcs tgts : List Field) (k : Nat) (s t : Field), k < n →
      srcs[k]? = some s → tgts[k]? = some t → step s t = .error e →
      (∀ (i : Nat) (s0 t0 : Field), i < k → srcs[i]? = some s0 → tgts[i]? = some t0 →
        ∃ t1, step s0 t0 = .ok t1) →
      (∀ (i : Nat) (s0 t0 : Field), i < k → srcs[i]? = some s0 → tgts[i]? = some t0 →
        ∃ t1, step s0 t0 = .ok t1 ∧ (remap_fields_loop step n srcs tgts).1[i]? = some t1) ∧
      (∀ (i : Nat), k ≤ i → (remap_fields_loop step n srcs tgts).1[i]? = tgts[i]?) := by
  intro n
  induction n with
  | zero => intro srcs tgts k s t hk; omega
  | succ n ih =>
    intro srcs tgts k s t hk hs ht he hprev
    cases srcs with
    | nil => simp at hs
    | cons s0 ss =>
      cases tgts with
      | nil => simp at ht
      | cons t0 ts =>
        cases k with
        | zero =>
          simp only [List.getElem?_cons_zero, Option.some.injEq] at hs ht
          subst hs; subst ht
          simp only [remap_fields_loop, he]
          exact ⟨fun i _ _ hi => absurd hi (Nat.not_lt_zero i), by intros; trivial⟩
        | succ k =>
          simp only [List.getElem?_cons_succ] at hs ht
          obtain ⟨t1, h1⟩ := hprev 0 s0 t0 (by omega) (by simp) (by simp)
          have hprev1 : ∀ (i : Nat) (sa ta : Field), i < k → ss[i]? = some sa → ts[i]? = some ta →
              ∃ t1, step sa ta = .ok t1 := by
            intro i sa ta hi hsa hta
            exact hprev (i + 1) sa ta (by omega) (by simpa using hsa) (by simpa using hta)
          obtain ⟨ih1, ih2⟩ := ih ss ts k s t (by omega) hs ht he hprev1
          simp only [remap_fields_loop, h1]
          refine ⟨?_, ?_⟩
          · intro i sa ta hi hsa hta
            cases i with
            | zero =>
              simp only [List.getElem?_cons_zero, Option.some.injEq] at hsa hta
              subst hsa; subst hta
              exact ⟨t1, h1, by simp⟩
            | succ i =>
              simp only [List.getElem?_cons_succ] at hsa hta ⊢
              exact ih1 i sa ta (by omega) hsa hta
          · intro i hi
            cases i with
            | zero => omega
            | succ i =>
              simp only [List.getElem?_cons_succ]
              exact ih2 i (by omega)

theorem remap_field_step_error (P : Nat) (vr : VerticalRemapper) (s t : Field) (e : RemapError)
    (h : remap_field_step P vr s t = .error e) : e = RemapError.UnsupportedRank := by
  rw [remap_field_step_width P vr 1 s t] at h
  split at h
  · rw [apply_vertical_interpolation_eq] at h
    simp only at h
    split at h
    · cases h
    · cases h
    · injection h with h
      exact h.symm
  · cases h

/-- Claim C25: if the forward remap fails at the field of index `k` (every
field before it is processed, the step on field `k` fails), the failure is the
unsupported rank, the target fields of index below `k` hold what the step
writes to them in a successful pass, the target fields of index `k` and above
and all the masks are as before the call: nothing is rolled back. -/
theorem remap_fwd_partial_application (P : Nat) (vr : VerticalRemapper) (k : Nat)
    (f_src f_tgt : Field) (e : RemapError)
    (hk : k < vr.m_num_fields)
    (hs : vr.m_src_fields[k]? = some f_src) (ht : vr.m_tgt_fields[k]? = some f_tgt)
    (hfail : remap_field_step P vr f_src f_tgt = .error e)
    (hprev : ∀ (i : Nat) (s t : Field), i < k → vr.m_src_fields[i]? = some s →
      vr.m_tgt_fields[i]? = some t → ∃ t1, remap_field_step P vr s t = .ok t1) :
    e = RemapError.UnsupportedRank ∧
    (do_remap_fwd P vr).2 = some RemapError.UnsupportedRank ∧
    (∀ (i : Nat) (s t : Field), i < k → vr.m_src_fields[i]? = some s →
      vr.m_tgt_fields[i]? = some t →
      ∃ t1, remap_field_step P vr s t = .ok t1 ∧
        (do_remap_fwd P vr).1.m_tgt_fields[i]? = some t1) ∧
    (∀ (i : Nat), k ≤ i → (do_remap_fwd P vr).1.m_tgt_fields[i]? = vr.m_tgt_fields[i]?) ∧
    (do_remap_fwd P vr).1.m_src_masks = vr.m_src_masks ∧
    (do_remap_fwd P vr).1.m_tgt_masks = vr.m_tgt_masks ∧
    (do_remap_fwd P vr).1.m_src_fields = vr.m_src_fields := by
  have he := remap_field_step_error P vr f_src f_tgt e hfail
  subst he
  have herr := remap_fields_loop_error (remap_field_step P vr) RemapError.UnsupportedRank
    vr.m_num_fields vr.m_src_fields vr.m_tgt_fields k f_src f_tgt hk hs ht hfail hprev
  obtain ⟨p1, p2⟩ := remap_fields_loop_partial (remap_field_step P vr) RemapError.UnsupportedRank
    vr.m_num_fields vr.m_src_fields vr.m_tgt_fields k f_src f_tgt hk hs ht hfail hprev
  have hfwd : do_remap_fwd P vr =
      ({ vr with m_tgt_fields := (remap_fields_loop (remap_field_step P vr) vr.m_num_fields
          vr.m_src_fields vr.m_tgt_fields).1 }, some RemapError.UnsupportedRank) := by
    rw [do_remap_fwd_eq]
    simp only [herr]
  rw [hfwd]
  exact ⟨rfl, rfl, p1, p2, rfl, rfl, rfl⟩

/-- The remapper with three pairs: the pass fails at the pair of index 1, of
rank 4. -/
theorem remap_fwd_partial_application_witness :
    RemapError.UnsupportedRank = RemapError.UnsupportedRank ∧
    (do_remap_fwd 1 ex_remapper3).2 = some RemapError.UnsupportedRank ∧
    (∀ (i : Nat) (s t : Field), i < 1 → ex_remapper3.m_src_fields[i]? = some s →
      ex_remapper3.m_tgt_fields[i]? = some t →
      ∃ t1, remap_field_step 1 ex_remapper3 s t = .ok t1 ∧
        (do_remap_fwd 1 ex_remapper3).1.m_tgt_fields[i]? = some t1) ∧
    (∀ (i : Nat), 1 ≤ i →
      (do_remap_fwd 1 ex_remapper3).1.m_tgt_fields[i]? = ex_remapper3.m_tgt_fields[i]?) ∧
    (do_remap_fwd 1 ex_remapper3).1.m_src_masks = ex_remapper3.m_src_masks ∧
    (do_remap_fwd 1 ex_remapper3).1.m_tgt_masks = ex_remapper3.m_tgt_masks ∧
    (do_remap_fwd 1 ex_remapper3).1.m_src_fields = ex_remapper3.m_src_fields :=
  remap_fwd_partial_application 1 ex_remapper3 1 ex_q4_src ex_q4_tgt_bound
    RemapError.UnsupportedRank (by decide) (by decide) (by decide) rfl
    (fun i s t hi hs ht => by
      have h0 : i = 0 := by omega
      subst h0
      have hs0 : s = ex_T_src := by
        have : ex_remapper3.m_src_fields[0]? = some ex_T_src := by decide
        rw [this] at hs
        exact (Option.some.inj hs).symm
      subst hs0
      exact (apply_vertical_interpolation_rank ex_remapper3 1 ex_T_src t false).2.2
        (Or.inl (by decide)) |> fun ⟨t1, h1⟩ =>
          ⟨t1, (remap_field_step_width 1 ex_remapper3 1 ex_T_src t).trans (by simpa using h1)⟩)

/-! ## The target layout -/

theorem do_bind_field_layout_ok (ids : FieldIdentifier → String) (P : Nat) (vr : VerticalRemapper)
    (ifield : Nat) (src tgt : Field) (h : spec_layout_ok src.fid.layout tgt.fid.layout) :
    (do_bind_field ids P vr ifield src tgt).2 ≠ some RemapError.LayoutMismatch := by
  rw [do_bind_field_eq]
  simp only [h, not_true_eq_false, if_false]
  split
  · simp
  · intro hc
    rcases bind_mask_tracking_error _ _ _ _ _ _ _ hc with h1 | h1 <;> cases h1

theorem create_tgt_layout_unsupported (vr : VerticalRemapper) (l : FieldLayout)
    (h : get_layout_type l.tags ≠ LayoutType.Scalar2D ∧ get_layout_type l.tags ≠ LayoutType.Vector2D ∧
      get_layout_type l.tags ≠ LayoutType.Scalar3D ∧ get_layout_type l.tags ≠ LayoutType.Vector3D) :
    create_tgt_layout vr l = .error RemapError.UnsupportedLayout := by
  unfold create_tgt_layout
  simp only
  split
  · rename_i h1; exact absurd h1 h.1
  · rename_i h1; exact absurd h1 h.2.1
  · rename_i h1; exact absurd h1 h.2.2.1
  · rename_i h1; exact absurd h1 h.2.2.2
  · rfl

/-- Claim C26: for every source layout of kind `Scalar3D`, or of kind
`Vector3D` with a dimension of components `CMP`, `create_tgt_layout` returns
the layout of the same kind on the target grid on midpoints: its vertical tag
is `LEV` and never `ILEV`, and for a vector layout its extent of components is
that of the source. For the layouts `(COL,v)` and
`(COL,CMP,v)` of a grid, with `v` the midpoint or the interface tag, the pair of
the source layout and the layout returned passes the rank check and the tag
check of `do_bind_field`. For a layout of a kind other than `Scalar2D`,
`Vector2D`, `Scalar3D`, `Vector3D` it fails. -/
theorem create_tgt_layout_midpoints (vr : VerticalRemapper) :
    (∀ (src_layout : FieldLayout),
      (get_layout_type src_layout.tags = LayoutType.Scalar3D ∨
        (get_layout_type src_layout.tags = LayoutType.Vector3D ∧
          src_layout.has_tag CMP = true)) →
      ∃ tgt, create_tgt_layout vr src_layout = .ok tgt ∧
        (tgt = vr.m_tgt_grid.get_3d_scalar_layout true ∨
          tgt = vr.m_tgt_grid.get_3d_vector_layout true CMP (src_layout.dim CMP)) ∧
        get_layout_type tgt.tags = get_layout_type src_layout.tags ∧
        tgt.back = LEV ∧ tgt.has_tag LEV = true ∧ tgt.has_tag ILEV = false ∧
        (get_layout_type src_layout.tags = LayoutType.Vector3D →
          tgt.dim CMP = src_layout.dim CMP)) ∧
    (∀ (src_layout : FieldLayout) (v : FieldTag), (v = LEV ∨ v = ILEV) →
      (src_layout.tags = [COL, v] ∨ src_layout.tags = [COL, CMP, v]) →
      ∃ tgt, create_tgt_layout vr src_layout = .ok tgt ∧
        (get_layout_type src_layout.tags = LayoutType.Scalar3D ∨
          get_layout_type src_layout.tags = LayoutType.Vector3D) ∧
        tgt.tags = src_layout.tags.dropLast ++ [LEV] ∧
        src_layout.rank = tgt.rank ∧
        (if src_layout.has_tag ILEV = true then
            (src_layout.strip_dim ILEV).tags = (tgt.strip_dim LEV).tags
          else src_layout.tags = tgt.tags) ∧
        (∀ (ids : FieldIdentifier → String) (P : Nat) (vr1 : VerticalRemapper) (ifield : Nat)
          (f_src f_tgt : Field), f_src.fid.layout = src_layout → f_tgt.fid.layout = tgt →
          (do_bind_field ids P vr1 ifield f_src f_tgt).2 ≠ some RemapError.LayoutMismatch)) ∧
    (∀ (l : FieldLayout),
      (get_layout_type l.tags ≠ LayoutType.Scalar2D ∧ get_layout_type l.tags ≠ LayoutType.Vector2D ∧
        get_layout_type l.tags ≠ LayoutType.Scalar3D ∧ get_layout_type l.tags ≠ LayoutType.Vector3D) →
      create_tgt_layout vr l = .error RemapError.UnsupportedLayout) := by
  refine ⟨?_, ?_, create_tgt_layout_unsupported vr⟩
  · intro src_layout hk
    rcases hk with hk | hk
    · refine ⟨vr.m_tgt_grid.get_3d_scalar_layout true, ?_, Or.inl rfl, ?_, rfl, rfl, rfl, ?_⟩
      · simp only [create_tgt_layout, hk]
      · rw [hk]; rfl
      · intro h; rw [hk] at h; cases h
    · obtain ⟨hk, -⟩ := hk
      have hv : src_layout.is_vector_layout = true := by
        simp [FieldLayout.is_vector_layout, hk]
      refine ⟨vr.m_tgt_grid.get_3d_vector_layout true CMP (src_layout.dim CMP), ?_, Or.inr rfl,
        ?_, rfl, rfl, rfl, fun _ => rfl⟩
      · simp only [create_tgt_layout, hk, hv, if_true]
      · rw [hk]; rfl
  · intro src_layout v hv ht
    obtain ⟨tags, dims⟩ := src_layout
    simp only at ht
    rcases hv with hv | hv <;> rcases ht with ht | ht <;> subst hv <;> subst ht
    · refine ⟨vr.m_tgt_grid.get_3d_scalar_layout true, rfl, Or.inl rfl, rfl, rfl, rfl, ?_⟩
      intro ids P vr1 ifield f_src f_tgt h1 h2
      apply do_bind_field_layout_ok
      rw [h1, h2]
      exact ⟨rfl, Or.inr ⟨rfl, rfl⟩⟩
    · refine ⟨vr.m_tgt_grid.get_3d_vector_layout true CMP
        (FieldLayout.dim ⟨[COL, CMP, LEV], dims⟩ CMP), rfl, Or.inr rfl, rfl, rfl, rfl, ?_⟩
      intro ids P vr1 ifield f_src f_tgt h1 h2
      apply do_bind_field_layout_ok
      rw [h1, h2]
      exact ⟨rfl, Or.inr ⟨rfl, rfl⟩⟩
    · refine ⟨vr.m_tgt_grid.get_3d_scalar_layout true, rfl, Or.inl rfl, rfl, rfl, rfl, ?_⟩
      intro ids P vr1 ifield f_src f_tgt h1 h2
      apply do_bind_field_layout_ok
      rw [h1, h2]
      exact ⟨rfl, Or.inl ⟨rfl, rfl⟩⟩
    · refine ⟨vr.m_tgt_grid.get_3d_vector_layout true CMP
        (FieldLayout.dim ⟨[COL, CMP, ILEV], dims⟩ CMP), rfl, Or.inr rfl, rfl, rfl, rfl, ?_⟩
      intro ids P vr1 ifield f_src f_tgt h1 h2
      apply do_bind_field_layout_ok
      rw [h1, h2]
      exact ⟨rfl, Or.inl ⟨rfl, rfl⟩⟩

/-- The layout `(COL,CMP,ILEV)` of the source grid of the example, and a
layout `(COL,TL,CMP)` of kind `Tensor2D`. -/
theorem create_tgt_layout_midpoints_witness :
    (∃ tgt, create_tgt_layout ex_remapper0 (ex_src_grid.get_3d_vector_layout false CMP 2) = .ok tgt ∧
        (tgt = ex_remapper0.m_tgt_grid.get_3d_scalar_layout true ∨
          tgt = ex_remapper0.m_tgt_grid.get_3d_vector_layout true CMP
            ((ex_src_grid.get_3d_vector_layout false CMP 2).dim CMP)) ∧
        get_layout_type tgt.tags =
          get_layout_type (ex_src_grid.get_3d_vector_layout false CMP 2).tags ∧
        tgt.back = LEV ∧ tgt.has_tag LEV = true ∧ tgt.has_tag ILEV = false ∧
        (get_layout_type (ex_src_grid.get_3d_vector_layout false CMP 2).tags =
            LayoutType.Vector3D →
          tgt.dim CMP = (ex_src_grid.get_3d_vector_layout false CMP 2).dim CMP)) ∧
    (∃ tgt, create_tgt_layout ex_remapper0 (ex_src_grid.get_3d_vector_layout false CMP 2) = .ok tgt ∧
        (get_layout_type (ex_src_grid.get_3d_vector_layout false CMP 2).tags = LayoutType.Scalar3D ∨
          get_layout_type (ex_src_grid.get_3d_vector_layout false CMP 2).tags =
            LayoutType.Vector3D) ∧
        tgt.tags = (ex_src_grid.get_3d_vector_layout false CMP 2).tags.dropLast ++ [LEV] ∧
        (ex_src_grid.get_3d_vector_layout false CMP 2).rank = tgt.rank ∧
        (if (ex_src_grid.get_3d_vector_layout false CMP 2).has_tag ILEV = true then
            ((ex_src_grid.get_3d_vector_layout false CMP 2).strip_dim ILEV).tags =
              (tgt.strip_dim LEV).tags
          else (ex_src_grid.get_3d_vector_layout false CMP 2).tags = tgt.tags) ∧
        (∀ (ids : FieldIdentifier → String) (P : Nat) (vr1 : VerticalRemapper) (ifield : Nat)
          (f_src f_tgt : Field), f_src.fid.layout = ex_src_grid.get_3d_vector_layout false CMP 2 →
          f_tgt.fid.layout = tgt →
          (do_bind_field ids P vr1 ifield f_src f_tgt).2 ≠ some RemapError.LayoutMismatch)) ∧
    create_tgt_layout ex_remapper0 ⟨[COL, TL, CMP], [1, 2, 3]⟩ =
      .error RemapError.UnsupportedLayout :=
  ⟨(create_tgt_layout_midpoints ex_remapper0).1 (ex_src_grid.get_3d_vector_layout false CMP 2)
      (Or.inr ⟨rfl, rfl⟩),
   (create_tgt_layout_midpoints ex_remapper0).2.1 (ex_src_grid.get_3d_vector_layout false CMP 2)
      ILEV (Or.inr rfl) (Or.inr rfl),
   (create_tgt_layout_midpoints ex_remapper0).2.2 ⟨[COL, TL, CMP], [1, 2, 3]⟩ (by decide)⟩

/-- The target layouts of the example: `(COL,ILEV)` with four interfaces goes to
`(COL,LEV)` with the three levels of the target grid, `(COL,CMP,ILEV)` to
`(COL,CMP,LEV)` with the same two components. -/
theorem create_tgt_layout_examples :
    create_tgt_layout ex_remapper0 (ex_src_grid.get_3d_scalar_layout false) =
      .ok ⟨[COL, LEV], [1, 3]⟩ ∧
    ex_src_grid.get_3d_scalar_layout false = ⟨[COL, ILEV], [1, 4]⟩ ∧
    create_tgt_layout ex_remapper0 (ex_src_grid.get_3d_vector_layout false CMP 2) =
      .ok ⟨[COL, CMP, LEV], [1, 2, 3]⟩ ∧
    ex_src_grid.get_3d_vector_layout false CMP 2 = ⟨[COL, CMP, ILEV], [1, 2, 4]⟩ :=
  ⟨rfl, rfl, rfl, rfl⟩

/-! ## A bind that fails -/

theorem bind_mask_tracking_state (ids : FieldIdentifier → String) (P : Nat)
    (vr : VerticalRemapper) (ifield : Nat) (src tgt : Field) :
    (bind_mask_tracking ids P vr ifield src tgt).2 = none ∨
    ((bind_mask_tracking ids P vr ifield src tgt).1.m_src_masks = vr.m_src_masks ∧
    (bind_mask_tracking ids P vr ifield src tgt).1.m_tgt_masks = vr.m_tgt_masks ∧
    (bind_mask_tracking ids P vr ifield src tgt).1.m_src_fields = vr.m_src_fields.set ifield src ∧
    ∃ t, (bind_mask_tracking ids P vr ifield src tgt).1.m_tgt_fields = vr.m_tgt_fields.set ifield t ∧
      t.fid = tgt.fid ∧ t.alloc = tgt.alloc ∧ t.allocated = tgt.allocated ∧
      t.mask_value = tgt.mask_value ∧ t.data = tgt.data) := by
  unfold bind_mask_tracking
  simp only
  repeat' split
  all_goals first
    | exact Or.inl rfl
    | exact Or.inr ⟨rfl, rfl, rfl, _, rfl, rfl, rfl, rfl, rfl, rfl⟩

theorem bind_mask_tracking_failure (ids : FieldIdentifier → String) (P : Nat)
    (vr : VerticalRemapper) (ifield : Nat) (src tgt : Field) (e : RemapError)
    (h : (bind_mask_tracking ids P vr ifield src tgt).2 = some e) :
    (bind_mask_tracking ids P vr ifield src tgt).1.m_src_masks = vr.m_src_masks ∧
    (bind_mask_tracking ids P vr ifield src tgt).1.m_tgt_masks = vr.m_tgt_masks ∧
    (bind_mask_tracking ids P vr ifield src tgt).1.m_src_fields = vr.m_src_fields.set ifield src ∧
    ∃ t, (bind_mask_tracking ids P vr ifield src tgt).1.m_tgt_fields = vr.m_tgt_fields.set ifield t ∧
      t.fid = tgt.fid ∧ t.alloc = tgt.alloc ∧ t.allocated = tgt.allocated ∧
      t.mask_value = tgt.mask_value ∧ t.data = tgt.data := by
  rcases bind_mask_tracking_state ids P vr ifield src tgt with h1 | h1
  · rw [h1] at h
    cases h
  · exact h1

/-- The claim C27 as stated fails: the bind of `ex_T_src` to a target that
already carries mask metadata is refused for duplicate mask metadata after the
pair has been stored at index 1. -/
theorem bind_failure_not_atomic : ¬ spec_bind_failure_claim := by
  intro h
  have h1 := h ex_id_string 1 ex_remapper0 1 ex_T_src ex_T_tgt_bound
    RemapError.DuplicateMaskAssignment (by decide)
  revert h1
  decide

/-- Claim C27, amended: when `do_bind_field` fails on its rank, tag or padding
check the state of the remapper is the same as before the call; whenever it
fails the lists of source masks and target masks are unchanged; when it fails
for duplicate mask metadata the source field has already been stored at
`ifield`, and the target field too (with at most its mask reference set). -/
theorem bind_failure_state (ids : FieldIdentifier → String) (P : Nat) (vr : VerticalRemapper)
    (ifield : Nat) (src tgt : Field) (e : RemapError)
    (h : (do_bind_field ids P vr ifield src tgt).2 = some e) :
    ((e = RemapError.LayoutMismatch ∨ e = RemapError.UnsupportedPadding) →
      (do_bind_field ids P vr ifield src tgt).1 = vr) ∧
    (do_bind_field ids P vr ifield src tgt).1.m_src_masks = vr.m_src_masks ∧
    (do_bind_field ids P vr ifield src tgt).1.m_tgt_masks = vr.m_tgt_masks ∧
    (e = RemapError.DuplicateMaskAssignment →
      (do_bind_field ids P vr ifield src tgt).1.m_src_fields = vr.m_src_fields.set ifield src ∧
      ∃ t, (do_bind_field ids P vr ifield src tgt).1.m_tgt_fields = vr.m_tgt_fields.set ifield t ∧
        t.fid = tgt.fid ∧ t.alloc = tgt.alloc ∧ t.allocated = tgt.allocated ∧
        t.mask_value = tgt.mask_value ∧ t.data = tgt.data) := by
  rw [do_bind_field_eq] at h ⊢
  split at h
  · rename_i h1
    simp only [h1, if_true]
    simp only [Option.some.injEq] at h
    subst h
    exact ⟨fun _ => rfl, rfl, rfl, fun hc => by cases hc⟩
  · rename_i h1
    simp only [h1, if_false]
    split at h
    · rename_i h2
      simp only [h2, if_true]
      simp only [Option.some.injEq] at h
      subst h
      exact ⟨fun _ => rfl, rfl, rfl, fun hc => by cases hc⟩
    · rename_i h2
      simp only [h2, if_false]
      obtain ⟨a, b, c, d⟩ := bind_mask_tracking_failure ids P vr ifield src tgt e h
      refine ⟨?_, a, b, fun _ => ⟨c, d⟩⟩
      intro hc
      rcases bind_mask_tracking_error _ _ _ _ _ _ _ h with h3 | h3 <;> subst h3 <;>
        rcases hc with hc | hc <;> cases hc

/-- The bind refused for duplicate mask metadata on the example. -/
theorem bind_failure_state_witness :
    ((RemapError.DuplicateMaskAssignment = RemapError.LayoutMismatch ∨
        RemapError.DuplicateMaskAssignment = RemapError.UnsupportedPadding) →
      (do_bind_field ex_id_string 1 ex_remapper0 1 ex_T_src ex_T_tgt_bound).1 = ex_remapper0) ∧
    (do_bind_field ex_id_string 1 ex_remapper0 1 ex_T_src ex_T_tgt_bound).1.m_src_masks =
      ex_remapper0.m_src_masks ∧
    (do_bind_field ex_id_string 1 ex_remapper0 1 ex_T_src ex_T_tgt_bound).1.m_tgt_masks =
      ex_remapper0.m_tgt_masks ∧
    (RemapError.DuplicateMaskAssignment = RemapError.DuplicateMaskAssignment →
      (do_bind_field ex_id_string 1 ex_remapper0 1 ex_T_src ex_T_tgt_bound).1.m_src_fields =
        ex_remapper0.m_src_fields.set 1 ex_T_src ∧
      ∃ t, (do_bind_field ex_id_string 1 ex_remapper0 1 ex_T_src ex_T_tgt_bound).1.m_tgt_fields =
          ex_remapper0.m_tgt_fields.set 1 t ∧
        t.fid = ex_T_tgt_bound.fid ∧ t.alloc = ex_T_tgt_bound.alloc ∧
        t.allocated = ex_T_tgt_bound.allocated ∧
        t.mask_value = ex_T_tgt_bound.mask_value ∧ t.data = ex_T_tgt_bound.data) :=
  bind_failure_state ex_id_string 1 ex_remapper0 1 ex_T_src ex_T_tgt_bound
    RemapError.DuplicateMaskAssignment (by decide)

/-- The failed bind of the example: refused for duplicate mask metadata, with
the pair already stored at index 1. -/
theorem bind_failure_example :
    (do_bind_field ex_id_string 1 ex_remapper0 1 ex_T_src ex_T_tgt_bound).2 =
      some RemapError.DuplicateMaskAssignment ∧
    (do_bind_field ex_id_string 1 ex_remapper0 1 ex_T_src ex_T_tgt_bound).1 ≠ ex_remapper0 ∧
    (do_bind_field ex_id_string 1 ex_remapper0 1 ex_T_src ex_T_tgt_bound).1.m_src_fields[1]? =
      some ex_T_src ∧
    ex_remapper0.m_src_fields[1]? = some (unallocated_field ex_ps_src.fid) := by
  decide

/-! ## SHOC: the count of shoc_init -/

theorem sum_map_range_packs (n : Nat) (f : Nat → Int) :
    ∀ K : Nat, ((List.range K).map (fun k =>
        ((List.range n).map (fun l => f (k * n + l))).sum)).sum =
      ((List.range (K * n)).map f).sum
  | 0 => by simp
  | K + 1 => by
    rw [List.range_succ, List.map_append, List.sum_append, sum_map_range_packs n f K,
      Nat.succ_mul, List.range_add, List.map_append, List.sum_append, List.map_map]
    simp [Function.comp_def]

theorem sum_map_range_tail (f : Nat → Int) (b : Nat) (h : ∀ j, b ≤ j → f j = 0) :
    ∀ d : Nat, ((List.range (b + d)).map f).sum = ((List.range b).map f).sum
  | 0 => by simp
  | d + 1 => by
    rw [← Nat.add_assoc, List.range_succ, List.map_append, List.sum_append,
      sum_map_range_tail f b h d]
    simp [h (b + d) (Nat.le_add_right b d)]

theorem sum_map_range_head (g : Nat → Int) (A : Nat) (h : ∀ k, k < A → g k = 0) (d : Nat) :
    ((List.range d).map (fun i => g (A + i))).sum = ((List.range (A + d)).map g).sum := by
  rw [List.range_add, List.map_append, List.sum_append, List.map_map]
  have h0 : ((List.range A).map g).sum = 0 := by
    apply List.sum_eq_zero
    intro x hx
    simp only [List.mem_map, List.mem_range] at hx
    obtain ⟨k, hk, rfl⟩ := hx
    exact h k hk
  rw [h0, zero_add]
  rfl

theorem sum_indicator_eq_countP {α : Type} (P : α → Bool) :
    ∀ l : List α, (l.map (fun x => if P x = true then (1 : Int) else 0)).sum = (l.countP P : Nat)
  | [] => by simp
  | x :: xs => by
    simp only [List.map_cons, List.sum_cons, sum_indicator_eq_countP P xs, List.countP_cons]
    by_cases hx : P x = true
    · simp [hx]; omega
    · simp [hx]

theorem TeamThreadRange_cast (A B : Nat) :
    TeamThreadRange (A : Int) (B : Int) = (List.range (B - A)).map (fun i => ((A + i : Nat) : Int)) := by
  unfold TeamThreadRange
  have h : ((B : Int) - (A : Int)).toNat = B - A := Int.toNat_sub B A
  rw [h]
  apply List.map_congr_left
  intro i _
  push_cast
  rfl

theorem shoc_init_pack_indices_cast (n b a : Nat) :
    shoc_init_pack_indices n (b : Int) (a : Int) =
      (List.range (b / n + 1 - a / n)).map (fun i => ((a / n + i : Nat) : Int)) := by
  unfold shoc_init_pack_indices
  simp only
  rw [← Int.ofNat_tdiv, ← Int.ofNat_tdiv]
  have h : ((b / n : Nat) : Int) + 1 = ((b / n + 1 : Nat) : Int) := by push_cast; rfl
  rw [h, TeamThreadRange_cast]

theorem level_at_cast (n : Nat) (v : List (List ℚ)) (K l : Nat) (hl : l < n) :
    level_at n v ((K * n + l : Nat) : Int) = (view_1d_at v (K : Int)).getD l 0 := by
  unfold level_at
  have hd : (K * n + l) / n = K := by
    rw [Nat.add_comm, Nat.add_mul_div_right _ _ (by omega), Nat.div_eq_of_lt hl, Nat.zero_add]
  have hm : (K * n + l) % n = l := by
    rw [Nat.add_comm, Nat.add_mul_mod_self_right, Nat.mod_eq_of_lt hl]
  rw [← Int.natCast_div, ← Int.natCast_mod, hd, hm, Int.toNat_ofNat]

theorem ekat_range_getD (n : Nat) (start : Int) (l : Nat) (hl : l < n) :
    (ekat_range n start).getD l 0 = start + (l : Int) := by
  unfold ekat_range
  simp [List.getD_eq_getElem?_getD, hl]

theorem shoc_init_pack_sum_cast (n : Nat) (pblmaxp : ℚ) (b a : Nat) (v : List (List ℚ)) (K : Nat) :
    shoc_init_pack_sum n pblmaxp (b : Int) (a : Int) v (K : Int) =
      ((List.range n).map (fun l => (fun j : Nat =>
        if (decide (a ≤ j) && decide (j < b) &&
          decide (level_at n v ((j : Nat) : Int) ≥ pblmaxp)) = true then (1 : Int) else 0)
        (K * n + l))).sum := by
  unfold shoc_init_pack_sum
  simp only
  congr 1
  apply List.map_congr_left
  intro l hl
  have hl1 : l < n := List.mem_range.mp hl
  rw [ekat_range_getD n _ l hl1, level_at_cast n v K l hl1]
  have h1 : ((K : Int) * (n : Int) + (l : Int) ≥ (a : Int)) ↔ a ≤ K * n + l := by
    constructor <;> intro h <;> push_cast at * <;> omega
  have h2 : ((K : Int) * (n : Int) + (l : Int) < (b : Int)) ↔ K * n + l < b := by
    constructor <;> intro h <;> push_cast at * <;> omega
  simp only [h1, h2]

theorem shoc_init_sum_cast (n : Nat) (hn : 0 < n) (pblmaxp : ℚ) (b a : Nat) (hab : a ≤ b)
    (v : List (List ℚ)) :
    ((shoc_init_pack_indices n (b : Int) (a : Int)).map
        (shoc_init_pack_sum n pblmaxp (b : Int) (a : Int) v)).sum =
      pbl_level_count (level_at n v) pblmaxp (b : Int) (a : Int) := by
  let F : Nat → Int := fun j =>
    if (decide (a ≤ j) && decide (j < b) &&
      decide (level_at n v ((j : Nat) : Int) ≥ pblmaxp)) = true then (1 : Int) else 0
  let G : Nat → Int := fun K => ((List.range n).map (fun l => F (K * n + l))).sum
  have hF0 : ∀ j, j < a → F j = 0 := by
    intro j hj
    have : ¬ a ≤ j := by omega
    simp [F, this]
  have hFb : ∀ j, b ≤ j → F j = 0 := by
    intro j hj
    have : ¬ j < b := by omega
    simp [F, this]
  have hG0 : ∀ K, K < a / n → G K = 0 := by
    intro K hK
    apply List.sum_eq_zero
    intro x hx
    simp only [List.mem_map, List.mem_range] at hx
    obtain ⟨l, hl, rfl⟩ := hx
    apply hF0
    have h1 : (K + 1) * n ≤ a / n * n := Nat.mul_le_mul_right n hK
    have h2 : a / n * n ≤ a := Nat.div_mul_le_self a n
    have h3 : (K + 1) * n = K * n + n := Nat.succ_mul K n
    omega
  have hdiv : a / n ≤ b / n := Nat.div_le_div_right hab
  rw [shoc_init_pack_indices_cast, List.map_map]
  have e1 : ((List.range (b / n + 1 - a / n)).map
      (shoc_init_pack_sum n pblmaxp (b : Int) (a : Int) v ∘ fun i => ((a / n + i : Nat) : Int))).sum =
      ((List.range (b / n + 1 - a / n)).map (fun i => G (a / n + i))).sum := by
    congr 1
    apply List.map_congr_left
    intro i _
    exact shoc_init_pack_sum_cast n pblmaxp b a v (a / n + i)
  rw [e1, sum_map_range_head G (a / n) hG0 (b / n + 1 - a / n)]
  have e2 : a / n + (b / n + 1 - a / n) = b / n + 1 := by omega
  rw [e2, sum_map_range_packs n F (b / n + 1)]
  have hlt : b < (b / n + 1) * n := by
    have h := Nat.div_add_mod b n
    have hm := Nat.mod_lt b hn
    have h3 : (b / n + 1) * n = n * (b / n) + n := by ring
    omega
  obtain ⟨d, hd⟩ : ∃ d, (b / n + 1) * n = b + d := ⟨(b / n + 1) * n - b, by omega⟩
  rw [hd, sum_map_range_tail F b hFb d]
  have e3 : ((List.range b).map F).sum = ((List.range (a + (b - a))).map F).sum := by
    congr 3
    omega
  rw [e3, ← sum_map_range_head F a hF0 (b - a)]
  unfold pbl_level_count
  rw [TeamThreadRange_cast, List.countP_map,
    ← sum_indicator_eq_countP]
  congr 1
  apply List.map_congr_left
  intro i hi
  have hi1 : i < b - a := List.mem_range.mp hi
  have h5 : a ≤ a + i := Nat.le_add_right a i
  have h6 : a + i < b := by omega
  simp [F, h6]

theorem num_packs_le_div (n len j : Nat) (hn : 0 < n) (h : num_packs n len ≤ j / n) : len ≤ j := by
  unfold num_packs at h
  by_contra hlt
  have hj : j < len := by omega
  have h1 : j / n ≤ (len - 1) / n := Nat.div_le_div_right (by omega)
  have h2 : (len - 1 + n) / n = (len - 1) / n + 1 := Nat.add_div_right _ hn
  have h3 : len + n - 1 = len - 1 + n := by omega
  rw [h3, h2] at h
  omega

theorem level_at_pack_view (n : Nat) (hn : 0 < n) (p : List ℚ) (j : Nat) :
    level_at n (pack_view n p) (j : Int) = p.getD j 0 := by
  unfold level_at view_1d_at
  rw [← Int.natCast_div, ← Int.natCast_mod]
  have hneg : ¬ ((j / n : Nat) : Int) < 0 := Int.not_lt.mpr (Int.natCast_nonneg _)
  simp only [hneg, if_false, Int.toNat_ofNat]
  by_cases hk : j / n < num_packs n p.length
  · have hm : j % n < n := Nat.mod_lt j hn
    have hj : j / n * n + j % n = j := by
      rw [Nat.mul_comm]; exact Nat.div_add_mod j n
    unfold pack_view
    simp [List.getD_eq_getElem?_getD, hk, hm, hj]
  · have hlen : p.length ≤ j := num_packs_le_div n p.length j hn (by omega)
    have h1 : (pack_view n p).getD (j / n) [] = [] := by
      have hr : (List.range (num_packs n p.length))[j / n]? = none :=
        List.getElem?_eq_none (by rw [List.length_range]; omega)
      unfold pack_view
      simp [List.getD_eq_getElem?_getD, hr]
    rw [h1]
    simp [List.getD_eq_getElem?_getD, List.getElem?_eq_none hlen]

theorem pbl_level_count_congr (f g : Int → ℚ) (pblmaxp : ℚ) (nbot ntop : Int) (h0 : 0 ≤ ntop)
    (h : ∀ j : Nat, f (j : Int) = g (j : Int)) :
    pbl_level_count f pblmaxp nbot ntop = pbl_level_count g pblmaxp nbot ntop := by
  unfold pbl_level_count
  congr 1
  apply List.countP_congr
  intro lev hlev
  unfold TeamThreadRange at hlev
  simp only [List.mem_map, List.mem_range] at hlev
  obtain ⟨i, -, rfl⟩ := hlev
  obtain ⟨a, rfl⟩ := Int.eq_ofNat_of_zero_le h0
  have := h (a + i)
  push_cast at this
  rw [this]

theorem pbl_level_count_le (f : Int → ℚ) (pblmaxp : ℚ) (nbot ntop : Int) (h1 : ntop ≤ nbot) :
    0 ≤ pbl_level_count f pblmaxp nbot ntop ∧
      pbl_level_count f pblmaxp nbot ntop ≤ nbot - ntop := by
  unfold pbl_level_count
  refine ⟨Int.natCast_nonneg _, ?_⟩
  have h := List.countP_le_length (fun lev => decide (f lev ≥ pblmaxp)) (l := TeamThreadRange ntop nbot)
  have hlen : (TeamThreadRange ntop nbot).length = (nbot - ntop).toNat := by
    simp [TeamThreadRange]
  rw [hlen] at h
  have h2 : ((nbot - ntop).toNat : Int) = nbot - ntop := Int.toNat_of_nonneg (by omega)
  omega

theorem shoc_init_eq (n : Nat) (hn : 0 < n) (pblmaxp : ℚ) (nbot ntop : Int)
    (h0 : 0 ≤ ntop) (h1 : ntop ≤ nbot) (v : List (List ℚ)) :
    shoc_init n pblmaxp nbot ntop v =
      max 1 (pbl_level_count (level_at n v) pblmaxp nbot ntop) := by
  obtain ⟨a, rfl⟩ := Int.eq_ofNat_of_zero_le h0
  obtain ⟨b, rfl⟩ := Int.eq_ofNat_of_zero_le (le_trans h0 h1)
  have hab : a ≤ b := by omega
  unfold shoc_init
  simp only
  rw [shoc_init_sum_cast n hn pblmaxp b a hab v]
  have hc := (pbl_level_count_le (level_at n v) pblmaxp (b : Int) (a : Int) h1).1
  split
  · rename_i hz
    rw [hz]
    rfl
  · rename_i hz
    omega

/-- Claim C28: for a pack size of at least one, `0 ≤ ntop_shoc ≤ nbot_shoc` and
every view `pref_mid`, `shoc_init` returns `max 1 c` where `c` is the number of
levels `lev` with `ntop_shoc ≤ lev < nbot_shoc` whose pressure is at least
`pblmaxp`; the result is at least 1 and at most `max 1 (nbot_shoc - ntop_shoc)`,
and on the view that holds a profile `p` it is the same whatever the pack
size. -/
theorem shoc_init_count (Spack_n : Nat) (pblmaxp : ℚ) (nbot_shoc ntop_shoc : Int)
    (pref_mid : List (List ℚ)) (hn : 0 < Spack_n)
    (h0 : 0 ≤ ntop_shoc) (h1 : ntop_shoc ≤ nbot_shoc) :
    shoc_init Spack_n pblmaxp nbot_shoc ntop_shoc pref_mid =
      max 1 (pbl_level_count (level_at Spack_n pref_mid) pblmaxp nbot_shoc ntop_shoc) ∧
    1 ≤ shoc_init Spack_n pblmaxp nbot_shoc ntop_shoc pref_mid ∧
    shoc_init Spack_n pblmaxp nbot_shoc ntop_shoc pref_mid ≤ max 1 (nbot_shoc - ntop_shoc) ∧
    (∀ (p : List ℚ) (n1 : Nat), 0 < n1 →
      shoc_init n1 pblmaxp nbot_shoc ntop_shoc (pack_view n1 p) =
        max 1 (pbl_level_count (fun lev => p.getD lev.toNat 0) pblmaxp nbot_shoc ntop_shoc)) := by
  have he := shoc_init_eq Spack_n hn pblmaxp nbot_shoc ntop_shoc h0 h1 pref_mid
  have hc := pbl_level_count_le (level_at Spack_n pref_mid) pblmaxp nbot_shoc ntop_shoc h1
  refine ⟨he, ?_, ?_, ?_⟩
  · rw [he]; exact le_max_left _ _
  · rw [he]; exact max_le_max (le_refl 1) hc.2
  · intro p n1 hn1
    rw [shoc_init_eq n1 hn1 pblmaxp nbot_shoc ntop_shoc h0 h1 (pack_view n1 p)]
    congr 1
    apply pbl_level_count_congr _ _ _ _ _ h0
    intro j
    rw [level_at_pack_view n1 hn1 p j, Int.toNat_ofNat]

/-- The count on the profile of four levels held in packs of two lanes. -/
theorem shoc_init_count_witness :
    shoc_init 2 40000 4 0 (pack_view 2 ex_pref_mid) =
      max 1 (pbl_level_count (level_at 2 (pack_view 2 ex_pref_mid)) 40000 4 0) ∧
    1 ≤ shoc_init 2 40000 4 0 (pack_view 2 ex_pref_mid) ∧
    shoc_init 2 40000 4 0 (pack_view 2 ex_pref_mid) ≤ max 1 (4 - 0) ∧
    (∀ (p : List ℚ) (n1 : Nat), 0 < n1 →
      shoc_init n1 40000 4 0 (pack_view n1 p) =
        max 1 (pbl_level_count (fun lev => p.getD lev.toNat 0) 40000 4 0)) :=
  shoc_init_count 2 40000 4 0 (pack_view 2 ex_pref_mid) (by decide) (by decide) (by decide)

/-- The values of `shoc_init` on the profile 20000, 35000, 60000, 95000 Pa with
`pblmaxp` at 40000 Pa: two levels, whatever the pack size; one when no level
qualifies. -/
theorem shoc_init_examples :
    shoc_init 1 40000 4 0 (pack_view 1 ex_pref_mid) = 2 ∧
    shoc_init 2 40000 4 0 (pack_view 2 ex_pref_mid) = 2 ∧
    shoc_init 4 40000 4 0 (pack_view 4 ex_pref_mid) = 2 ∧
    shoc_init 16 40000 4 0 (pack_view 16 ex_pref_mid) = 2 ∧
    shoc_init 2 40000 2 0 (pack_view 2 ex_pref_mid) = 1 ∧
    shoc_init 2 40000 4 3 (pack_view 2 ex_pref_mid) = 1 := by
  decide

theorem shoc_init_pack_indices_mem (n b a : Nat) (k : Int) :
    k ∈ shoc_init_pack_indices n (b : Int) (a : Int) ↔
      ((a / n : Nat) : Int) ≤ k ∧ k ≤ ((b / n : Nat) : Int) := by
  rw [shoc_init_pack_indices_cast]
  simp only [List.mem_map, List.mem_range]
  constructor
  · rintro ⟨i, hi, rfl⟩
    push_cast
    constructor <;> omega
  · rintro ⟨h1, h2⟩
    refine ⟨(k - ((a / n : Nat) : Int)).toNat, ?_, ?_⟩
    · omega
    · push_cast
      omega

theorem num_packs_of_dvd (n nlev : Nat) (hn : 0 < n) (hd : n ∣ nlev) :
    num_packs n nlev = nlev / n := by
  obtain ⟨c, rfl⟩ := hd
  unfold num_packs
  rw [Nat.mul_div_cancel_left c hn]
  have h1 : n * c + n - 1 = n - 1 + c * n := by
    have := Nat.mul_comm n c
    omega
  rw [h1, Nat.add_mul_div_right _ _ hn, Nat.div_eq_of_lt (by omega), Nat.zero_add]

/-- Claim C29, the code at the failing inputs: when the pack size divides the
number of levels `nlev`, `shoc_init` called with `ntop_shoc = 0` and
`nbot_shoc = nlev` reads the pack index `nlev / Spack_n`, which is the number of
packs of the view and not an index of it: the read is out of bounds. -/
theorem shoc_init_reads_past_last_pack (Spack_n nlev : Nat) (pref_mid : List (List ℚ))
    (hn : 0 < Spack_n) (hd : Spack_n ∣ nlev) (hlen : pref_mid.length = num_packs Spack_n nlev) :
    ((nlev / Spack_n : Nat) : Int) ∈ shoc_init_pack_indices Spack_n (nlev : Int) 0 ∧
    ¬ (nlev / Spack_n < num_packs Spack_n nlev) ∧
    pref_mid[nlev / Spack_n]? = none ∧
    view_1d_at pref_mid ((nlev / Spack_n : Nat) : Int) = [] := by
  have hnp := num_packs_of_dvd Spack_n nlev hn hd
  have hmem := (shoc_init_pack_indices_mem Spack_n nlev 0 ((nlev / Spack_n : Nat) : Int)).2
    ⟨Int.ofNat_le.mpr (Nat.div_le_div_right (Nat.zero_le nlev)), le_refl _⟩
  have hnone : pref_mid[nlev / Spack_n]? = none :=
    List.getElem?_eq_none (by rw [hlen, hnp])
  refine ⟨by simpa using hmem, by omega, hnone, ?_⟩
  unfold view_1d_at
  have hneg : ¬ ((nlev / Spack_n : Nat) : Int) < 0 := Int.not_lt.mpr (Int.natCast_nonneg _)
  simp only [hneg, if_false, Int.toNat_ofNat]
  simp [List.getD_eq_getElem?_getD, hnone]

/-- The read out of bounds with 128 levels in packs of 16 lanes: the view has
the packs 0 to 7 and the pack index 8 is read. -/
theorem shoc_init_reads_past_last_pack_witness :
    ((128 / 16 : Nat) : Int) ∈ shoc_init_pack_indices 16 ((128 : Nat) : Int) 0 ∧
    ¬ (128 / 16 < num_packs 16 128) ∧
    (pack_view 16 (List.replicate 128 50000))[128 / 16]? = none ∧
    view_1d_at (pack_view 16 (List.replicate 128 50000)) ((128 / 16 : Nat) : Int) = [] :=
  shoc_init_reads_past_last_pack 16 128 (pack_view 16 (List.replicate 128 50000))
    (by decide) (by decide) (by simp [pack_view])

/-- The pack indices read on small inputs: with packs of one lane and four
levels the packs are 0, 1, 2, 3 and the index 4 is read too; with packs of two
lanes and five levels the three packs 0, 1, 2 are read and no other. -/
theorem shoc_init_pack_indices_examples :
    shoc_init_pack_indices 1 4 0 = [0, 1, 2, 3, 4] ∧ num_packs 1 4 = 4 ∧
    shoc_init_pack_indices 2 4 0 = [0, 1, 2] ∧ num_packs 2 4 = 2 ∧
    shoc_init_pack_indices 2 5 0 = [0, 1, 2] ∧ num_packs 2 5 = 3 := by
  decide

/-! ## PAM: the copies between the host and the coupler -/

theorem DataManager.set_arrays (dm : DataManager) (name : String) (k j i iens : Nat) (v : ℚ)
    (n : String) (k1 j1 i1 e1 : Nat) :
    (dm.set name k j i iens v).arrays n k1 j1 i1 e1 =
      if n = name ∧ k1 = k ∧ j1 = j ∧ i1 = i ∧ e1 = iens then v else dm.arrays n k1 j1 i1 e1 := rfl

theorem copy_input_cell_t_prev (dm_host dm : DataManager) (k j i e : Nat) :
    (copy_input_cell dm_host dm k j i e).arrays "t_prev" k j i e =
      dm_host.arrays "state_q_prev" k j i e := by
  simp [copy_input_cell, DataManager.set_arrays, DataManager.get]

theorem copy_input_cell_qv_prev (dm_host dm : DataManager) (k j i e : Nat) :
    (copy_input_cell dm_host dm k j i e).arrays "qv_prev" k j i e =
      dm_host.arrays "state_t_prev" k j i e := by
  simp [copy_input_cell, DataManager.set_arrays, DataManager.get]

theorem copy_input_cell_other (dm_host dm : DataManager) (name : String) (k j i e k1 j1 i1 e1 : Nat)
    (h : (k1, j1, i1, e1) ≠ (k, j, i, e)) :
    (copy_input_cell dm_host dm k j i e).arrays name k1 j1 i1 e1 = dm.arrays name k1 j1 i1 e1 := by
  have h1 : ¬ (k1 = k ∧ j1 = j ∧ i1 = i ∧ e1 = e) := by
    rintro ⟨rfl, rfl, rfl, rfl⟩
    exact h rfl
  simp [copy_input_cell, DataManager.set_arrays, h1]

theorem foldl_cells_other (body : DataManager → Nat → Nat → Nat → Nat → DataManager)
    (name : String) (c : Nat × Nat × Nat × Nat)
    (hother : ∀ (dm : DataManager) (k j i e : Nat), c ≠ (k, j, i, e) →
      (body dm k j i e).arrays name c.1 c.2.1 c.2.2.1 c.2.2.2 =
        dm.arrays name c.1 c.2.1 c.2.2.1 c.2.2.2) :
    ∀ (cells : List (Nat × Nat × Nat × Nat)) (dm : DataManager), c ∉ cells →
      (cells.foldl (fun d x => body d x.1 x.2.1 x.2.2.1 x.2.2.2) dm).arrays name
        c.1 c.2.1 c.2.2.1 c.2.2.2 = dm.arrays name c.1 c.2.1 c.2.2.1 c.2.2.2
  | [], _, _ => rfl
  | x :: xs, dm, h => by
    simp only [List.mem_cons, not_or] at h
    rw [List.foldl_cons, foldl_cells_other body name c hother xs _ h.2]
    exact hother dm x.1 x.2.1 x.2.2.1 x.2.2.2 h.1

theorem foldl_cells_self (body : DataManager → Nat → Nat → Nat → Nat → DataManager)
    (name : String) (c : Nat × Nat × Nat × Nat) (v : ℚ)
    (hself : ∀ (dm : DataManager),
      (body dm c.1 c.2.1 c.2.2.1 c.2.2.2).arrays name c.1 c.2.1 c.2.2.1 c.2.2.2 = v)
    (hother : ∀ (dm : DataManager) (k j i e : Nat), c ≠ (k, j, i, e) →
      (body dm k j i e).arrays name c.1 c.2.1 c.2.2.1 c.2.2.2 =
        dm.arrays name c.1 c.2.1 c.2.2.1 c.2.2.2) :
    ∀ (cells : List (Nat × Nat × Nat × Nat)) (dm : DataManager), c ∈ cells →
      (cells.foldl (fun d x => body d x.1 x.2.1 x.2.2.1 x.2.2.2) dm).arrays name
        c.1 c.2.1 c.2.2.1 c.2.2.2 = v
  | [], _, h => by simp at h
  | x :: xs, dm, h => by
    rw [List.foldl_cons]
    by_cases hm : c ∈ xs
    · exact foldl_cells_self body name c v hself hother xs _ hm
    · have hx : c = x := by
        rcases List.mem_cons.mp h with h1 | h1
        · exact h1
        · exact absurd h1 hm
      rw [foldl_cells_other body name c hother xs _ hm, ← hx]
      exact hself dm

theorem mem_SimpleBounds4 (nz ny nx nens k j i e : Nat) :
    (k, j, i, e) ∈ SimpleBounds4 nz ny nx nens ↔ k < nz ∧ j < ny ∧ i < nx ∧ e < nens := by
  simp only [SimpleBounds4, List.mem_flatMap, List.mem_map, List.mem_range, Prod.mk.injEq]
  constructor
  · rintro ⟨a, ha, b, hb, c, hc, d, hd, rfl, rfl, rfl, rfl⟩
    exact ⟨ha, hb, hc, hd⟩
  · rintro ⟨ha, hb, hc, hd⟩
    exact ⟨k, ha, j, hb, i, hc, e, hd, rfl, rfl, rfl, rfl⟩

theorem copy_input_prev (coupler : PamCoupler) (k j i iens : Nat)
    (hk : k < coupler.dm_device.get_dimension_size "z")
    (hj : j < coupler.dm_device.get_dimension_size "y")
    (hi : i < coupler.dm_device.get_dimension_size "x")
    (he : iens < coupler.dm_device.get_dimension_size "nens") :
    (pam_state_copy_input_to_coupler coupler).dm_device.get "t_prev" k j i iens =
      coupler.dm_host.get "state_q_prev" k j i iens ∧
    (pam_state_copy_input_to_coupler coupler).dm_device.get "qv_prev" k j i iens =
      coupler.dm_host.get "state_t_prev" k j i iens := by
  have hmem := (mem_SimpleBounds4 _ _ _ _ k j i iens).2 ⟨hk, hj, hi, he⟩
  unfold pam_state_copy_input_to_coupler parallel_for4 DataManager.get
  simp only
  constructor
  · exact foldl_cells_self (copy_input_cell coupler.dm_host) "t_prev" (k, j, i, iens) _
      (fun dm => copy_input_cell_t_prev coupler.dm_host dm k j i iens)
      (fun dm k1 j1 i1 e1 h => copy_input_cell_other coupler.dm_host dm "t_prev" k1 j1 i1 e1
        k j i iens h) _ _ hmem
  · exact foldl_cells_self (copy_input_cell coupler.dm_host) "qv_prev" (k, j, i, iens) _
      (fun dm => copy_input_cell_qv_prev coupler.dm_host dm k j i iens)
      (fun dm k1 j1 i1 e1 h => copy_input_cell_other coupler.dm_host dm "qv_prev" k1 j1 i1 e1
        k j i iens h) _ _ hmem

theorem copy_output_prev (coupler : PamCoupler) :
    (pam_state_copy_output_to_gcm coupler).dm_host.get "state_t_prev" =
      coupler.dm_device.get "qv_prev" ∧
    (pam_state_copy_output_to_gcm coupler).dm_host.get "state_q_prev" =
      coupler.dm_device.get "t_prev" := by
  simp [pam_state_copy_output_to_gcm, DataManager.deep_copy_to, DataManager.get]

/-- Claim C30, the code at every input: after `pam_state_copy_input_to_coupler`,
at every cell of the CRM, the array `"t_prev"` of the coupler holds the host array
`"state_q_prev"` and the array `"qv_prev"` holds `"state_t_prev"` (the handle
`crm_t_prev` is bound to `"qv_prev"` and `crm_q_prev` to `"t_prev"`);
`pam_state_copy_output_to_gcm` copies `"qv_prev"` to `"state_t_prev"` and
`"t_prev"` to `"state_q_prev"`. -/
theorem pam_state_prev_swapped (coupler : PamCoupler) (k j i iens : Nat)
    (hk : k < coupler.dm_device.get_dimension_size "z")
    (hj : j < coupler.dm_device.get_dimension_size "y")
    (hi : i < coupler.dm_device.get_dimension_size "x")
    (he : iens < coupler.dm_device.get_dimension_size "nens") :
    (pam_state_copy_input_to_coupler coupler).dm_device.get "t_prev" k j i iens =
      coupler.dm_host.get "state_q_prev" k j i iens ∧
    (pam_state_copy_input_to_coupler coupler).dm_device.get "qv_prev" k j i iens =
      coupler.dm_host.get "state_t_prev" k j i iens ∧
    (pam_state_copy_output_to_gcm coupler).dm_host.get "state_t_prev" =
      coupler.dm_device.get "qv_prev" ∧
    (pam_state_copy_output_to_gcm coupler).dm_host.get "state_q_prev" =
      coupler.dm_device.get "t_prev" :=
  ⟨(copy_input_prev coupler k j i iens hk hj hi he).1,
   (copy_input_prev coupler k j i iens hk hj hi he).2,
   (copy_output_prev coupler).1, (copy_output_prev coupler).2⟩

/-- The copies on the coupler of the example, at its cell. -/
theorem pam_state_prev_swapped_witness :
    (pam_state_copy_input_to_coupler ex_coupler).dm_device.get "t_prev" 0 0 0 0 =
      ex_coupler.dm_host.get "state_q_prev" 0 0 0 0 ∧
    (pam_state_copy_input_to_coupler ex_coupler).dm_device.get "qv_prev" 0 0 0 0 =
      ex_coupler.dm_host.get "state_t_prev" 0 0 0 0 ∧
    (pam_state_copy_output_to_gcm ex_coupler).dm_host.get "state_t_prev" =
      ex_coupler.dm_device.get "qv_prev" ∧
    (pam_state_copy_output_to_gcm ex_coupler).dm_host.get "state_q_prev" =
      ex_coupler.dm_device.get "t_prev" :=
  pam_state_prev_swapped ex_coupler 0 0 0 0 (by decide) (by decide) (by decide) (by decide)

/-- The example: after the copy to the coupler the array `"t_prev"` holds the
water vapor 1/100 of the host and not its temperature 300, and the array
`"qv_prev"` holds the temperature. -/
theorem pam_state_prev_example :
    (pam_state_copy_input_to_coupler ex_coupler).dm_device.get "t_prev" 0 0 0 0 = 1 / 100 ∧
    (pam_state_copy_input_to_coupler ex_coupler).dm_device.get "qv_prev" 0 0 0 0 = 300 ∧
    ex_coupler.dm_host.get "state_t_prev" 0 0 0 0 = 300 ∧
    ex_coupler.dm_host.get "state_q_prev" 0 0 0 0 = 1 / 100 ∧
    (pam_state_copy_input_to_coupler ex_coupler).dm_device.get "t_prev" 0 0 0 0 ≠
      ex_coupler.dm_host.get "state_t_prev" 0 0 0 0 := by
  have h := copy_input_prev ex_coupler 0 0 0 0 (by decide) (by decide) (by decide) (by decide)
  have ht : ex_coupler.dm_host.get "state_t_prev" 0 0 0 0 = 300 := by
    simp [ex_coupler, ex_data_manager, DataManager.get]
  have hq : ex_coupler.dm_host.get "state_q_prev" 0 0 0 0 = 1 / 100 := by
    simp [ex_coupler, ex_data_manager, DataManager.get]
  refine ⟨h.1.trans hq, h.2.trans ht, ht, hq, ?_⟩
  rw [h.1, hq, ht]
  norm_num

end scream
